import Mathlib

/-!
# Pokemon trade record: stat data model and recalculation engine

A shallow embedding of `applications/external/pkmn_trader/pokemon_data.c`.

* C integers are natural numbers, reduced modulo `2 ^ w` wherever the C code
  converts to a `w`-bit unsigned type.
* `double` values are the rational numbers they denote; every arithmetic
  operation on doubles is followed by IEEE-754 binary64 rounding to nearest,
  ties to even (`f64_round`), and `sqrt` is the correctly rounded square root
  (`f64_sqrt`).
* A function that can call `furi_crash`, read outside an array or dereference
  `NULL` returns a `Res`; `pokemon_stat_get` also returns the record, because
  one of its cases assigns to it.
* `pokemon_stat_set` and `pokemon_recalculate` call each other; the embedding
  gives `pokemon_stat_set` a recursion budget and hands the setter with the
  smaller budget to `pokemon_recalculate` and its helpers.
* `rand()` is the explicit argument `rnd`, the value the call returns.
* The header `pokemon_data.h` and the text codec `pokemon_char_encode.c` are not
  among the sources. What the code needs from them is either an argument
  (`encode`, the codec) or a definition whose comment says so.
-/

namespace Pkmn

/-! ## Results of operations that can fail -/

/-- Why an operation did not return: `crash` is a call of `furi_crash`,
`undefined` is a read outside an array or through `NULL`, `fuel` is an exhausted
recursion budget of the embedding. -/
inductive Fault
  | crash
  | undefined
  | fuel
  deriving DecidableEq, Repr

/-- Outcome of an operation: a value, or the reason there is none. -/
inductive Res (α : Type)
  | ok (a : α)
  | fault (f : Fault)
  deriving DecidableEq, Repr

/-- Sequencing: the first fault ends the computation. -/
def Res.bind {α β : Type} (r : Res α) (f : α → Res β) : Res β :=
  match r with
  | Res.ok a => f a
  | Res.fault e => Res.fault e

/-- Element `i` of a C array given as a list; reading past its end is undefined. -/
def arr_get {α : Type} (xs : List α) (i : Nat) : Res α :=
  match xs.get? i with
  | some x => Res.ok x
  | none => Res.fault Fault.undefined

/-! ## IEEE-754 binary64 arithmetic on the values `stat_calc` meets -/

/-- Nearest integer to a rational, ties to the even neighbour. -/
def round_half_even (y : ℚ) : ℤ :=
  let f := ⌊y⌋
  if y - f < 1 / 2 then f
  else if 1 / 2 < y - f then f + 1
  else if f % 2 = 0 then f else f + 1

/-- Rounding of a rational in the normal range of binary64 to the nearest
double: the unit in the last place of `x` is `2 ^ (⌊log₂ |x|⌋ - 52)` (53
significand bits) and `x` is rounded to the nearest multiple of it. -/
def f64_round (x : ℚ) : ℚ :=
  if x = 0 then 0
  else
    let ulp : ℚ := 2 ^ (Int.log 2 |x| - 52)
    round_half_even (x / ulp) * ulp

/-- Correctly rounded binary64 square root of a natural number below `2 ^ 104`:
with `e = ⌊log₂ √n⌋` the result is `m * 2 ^ (e - 52)`, where `m` is the integer
nearest to `√n / 2 ^ (e - 52) = √(n * 4 ^ (52 - e))`; that root is never half way
between two integers, so there are no ties. -/
def f64_sqrt (n : ℕ) : ℚ :=
  if n = 0 then 0
  else
    let e : ℕ := Nat.log 2 n / 2
    let N : ℕ := n * 4 ^ (52 - e)
    let r : ℕ := Nat.sqrt N
    let m : ℕ := if N - r * r ≤ r then r else r + 1
    (m : ℚ) * 2 ^ ((e : ℤ) - 52)

/-! ## Identifiers -/

/-- In-party stat identifiers of the C enumeration `DataStat`, one constructor
for each name the code uses. The enumeration is declared in `pokemon_data.h`,
which is not among the sources; its sentry values `STAT`, `STAT_END`, `STAT_EV`
and `STAT_EV_END` only bound the two loops over the five stats and the five
effort values. -/
inductive DataStat
  | STAT_ATK | STAT_DEF | STAT_SPD | STAT_SPC | STAT_HP
  | STAT_ATK_EV | STAT_DEF_EV | STAT_SPD_EV | STAT_SPC_EV | STAT_HP_EV
  | STAT_IV
  | STAT_ATK_IV | STAT_DEF_IV | STAT_SPD_IV | STAT_SPC_IV | STAT_HP_IV
  | STAT_LEVEL | STAT_INDEX | STAT_NUM | STAT_MOVE | STAT_TYPE
  | STAT_OT_ID | STAT_SEL | STAT_EXP | STAT_CONDITION | STAT_GEN
  | STAT_NICKNAME | STAT_OT_NAME | STAT_TRAINER_NAME
  deriving DecidableEq, Repr

/-- The `STAT_BASE_*` identifiers of `DataStat`, the selectors of a catalog
column that `table_stat_base_get` switches on. -/
inductive BaseStat
  | STAT_BASE_ATK | STAT_BASE_DEF | STAT_BASE_SPD | STAT_BASE_SPC | STAT_BASE_HP
  | STAT_BASE_TYPE | STAT_BASE_MOVE | STAT_BASE_GROWTH
  deriving DecidableEq, Repr

open DataStat BaseStat

/-- The base selector that has the same number as an in-party stat.
`pokemon_stat_calc` passes its `stat` (one of `STAT_ATK` .. `STAT_HP`) straight
to `table_stat_base_get`, whose switch names `STAT_BASE_ATK` .. `STAT_BASE_HP`:
in the C enumeration `STAT_x` and `STAT_BASE_x` are the same value. No other
identifier reaches `table_stat_base_get` this way. -/
def DataStat.base : DataStat → Option BaseStat
  | STAT_ATK => some STAT_BASE_ATK
  | STAT_DEF => some STAT_BASE_DEF
  | STAT_SPD => some STAT_BASE_SPD
  | STAT_SPC => some STAT_BASE_SPC
  | STAT_HP => some STAT_BASE_HP
  | _ => none

/-! ## Constants -/

/-- Recalculation masks, the `RECALC_*` macros. -/
abbrev RECALC_NONE : ℕ := 0x00
abbrev RECALC_EXP : ℕ := 0x01
abbrev RECALC_EVIVS : ℕ := 0x02
abbrev RECALC_STATS : ℕ := 0x04
abbrev RECALC_NICKNAME : ℕ := 0x08
abbrev RECALC_MOVES : ℕ := 0x10
abbrev RECALC_TYPES : ℕ := 0x20
abbrev RECALC_ALL : ℕ := 0xFF

/-- Modelled from the spec: the generation tag `GEN_I` of the one supported
generation, declared in the missing `pokemon_data.h`. Its number is chosen
here; the theorems use only whether a record's tag equals it. -/
abbrev GEN_I : ℕ := 0

/-- Modelled from the spec: the six presets of the derived-stat selector
(`EvIv`, declared in the missing `pokemon_data.h`), numbered in the order
`stat_list` names them. The theorems use only that they are distinct. -/
abbrev RANDIV_ZEROEV : ℕ := 0
abbrev RANDIV_LEVELEV : ℕ := 1
abbrev RANDIV_MAXEV : ℕ := 2
abbrev MAXIV_ZEROEV : ℕ := 3
abbrev MAXIV_LEVELEV : ℕ := 4
abbrev MAXIV_MAXEV : ℕ := 5

/-- Modelled from the spec: the four growth-curve classes (declared in the
missing `pokemon_data.h`), with the numbers the game gives them. The theorems
use only that they are distinct. -/
abbrev GROWTH_MEDIUM_FAST : ℕ := 0
abbrev GROWTH_MEDIUM_SLOW : ℕ := 3
abbrev GROWTH_FAST : ℕ := 4
abbrev GROWTH_SLOW : ℕ := 5

/-- Modelled from the spec: the terminator byte `TERM_` that pads name
buffers, declared in the missing `pokemon_char_encode.h`. -/
abbrev TERM_ : ℕ := 0x50

/-- Modelled from the spec: the size `LEN_NAME_BUF` of a name buffer, a
10-byte nickname and its terminator, declared in the missing `pokemon_data.h`. -/
abbrev LEN_NAME_BUF : ℕ := 11

/-- Sub-indices (`DataStatSub`): `NONE`, the move slots, the type slots and the
experience bytes. They index `move[4]`, `type[2]` and `exp_tmp[3]` from their
first element, so each group starts at 0. -/
abbrev NONE : ℕ := 0
abbrev MOVE_0 : ℕ := 0
abbrev MOVE_1 : ℕ := 1
abbrev MOVE_2 : ℕ := 2
abbrev MOVE_3 : ℕ := 3
abbrev TYPE_0 : ℕ := 0
abbrev TYPE_1 : ℕ := 1
abbrev EXP_0 : ℕ := 0
abbrev EXP_1 : ℕ := 1
abbrev EXP_2 : ℕ := 2

/-! ## The species catalog -/

/-- One row of `pokemon_table` (`struct pokemon_data_table`); `name = none` is
the `NULL` name of the sentinel row. The icon pointer is left out: no function
of this file reads it except `table_icon_get`. -/
structure PokemonTable where
  name : Option String
  index : ℕ
  base_hp : ℕ
  base_atk : ℕ
  base_def : ℕ
  base_spd : ℕ
  base_spc : ℕ
  type : List ℕ
  move : List ℕ
  growth : ℕ
  deriving DecidableEq, Repr

/-- The static species catalog `pokemon_table`, rows in storage order, closed
by the zero-initialised sentinel row. -/
def pokemon_table : List PokemonTable :=
  [
        PokemonTable.mk (some "Bulbasaur") 0x99 0x2D 0x31 0x31 0x2D 0x41 [0x16, 0x03] [0x21, 0x2D, 0x00, 0x00] GROWTH_MEDIUM_SLOW,
    PokemonTable.mk (some "Ivysaur") 0x09 0x3C 0x3E 0x3F 0x3C 0x50 [0x16, 0x03] [0x21, 0x2D, 0x49, 0x00] GROWTH_MEDIUM_SLOW,
    PokemonTable.mk (some "Venusaur") 0x9A 0x50 0x52 0x53 0x50 0x64 [0x16, 0x03] [0x21, 0x2D, 0x49, 0x16] GROWTH_MEDIUM_SLOW,
    PokemonTable.mk (some "Charmander") 0xB0 0x27 0x34 0x2B 0x41 0x32 [0x14, 0x14] [0x0A, 0x2D, 0x00, 0x00] GROWTH_MEDIUM_SLOW,
    PokemonTable.mk (some "Charmeleon") 0xB2 0x3A 0x40 0x3A 0x50 0x41 [0x14, 0x14] [0x0A, 0x2D, 0x34, 0x00] GROWTH_MEDIUM_SLOW,
    PokemonTable.mk (some "Charizard") 0xB4 0x4E 0x54 0x4E 0x64 0x55 [0x14, 0x02] [0x0A, 0x2D, 0x34, 0x2B] GROWTH_MEDIUM_SLOW,
    PokemonTable.mk (some "Squirtle") 0xB1 0x2C 0x30 0x41 0x2B 0x32 [0x15, 0x15] [0x21, 0x27, 0x00, 0x00] GROWTH_MEDIUM_SLOW,
    PokemonTable.mk (some "Wartortle") 0xB3 0x3B 0x3F 0x50 0x3A 0x41 [0x15, 0x15] [0x21, 0x27, 0x91, 0x00] GROWTH_MEDIUM_SLOW,
    PokemonTable.mk (some "Blastoise") 0x1C 0x4F 0x53 0x64 0x4E 0x55 [0x15, 0x15] [0x21, 0x27, 0x91, 0x37] GROWTH_MEDIUM_SLOW,
    PokemonTable.mk (some "Caterpie") 0x7B 0x2D 0x1E 0x23 0x2D 0x14 [0x07, 0x07] [0x21, 0x51, 0x00, 0x00] GROWTH_MEDIUM_FAST,
    PokemonTable.mk (some "Metapod") 0x7C 0x32 0x14 0x37 0x1E 0x19 [0x07, 0x07] [0x6A, 0x00, 0x00, 0x00] GROWTH_MEDIUM_FAST,
    PokemonTable.mk (some "Butterfree") 0x7D 0x3C 0x2D 0x32 0x46 0x50 [0x07, 0x02] [0x5D, 0x00, 0x00, 0x00] GROWTH_MEDIUM_FAST,
    PokemonTable.mk (some "Weedle") 0x70 0x28 0x23 0x1E 0x32 0x14 [0x07, 0x03] [0x28, 0x51, 0x00, 0x00] GROWTH_MEDIUM_FAST,
    PokemonTable.mk (some "Kakuna") 0x71 0x2D 0x19 0x32 0x23 0x19 [0x07, 0x03] [0x6A, 0x00, 0x00, 0x00] GROWTH_MEDIUM_FAST,
    PokemonTable.mk (some "Beedrill") 0x72 0x41 0x50 0x28 0x4B 0x2D [0x07, 0x03] [0x1F, 0x00, 0x00, 0x00] GROWTH_MEDIUM_FAST,
    PokemonTable.mk (some "Pidgey") 0x24 0x28 0x2D 0x28 0x38 0x23 [0x00, 0x02] [0x10, 0x00, 0x00, 0x00] GROWTH_MEDIUM_SLOW,
    PokemonTable.mk (some "Pidgeotto") 0x96 0x3F 0x3C 0x37 0x47 0x32 [0x00, 0x02] [0x10, 0x1C, 0x00, 0x00] GROWTH_MEDIUM_SLOW,
    PokemonTable.mk (some "Pidgeot") 0x97 0x53 0x50 0x4B 0x5B 0x46 [0x00, 0x02] [0x10, 0x1C, 0x62, 0x00] GROWTH_MEDIUM_SLOW,
    PokemonTable.mk (some "Rattata") 0xA5 0x1E 0x38 0x23 0x48 0x19 [0x00, 0x00] [0x21, 0x27, 0x00, 0x00] GROWTH_MEDIUM_FAST,
    PokemonTable.mk (some "Raticate") 0xA6 0x37 0x51 0x3C 0x61 0x32 [0x00, 0x00] [0x21, 0x27, 0x62, 0x00] GROWTH_MEDIUM_FAST,
    PokemonTable.mk (some "Spearow") 0x05 0x28 0x3C 0x1E 0x46 0x1F [0x00, 0x02] [0x40, 0x2D, 0x00, 0x00] GROWTH_MEDIUM_FAST,
    PokemonTable.mk (some "Fearow") 0x23 0x41 0x5A 0x41 0x64 0x3D [0x00, 0x02] [0x40, 0x2D, 0x2B, 0x00] GROWTH_MEDIUM_FAST,
    PokemonTable.mk (some "Ekans") 0x6C 0x23 0x3C 0x2C 0x37 0x28 [0x03, 0x03] [0x23, 0x2B, 0x00, 0x00] GROWTH_MEDIUM_FAST,
    PokemonTable.mk (some "Arbok") 0x2D 0x3C 0x55 0x45 0x50 0x41 [0x03, 0x03] [0x23, 0x2B, 0x28, 0x00] GROWTH_MEDIUM_FAST,
    PokemonTable.mk (some "Pikachu") 0x54 0x23 0x37 0x1E 0x5A 0x32 [0x17, 0x17] [0x54, 0x2D, 0x00, 0x00] GROWTH_MEDIUM_FAST,
    PokemonTable.mk (some "Raichu") 0x55 0x3C 0x5A 0x37 0x64 0x5A [0x17, 0x17] [0x54, 0x2D, 0x56, 0x00] GROWTH_MEDIUM_FAST,
    PokemonTable.mk (some "Sandshrew") 0x60 0x32 0x4B 0x55 0x28 0x1E [0x04, 0x04] [0x0A, 0x00, 0x00, 0x00] GROWTH_MEDIUM_FAST,
    PokemonTable.mk (some "Sandslash") 0x61 0x4B 0x64 0x6E 0x41 0x37 [0x04, 0x04] [0x0A, 0x1C, 0x00, 0x00] GROWTH_MEDIUM_FAST,
    PokemonTable.mk (some "Nidoran\x80") 0x0F 0x37 0x2F 0x34 0x29 0x28 [0x03, 0x03] [0x2D, 0x21, 0x00, 0x00] GROWTH_MEDIUM_SLOW,
    PokemonTable.mk (some "Nidorina") 0xA8 0x46 0x3E 0x43 0x38 0x37 [0x03, 0x03] [0x2D, 0x21, 0x0A, 0x00] GROWTH_MEDIUM_SLOW,
    PokemonTable.mk (some "Nidoqueen") 0x10 0x5A 0x52 0x57 0x4C 0x4B [0x03, 0x04] [0x21, 0x0A, 0x27, 0x22] GROWTH_MEDIUM_SLOW,
    PokemonTable.mk (some "Nidoran\x81") 0x03 0x2E 0x39 0x28 0x32 0x28 [0x03, 0x03] [0x2B, 0x21, 0x00, 0x00] GROWTH_MEDIUM_SLOW,
    PokemonTable.mk (some "Nidorino") 0xA7 0x3D 0x48 0x39 0x41 0x37 [0x03, 0x03] [0x2B, 0x21, 0x1E, 0x00] GROWTH_MEDIUM_SLOW,
    PokemonTable.mk (some "Nidoking") 0x07 0x51 0x5C 0x4D 0x55 0x4B [0x03, 0x04] [0x21, 0x1E, 0x28, 0x25] GROWTH_MEDIUM_SLOW,
    PokemonTable.mk (some "Clefairy") 0x04 0x46 0x2D 0x30 0x23 0x3C [0x00, 0x00] [0x01, 0x2D, 0x00, 0x00] GROWTH_FAST,
    PokemonTable.mk (some "Clefable") 0x8E 0x5F 0x46 0x49 0x3C 0x55 [0x00, 0x00] [0x2F, 0x03, 0x6B, 0x76] GROWTH_FAST,
    PokemonTable.mk (some "Vulpix") 0x52 0x26 0x29 0x28 0x41 0x41 [0x14, 0x14] [0x34, 0x27, 0x00, 0x00] GROWTH_MEDIUM_FAST,
    PokemonTable.mk (some "Ninetales") 0x53 0x49 0x4C 0x4B 0x64 0x64 [0x14, 0x14] [0x34, 0x27, 0x62, 0x2E] GROWTH_MEDIUM_FAST,
    PokemonTable.mk (some "Jigglypuff") 0x64 0x73 0x2D 0x14 0x14 0x19 [0x00, 0x00] [0x2F, 0x00, 0x00, 0x00] GROWTH_FAST,
    PokemonTable.mk (some "Wigglytuff") 0x65 0x8C 0x46 0x2D 0x2D 0x32 [0x00, 0x00] [0x2F, 0x32, 0x6F, 0x03] GROWTH_FAST,
    PokemonTable.mk (some "Zubat") 0x6B 0x28 0x2D 0x23 0x37 0x28 [0x03, 0x02] [0x8D, 0x00, 0x00, 0x00] GROWTH_MEDIUM_FAST,
    PokemonTable.mk (some "Golbat") 0x82 0x4B 0x50 0x46 0x5A 0x4B [0x03, 0x02] [0x8D, 0x67, 0x2C, 0x00] GROWTH_MEDIUM_FAST,
    PokemonTable.mk (some "Oddish") 0xB9 0x2D 0x32 0x37 0x1E 0x4B [0x16, 0x03] [0x47, 0x00, 0x00, 0x00] GROWTH_MEDIUM_SLOW,
    PokemonTable.mk (some "Gloom") 0xBA 0x3C 0x41 0x46 0x28 0x55 [0x16, 0x03] [0x47, 0x4D, 0x4E, 0x00] GROWTH_MEDIUM_SLOW,
    PokemonTable.mk (some "Vileplume") 0xBB 0x4B 0x50 0x55 0x32 0x64 [0x16, 0x03] [0x4E, 0x4F, 0x33, 0x50] GROWTH_MEDIUM_SLOW,
    PokemonTable.mk (some "Paras") 0x6D 0x23 0x46 0x37 0x19 0x37 [0x07, 0x16] [0x0A, 0x00, 0x00, 0x00] GROWTH_MEDIUM_FAST,
    PokemonTable.mk (some "Parasect") 0x2E 0x3C 0x5F 0x50 0x1E 0x50 [0x07, 0x16] [0x0A, 0x4E, 0x8D, 0x00] GROWTH_MEDIUM_FAST,
    PokemonTable.mk (some "Venonat") 0x41 0x3C 0x37 0x32 0x2D 0x28 [0x07, 0x03] [0x21, 0x32, 0x00, 0x00] GROWTH_MEDIUM_FAST,
    PokemonTable.mk (some "Venomoth") 0x77 0x46 0x41 0x3C 0x5A 0x5A [0x07, 0x03] [0x21, 0x32, 0x4D, 0x8D] GROWTH_MEDIUM_FAST,
    PokemonTable.mk (some "Diglett") 0x3B 0x0A 0x37 0x19 0x5F 0x2D [0x04, 0x04] [0x0A, 0x00, 0x00, 0x00] GROWTH_MEDIUM_FAST,
    PokemonTable.mk (some "Dugtrio") 0x76 0x23 0x50 0x32 0x78 0x46 [0x04, 0x04] [0x0A, 0x2D, 0x5B, 0x00] GROWTH_MEDIUM_FAST,
    PokemonTable.mk (some "Meowth") 0x4D 0x28 0x2D 0x23 0x5A 0x28 [0x00, 0x00] [0x0A, 0x2D, 0x00, 0x00] GROWTH_MEDIUM_FAST,
    PokemonTable.mk (some "Persian") 0x90 0x41 0x46 0x3C 0x73 0x41 [0x00, 0x00] [0x0A, 0x2D, 0x2C, 0x67] GROWTH_MEDIUM_FAST,
    PokemonTable.mk (some "Psyduck") 0x2F 0x32 0x34 0x30 0x37 0x32 [0x15, 0x15] [0x0A, 0x00, 0x00, 0x00] GROWTH_MEDIUM_FAST,
    PokemonTable.mk (some "Golduck") 0x80 0x50 0x52 0x4E 0x55 0x50 [0x15, 0x15] [0x0A, 0x27, 0x32, 0x00] GROWTH_MEDIUM_FAST,
    PokemonTable.mk (some "Mankey") 0x39 0x28 0x50 0x23 0x46 0x23 [0x01, 0x01] [0x0A, 0x2B, 0x00, 0x00] GROWTH_MEDIUM_FAST,
    PokemonTable.mk (some "Primeape") 0x75 0x41 0x69 0x3C 0x5F 0x3C [0x01, 0x01] [0x0A, 0x2B, 0x02, 0x9A] GROWTH_MEDIUM_FAST,
    PokemonTable.mk (some "Growlithe") 0x21 0x37 0x46 0x2D 0x3C 0x32 [0x14, 0x14] [0x2C, 0x2E, 0x00, 0x00] GROWTH_SLOW,
    PokemonTable.mk (some "Arcanine") 0x14 0x5A 0x6E 0x50 0x5F 0x50 [0x14, 0x14] [0x2E, 0x34, 0x2B, 0x24] GROWTH_SLOW,
    PokemonTable.mk (some "Poliwag") 0x47 0x28 0x32 0x28 0x5A 0x28 [0x15, 0x15] [0x91, 0x00, 0x00, 0x00] GROWTH_MEDIUM_SLOW,
    PokemonTable.mk (some "Poliwhirl") 0x6E 0x41 0x41 0x41 0x5A 0x32 [0x15, 0x15] [0x91, 0x5F, 0x37, 0x00] GROWTH_MEDIUM_SLOW,
    PokemonTable.mk (some "Poliwrath") 0x6F 0x5A 0x55 0x5F 0x46 0x46 [0x15, 0x01] [0x5F, 0x37, 0x03, 0x22] GROWTH_MEDIUM_SLOW,
    PokemonTable.mk (some "Abra") 0x94 0x19 0x14 0x0F 0x5A 0x69 [0x18, 0x18] [0x64, 0x00, 0x00, 0x00] GROWTH_MEDIUM_SLOW,
    PokemonTable.mk (some "Kadabra") 0x26 0x28 0x23 0x1E 0x69 0x78 [0x18, 0x18] [0x64, 0x5D, 0x32, 0x00] GROWTH_MEDIUM_SLOW,
    PokemonTable.mk (some "Alakazam") 0x95 0x37 0x32 0x2D 0x78 0x87 [0x18, 0x18] [0x64, 0x5D, 0x32, 0x00] GROWTH_MEDIUM_SLOW,
    PokemonTable.mk (some "Machop") 0x6A 0x46 0x50 0x32 0x23 0x23 [0x01, 0x01] [0x02, 0x00, 0x00, 0x00] GROWTH_MEDIUM_SLOW,
    PokemonTable.mk (some "Machoke") 0x29 0x50 0x64 0x46 0x2D 0x32 [0x01, 0x01] [0x02, 0x43, 0x2B, 0x00] GROWTH_MEDIUM_SLOW,
    PokemonTable.mk (some "Machamp") 0x7E 0x5A 0x82 0x50 0x37 0x41 [0x01, 0x01] [0x02, 0x43, 0x2B, 0x00] GROWTH_MEDIUM_SLOW,
    PokemonTable.mk (some "Bellsprout") 0xBC 0x32 0x4B 0x23 0x28 0x46 [0x16, 0x03] [0x16, 0x4A, 0x00, 0x00] GROWTH_MEDIUM_SLOW,
    PokemonTable.mk (some "Weepinbell") 0xBD 0x41 0x5A 0x32 0x37 0x55 [0x16, 0x03] [0x16, 0x4A, 0x23, 0x00] GROWTH_MEDIUM_SLOW,
    PokemonTable.mk (some "Victreebel") 0xBE 0x50 0x69 0x41 0x46 0x64 [0x16, 0x03] [0x4F, 0x4E, 0x33, 0x4B] GROWTH_MEDIUM_SLOW,
    PokemonTable.mk (some "Tentacool") 0x18 0x28 0x28 0x23 0x46 0x64 [0x15, 0x03] [0x33, 0x00, 0x00, 0x00] GROWTH_SLOW,
    PokemonTable.mk (some "Tentacruel") 0x9B 0x50 0x46 0x41 0x64 0x78 [0x15, 0x03] [0x33, 0x30, 0x23, 0x00] GROWTH_SLOW,
    PokemonTable.mk (some "Geodude") 0xA9 0x28 0x50 0x64 0x14 0x1E [0x05, 0x04] [0x21, 0x00, 0x00, 0x00] GROWTH_MEDIUM_SLOW,
    PokemonTable.mk (some "Graveler") 0x27 0x37 0x5F 0x73 0x23 0x2D [0x05, 0x04] [0x21, 0x6F, 0x00, 0x00] GROWTH_MEDIUM_SLOW,
    PokemonTable.mk (some "Golem") 0x31 0x50 0x6E 0x82 0x2D 0x37 [0x05, 0x04] [0x21, 0x6F, 0x00, 0x00] GROWTH_MEDIUM_SLOW,
    PokemonTable.mk (some "Ponyta") 0xA3 0x32 0x55 0x37 0x5A 0x41 [0x14, 0x14] [0x34, 0x00, 0x00, 0x00] GROWTH_MEDIUM_FAST,
    PokemonTable.mk (some "Rapidash") 0xA4 0x41 0x64 0x46 0x69 0x50 [0x14, 0x14] [0x34, 0x27, 0x17, 0x2D] GROWTH_MEDIUM_FAST,
    PokemonTable.mk (some "Slowpoke") 0x25 0x5A 0x41 0x41 0x0F 0x28 [0x15, 0x18] [0x5D, 0x00, 0x00, 0x00] GROWTH_MEDIUM_FAST,
    PokemonTable.mk (some "Slowbro") 0x08 0x5F 0x4B 0x6E 0x1E 0x50 [0x15, 0x18] [0x5D, 0x32, 0x1D, 0x00] GROWTH_MEDIUM_FAST,
    PokemonTable.mk (some "Magnemite") 0xAD 0x19 0x23 0x46 0x2D 0x5F [0x17, 0x17] [0x21, 0x00, 0x00, 0x00] GROWTH_MEDIUM_FAST,
    PokemonTable.mk (some "Magneton") 0x36 0x32 0x3C 0x5F 0x46 0x78 [0x17, 0x17] [0x21, 0x31, 0x54, 0x00] GROWTH_MEDIUM_FAST,
    PokemonTable.mk (some "Farfetch\x27d") 0x40 0x34 0x41 0x37 0x3C 0x3A [0x00, 0x02] [0x40, 0x1C, 0x00, 0x00] GROWTH_MEDIUM_FAST,
    PokemonTable.mk (some "Doduo") 0x46 0x23 0x55 0x2D 0x4B 0x23 [0x00, 0x02] [0x40, 0x00, 0x00, 0x00] GROWTH_MEDIUM_FAST,
    PokemonTable.mk (some "Dodrio") 0x74 0x3C 0x6E 0x46 0x64 0x3C [0x00, 0x02] [0x40, 0x2D, 0x1F, 0x00] GROWTH_MEDIUM_FAST,
    PokemonTable.mk (some "Seel") 0x3A 0x41 0x2D 0x37 0x2D 0x46 [0x15, 0x15] [0x1D, 0x00, 0x00, 0x00] GROWTH_MEDIUM_FAST,
    PokemonTable.mk (some "Dewgong") 0x78 0x5A 0x46 0x50 0x46 0x5F [0x15, 0x19] [0x1D, 0x2D, 0x3E, 0x00] GROWTH_MEDIUM_FAST,
    PokemonTable.mk (some "Grimer") 0x0D 0x50 0x50 0x32 0x19 0x28 [0x03, 0x03] [0x01, 0x32, 0x00, 0x00] GROWTH_MEDIUM_FAST,
    PokemonTable.mk (some "Muk") 0x88 0x69 0x69 0x4B 0x32 0x41 [0x03, 0x03] [0x01, 0x32, 0x8B, 0x00] GROWTH_MEDIUM_FAST,
    PokemonTable.mk (some "Shellder") 0x17 0x1E 0x41 0x64 0x28 0x2D [0x15, 0x15] [0x21, 0x6E, 0x00, 0x00] GROWTH_SLOW,
    PokemonTable.mk (some "Cloyster") 0x8B 0x32 0x5F 0xB4 0x46 0x55 [0x15, 0x19] [0x6E, 0x30, 0x80, 0x3E] GROWTH_SLOW,
    PokemonTable.mk (some "Gastly") 0x19 0x1E 0x23 0x1E 0x50 0x64 [0x08, 0x03] [0x7A, 0x6D, 0x65, 0x00] GROWTH_MEDIUM_SLOW,
    PokemonTable.mk (some "Haunter") 0x93 0x2D 0x32 0x2D 0x5F 0x73 [0x08, 0x03] [0x7A, 0x6D, 0x65, 0x00] GROWTH_MEDIUM_SLOW,
    PokemonTable.mk (some "Gengar") 0x0E 0x3C 0x41 0x3C 0x6E 0x82 [0x08, 0x03] [0x7A, 0x6D, 0x65, 0x00] GROWTH_MEDIUM_SLOW,
    PokemonTable.mk (some "Onix") 0x22 0x23 0x2D 0xA0 0x46 0x1E [0x05, 0x04] [0x21, 0x67, 0x00, 0x00] GROWTH_MEDIUM_FAST,
    PokemonTable.mk (some "Drowzee") 0x30 0x3C 0x30 0x2D 0x2A 0x5A [0x18, 0x18] [0x01, 0x5F, 0x00, 0x00] GROWTH_MEDIUM_FAST,
    PokemonTable.mk (some "Hypno") 0x81 0x55 0x49 0x46 0x43 0x73 [0x18, 0x18] [0x01, 0x5F, 0x32, 0x5D] GROWTH_MEDIUM_FAST,
    PokemonTable.mk (some "Krabby") 0x4E 0x1E 0x69 0x5A 0x32 0x19 [0x15, 0x15] [0x91, 0x2B, 0x00, 0x00] GROWTH_MEDIUM_FAST,
    PokemonTable.mk (some "Kingler") 0x8A 0x37 0x82 0x73 0x4B 0x32 [0x15, 0x15] [0x91, 0x2B, 0x0B, 0x00] GROWTH_MEDIUM_FAST,
    PokemonTable.mk (some "Voltorb") 0x06 0x28 0x1E 0x32 0x64 0x37 [0x17, 0x17] [0x21, 0x67, 0x00, 0x00] GROWTH_MEDIUM_FAST,
    PokemonTable.mk (some "Electrode") 0x8D 0x3C 0x32 0x46 0x8C 0x50 [0x17, 0x17] [0x21, 0x67, 0x31, 0x00] GROWTH_MEDIUM_FAST,
    PokemonTable.mk (some "Exeggcute") 0x0C 0x3C 0x28 0x50 0x28 0x3C [0x16, 0x18] [0x8C, 0x5F, 0x00, 0x00] GROWTH_SLOW,
    PokemonTable.mk (some "Exeggutor") 0x0A 0x5F 0x5F 0x55 0x37 0x7D [0x16, 0x18] [0x8C, 0x5F, 0x00, 0x00] GROWTH_SLOW,
    PokemonTable.mk (some "Cubone") 0x11 0x32 0x32 0x5F 0x23 0x28 [0x04, 0x04] [0x7D, 0x2D, 0x00, 0x00] GROWTH_MEDIUM_FAST,
    PokemonTable.mk (some "Marowak") 0x91 0x3C 0x50 0x6E 0x2D 0x32 [0x04, 0x04] [0x7D, 0x2D, 0x2B, 0x74] GROWTH_MEDIUM_FAST,
    PokemonTable.mk (some "Hitmonlee") 0x2B 0x32 0x78 0x35 0x57 0x23 [0x01, 0x01] [0x18, 0x60, 0x00, 0x00] GROWTH_MEDIUM_FAST,
    PokemonTable.mk (some "Hitmonchan") 0x2C 0x32 0x69 0x4F 0x4C 0x23 [0x01, 0x01] [0x04, 0x61, 0x00, 0x00] GROWTH_MEDIUM_FAST,
    PokemonTable.mk (some "Lickitung") 0x0B 0x5A 0x37 0x4B 0x1E 0x3C [0x00, 0x00] [0x23, 0x30, 0x00, 0x00] GROWTH_MEDIUM_FAST,
    PokemonTable.mk (some "Koffing") 0x37 0x28 0x41 0x5F 0x23 0x3C [0x03, 0x03] [0x21, 0x7B, 0x00, 0x00] GROWTH_MEDIUM_FAST,
    PokemonTable.mk (some "Weezing") 0x8F 0x41 0x5A 0x78 0x3C 0x55 [0x03, 0x03] [0x21, 0x7B, 0x7C, 0x00] GROWTH_MEDIUM_FAST,
    PokemonTable.mk (some "Rhyhorn") 0x12 0x50 0x55 0x5F 0x19 0x1E [0x04, 0x05] [0x1E, 0x00, 0x00, 0x00] GROWTH_SLOW,
    PokemonTable.mk (some "Rhydon") 0x01 0x69 0x82 0x78 0x28 0x2D [0x04, 0x05] [0x1E, 0x17, 0x27, 0x1F] GROWTH_SLOW,
    PokemonTable.mk (some "Chansey") 0x28 0xFA 0x05 0x05 0x32 0x69 [0x00, 0x00] [0x01, 0x03, 0x00, 0x00] GROWTH_FAST,
    PokemonTable.mk (some "Tangela") 0x1E 0x41 0x37 0x73 0x3C 0x64 [0x16, 0x16] [0x84, 0x14, 0x00, 0x00] GROWTH_MEDIUM_FAST,
    PokemonTable.mk (some "Kangaskhan") 0x02 0x69 0x5F 0x50 0x5A 0x28 [0x00, 0x00] [0x04, 0x63, 0x00, 0x00] GROWTH_MEDIUM_FAST,
    PokemonTable.mk (some "Horsea") 0x5C 0x1E 0x28 0x46 0x3C 0x46 [0x15, 0x15] [0x91, 0x00, 0x00, 0x00] GROWTH_MEDIUM_FAST,
    PokemonTable.mk (some "Seadra") 0x5D 0x37 0x41 0x5F 0x55 0x5F [0x15, 0x15] [0x91, 0x6C, 0x00, 0x00] GROWTH_MEDIUM_FAST,
    PokemonTable.mk (some "Goldeen") 0x9D 0x2D 0x43 0x3C 0x3F 0x32 [0x15, 0x15] [0x40, 0x27, 0x00, 0x00] GROWTH_MEDIUM_FAST,
    PokemonTable.mk (some "Seaking") 0x9E 0x50 0x5C 0x41 0x44 0x50 [0x15, 0x15] [0x40, 0x27, 0x30, 0x00] GROWTH_MEDIUM_FAST,
    PokemonTable.mk (some "Staryu") 0x1B 0x1E 0x2D 0x37 0x55 0x46 [0x15, 0x15] [0x21, 0x00, 0x00, 0x00] GROWTH_SLOW,
    PokemonTable.mk (some "Starmie") 0x98 0x3C 0x4B 0x55 0x73 0x64 [0x15, 0x18] [0x21, 0x37, 0x6A, 0x00] GROWTH_SLOW,
    PokemonTable.mk (some "Mr.Mime") 0x2A 0x28 0x2D 0x41 0x5A 0x64 [0x18, 0x18] [0x5D, 0x70, 0x00, 0x00] GROWTH_MEDIUM_FAST,
    PokemonTable.mk (some "Scyther") 0x1A 0x46 0x6E 0x50 0x69 0x37 [0x07, 0x02] [0x62, 0x00, 0x00, 0x00] GROWTH_MEDIUM_FAST,
    PokemonTable.mk (some "Jynx") 0x48 0x41 0x32 0x23 0x5F 0x5F [0x19, 0x18] [0x01, 0x8E, 0x00, 0x00] GROWTH_MEDIUM_FAST,
    PokemonTable.mk (some "Electabuzz") 0x35 0x41 0x53 0x39 0x69 0x55 [0x17, 0x17] [0x62, 0x2B, 0x00, 0x00] GROWTH_MEDIUM_FAST,
    PokemonTable.mk (some "Magmar") 0x33 0x41 0x5F 0x39 0x5D 0x55 [0x14, 0x14] [0x34, 0x00, 0x00, 0x00] GROWTH_MEDIUM_FAST,
    PokemonTable.mk (some "Pinsir") 0x1D 0x41 0x7D 0x64 0x55 0x37 [0x07, 0x07] [0x0B, 0x00, 0x00, 0x00] GROWTH_SLOW,
    PokemonTable.mk (some "Tauros") 0x3C 0x4B 0x64 0x5F 0x6E 0x46 [0x00, 0x00] [0x21, 0x00, 0x00, 0x00] GROWTH_SLOW,
    PokemonTable.mk (some "Magikarp") 0x85 0x14 0x0A 0x37 0x50 0x14 [0x15, 0x15] [0x96, 0x00, 0x00, 0x00] GROWTH_SLOW,
    PokemonTable.mk (some "Gyarados") 0x16 0x5F 0x7D 0x4F 0x51 0x64 [0x15, 0x02] [0x2C, 0x52, 0x2B, 0x38] GROWTH_SLOW,
    PokemonTable.mk (some "Lapras") 0x13 0x82 0x55 0x50 0x3C 0x5F [0x15, 0x19] [0x37, 0x2D, 0x00, 0x00] GROWTH_SLOW,
    PokemonTable.mk (some "Ditto") 0x4C 0x30 0x30 0x30 0x30 0x30 [0x00, 0x00] [0x90, 0x00, 0x00, 0x00] GROWTH_MEDIUM_FAST,
    PokemonTable.mk (some "Eevee") 0x66 0x37 0x37 0x32 0x37 0x41 [0x00, 0x00] [0x21, 0x1C, 0x00, 0x00] GROWTH_MEDIUM_FAST,
    PokemonTable.mk (some "Vaporeon") 0x69 0x82 0x41 0x3C 0x41 0x6E [0x15, 0x15] [0x21, 0x1C, 0x62, 0x37] GROWTH_MEDIUM_FAST,
    PokemonTable.mk (some "Jolteon") 0x68 0x41 0x41 0x3C 0x82 0x6E [0x17, 0x17] [0x21, 0x1C, 0x62, 0x54] GROWTH_MEDIUM_FAST,
    PokemonTable.mk (some "Flareon") 0x67 0x41 0x82 0x3C 0x41 0x6E [0x14, 0x14] [0x21, 0x1C, 0x62, 0x34] GROWTH_MEDIUM_FAST,
    PokemonTable.mk (some "Porygon") 0xAA 0x41 0x3C 0x46 0x28 0x4B [0x00, 0x00] [0x21, 0x9F, 0xA0, 0x00] GROWTH_MEDIUM_FAST,
    PokemonTable.mk (some "Omanyte") 0x62 0x23 0x28 0x64 0x23 0x5A [0x05, 0x15] [0x37, 0x6E, 0x00, 0x00] GROWTH_MEDIUM_FAST,
    PokemonTable.mk (some "Omastar") 0x63 0x46 0x3C 0x7D 0x37 0x73 [0x05, 0x15] [0x37, 0x6E, 0x1E, 0x00] GROWTH_MEDIUM_FAST,
    PokemonTable.mk (some "Kabuto") 0x5A 0x1E 0x50 0x5A 0x37 0x2D [0x05, 0x15] [0x0A, 0x6A, 0x00, 0x00] GROWTH_MEDIUM_FAST,
    PokemonTable.mk (some "Kabutops") 0x5B 0x3C 0x73 0x69 0x50 0x46 [0x05, 0x15] [0x0A, 0x6A, 0x47, 0x00] GROWTH_MEDIUM_FAST,
    PokemonTable.mk (some "Aerodactyl") 0xAB 0x50 0x69 0x41 0x82 0x3C [0x05, 0x02] [0x11, 0x61, 0x00, 0x00] GROWTH_SLOW,
    PokemonTable.mk (some "Snorlax") 0x84 0xA0 0x6E 0x41 0x1E 0x41 [0x00, 0x00] [0x1D, 0x85, 0x9C, 0x00] GROWTH_SLOW,
    PokemonTable.mk (some "Articuno") 0x4A 0x5A 0x55 0x64 0x55 0x7D [0x19, 0x02] [0x40, 0x3A, 0x00, 0x00] GROWTH_SLOW,
    PokemonTable.mk (some "Zapdos") 0x4B 0x5A 0x5A 0x55 0x64 0x7D [0x17, 0x02] [0x54, 0x41, 0x00, 0x00] GROWTH_SLOW,
    PokemonTable.mk (some "Moltres") 0x49 0x5A 0x64 0x5A 0x5A 0x7D [0x14, 0x02] [0x40, 0x53, 0x00, 0x00] GROWTH_SLOW,
    PokemonTable.mk (some "Dratini") 0x58 0x29 0x40 0x2D 0x32 0x32 [0x1A, 0x1A] [0x23, 0x2B, 0x00, 0x00] GROWTH_SLOW,
    PokemonTable.mk (some "Dragonair") 0x59 0x3D 0x54 0x41 0x46 0x46 [0x1A, 0x1A] [0x23, 0x2B, 0x56, 0x00] GROWTH_SLOW,
    PokemonTable.mk (some "Dragonite") 0x42 0x5B 0x86 0x5F 0x50 0x64 [0x1A, 0x02] [0x23, 0x2B, 0x56, 0x61] GROWTH_SLOW,
    PokemonTable.mk (some "Mewtwo") 0x83 0x6A 0x6E 0x5A 0x82 0x9A [0x18, 0x18] [0x5D, 0x32, 0x81, 0x5E] GROWTH_SLOW,
    PokemonTable.mk (some "Mew") 0x15 0x64 0x64 0x64 0x64 0x64 [0x18, 0x18] [0x01, 0x00, 0x00, 0x00] GROWTH_MEDIUM_SLOW,
    PokemonTable.mk none 0 0 0 0 0 0 [0, 0] [0, 0, 0, 0] 0
  ]

/-! ## The record -/

/-- One party member (`PokemonPartyGenI`), a field for every member of the
packed C structure; `def_` is the C member `def`. The arrays `type[2]`,
`move[4]` and `exp[3]` are spelt out slot by slot. Multi-byte members hold the
16-bit word as the C code stores it, that is byte-swapped. -/
structure PokemonPartyGenI where
  index : ℕ
  hp : ℕ
  level_again : ℕ
  status_condition : ℕ
  type0 : ℕ
  type1 : ℕ
  catch_held : ℕ
  move0 : ℕ
  move1 : ℕ
  move2 : ℕ
  move3 : ℕ
  ot_id : ℕ
  exp0 : ℕ
  exp1 : ℕ
  exp2 : ℕ
  hp_ev : ℕ
  atk_ev : ℕ
  def_ev : ℕ
  spd_ev : ℕ
  spc_ev : ℕ
  iv : ℕ
  move_pp : List ℕ
  level : ℕ
  max_hp : ℕ
  atk : ℕ
  def_ : ℕ
  spd : ℕ
  spc : ℕ
  deriving DecidableEq, Repr

/-- The trade block (`TradeBlockGenI`). Each per-member array is split into
its element 0, the only one this file writes, and the list of the remaining
elements: `party_members[7]`, `party[6]`, `ot_name[6]`, `nickname[6]`. A name is
the byte array `str[LEN_NAME_BUF]`. -/
structure TradeBlockGenI where
  trainer_name : List ℕ
  party_cnt : ℕ
  party_members0 : ℕ
  party_members_rest : List ℕ
  party0 : PokemonPartyGenI
  party_rest : List PokemonPartyGenI
  ot_name0 : List ℕ
  ot_name_rest : List (List ℕ)
  nickname0 : List ℕ
  nickname_rest : List (List ℕ)
  deriving DecidableEq, Repr

/-- The record (`PokemonData`): generation tag, derived-stat selector and the
trade block. The C member `party` points at `trade_block->party[0]`, here
`PokemonData.party`; the list pointers always address the static tables and are
not stored. -/
structure PokemonData where
  gen : ℕ
  stat_sel : ℕ
  trade_block : TradeBlockGenI
  deriving DecidableEq, Repr

/-- The member `pdata->party` addresses: element 0 of the party array. -/
def PokemonData.party (pdata : PokemonData) : PokemonPartyGenI :=
  pdata.trade_block.party0

/-- Store through `pdata->party`. -/
def PokemonData.set_party (pdata : PokemonData) (p : PokemonPartyGenI) : PokemonData :=
  { pdata with trade_block := { pdata.trade_block with party0 := p } }

/-! ## Small C library functions -/

/-- The builtin `__builtin_bswap16` on a 16-bit word. -/
def bswap16 (v : ℕ) : ℕ :=
  (v % 256) * 256 + (v / 256) % 256

/-- The bytes of a string literal, without its terminating zero. -/
def cstr (s : String) : List ℕ :=
  s.toList.map Char.toNat

/-- The library function `toupper` in the C locale, on a byte. -/
def toupper (c : ℕ) : ℕ :=
  if 97 ≤ c ∧ c ≤ 122 then c - 32 else c

/-- The library function `strncpy(buf, src, n)` for a source string `src`
(given without its terminating zero): the `n` bytes written to `buf` are the
first `n` bytes of `src`, followed by zeros when `src` is shorter. -/
def strncpy (src : List ℕ) (n : ℕ) : List ℕ :=
  src.take n ++ List.replicate (n - src.length) 0

/-- The text codec `pokemon_str_to_encoded_array(dest, src, n)` of the missing
`pokemon_char_encode.c`, a function from the destination buffer, the source
characters and the length to the new destination buffer. It is an argument of
every definition that sets a name. -/
abbrev Encoder : Type := List ℕ → List ℕ → ℕ → List ℕ

/-- What a definition that writes derived fields is given as `pokemon_stat_set`:
record, identifier, sub-index and value to the new record. -/
abbrev Setter : Type := PokemonData → DataStat → ℕ → ℕ → Res PokemonData

/-! ## The stat formula -/

/-- Translation of `stat_calc`. The C expression
`floor((((2 * (base + iv)) + floor(sqrt(ev) / 4)) * level) / 100)` is evaluated
in `double`: `sqrt(ev) / 4`, the sum, the product and the quotient by `100` are
each rounded to binary64. The result is converted to `uint16_t`, and the
additions of `level + 10` or `5` are `uint16_t` additions. -/
def stat_calc (base iv ev level : ℕ) (stat : DataStat) : ℕ :=
  let quarter : ℚ := ⌊f64_round (f64_sqrt ev / 4)⌋
  let sum : ℚ := f64_round (((2 * (base + iv) : ℕ) : ℚ) + quarter)
  let prod : ℚ := f64_round (sum * (level : ℚ))
  let quot : ℚ := f64_round (prod / 100)
  let tmp : ℕ := ⌊quot⌋.toNat % 65536
  if stat = STAT_HP then (tmp + (level + 10)) % 65536
  else (tmp + 5) % 65536

/-! ## Catalog lookups -/

/-- The loop of `table_pokemon_pos_get` from row `i` on, `rows` being the rows
of the array from position `i`. A row is first compared with the wanted code
and only then tested for the `NULL` name that ends the scan; running past the
last row of the array is a read outside it. -/
def table_pokemon_pos_scan (index : ℕ) : List PokemonTable → ℕ → Res ℕ
  | [], _ => Res.fault Fault.undefined
  | row :: rows, i =>
    if row.index = index then Res.ok i
    else if row.name = none then Res.ok 0
    else table_pokemon_pos_scan index rows (i + 1)

/-- Translation of `table_pokemon_pos_get`; `index` is a `uint8_t`. -/
def table_pokemon_pos_get (table : List PokemonTable) (index : ℕ) : Res ℕ :=
  table_pokemon_pos_scan (index % 256) table 0

/-- Translation of `table_stat_name_get`. -/
def table_stat_name_get (table : List PokemonTable) (num : ℕ) : Res (Option String) :=
  (arr_get table num).bind fun row => Res.ok row.name

/-! ## Array members of a party member -/

/-- Read `move[which]`. -/
def PokemonPartyGenI.move_get (p : PokemonPartyGenI) (which : ℕ) : Res ℕ :=
  match which with
  | 0 => Res.ok p.move0
  | 1 => Res.ok p.move1
  | 2 => Res.ok p.move2
  | 3 => Res.ok p.move3
  | _ => Res.fault Fault.undefined

/-- Write `move[which]`. -/
def PokemonPartyGenI.move_set (p : PokemonPartyGenI) (which v : ℕ) : Res PokemonPartyGenI :=
  match which with
  | 0 => Res.ok { p with move0 := v }
  | 1 => Res.ok { p with move1 := v }
  | 2 => Res.ok { p with move2 := v }
  | 3 => Res.ok { p with move3 := v }
  | _ => Res.fault Fault.undefined

/-- Read `type[which]`. -/
def PokemonPartyGenI.type_get (p : PokemonPartyGenI) (which : ℕ) : Res ℕ :=
  match which with
  | 0 => Res.ok p.type0
  | 1 => Res.ok p.type1
  | _ => Res.fault Fault.undefined

/-- Write `type[which]`. -/
def PokemonPartyGenI.type_set (p : PokemonPartyGenI) (which v : ℕ) : Res PokemonPartyGenI :=
  match which with
  | 0 => Res.ok { p with type0 := v }
  | 1 => Res.ok { p with type1 := v }
  | _ => Res.fault Fault.undefined

/-- Write `exp[which]`. -/
def PokemonPartyGenI.exp_set (p : PokemonPartyGenI) (which v : ℕ) : Res PokemonPartyGenI :=
  match which with
  | 0 => Res.ok { p with exp0 := v }
  | 1 => Res.ok { p with exp1 := v }
  | 2 => Res.ok { p with exp2 := v }
  | _ => Res.fault Fault.undefined

/-! ## The accessor -/

/-- Translation of `pokemon_stat_get`. The result is the returned `uint16_t`
together with the record after the call: the case `STAT_CONDITION` is
`return party->status_condition = val`, an assignment of `val = 0`. A case
whose `if(gen == GEN_I)` fails falls through to `return __builtin_bswap16(val)`
with `val = 0`. -/
def pokemon_stat_get (pdata : PokemonData) (stat : DataStat) (which : ℕ) :
    Res (ℕ × PokemonData) :=
  let party := pdata.party
  let gen := pdata.gen
  let val : ℕ := 0
  match stat with
  | STAT_ATK => Res.ok (bswap16 (if gen = GEN_I then party.atk else val), pdata)
  | STAT_DEF => Res.ok (bswap16 (if gen = GEN_I then party.def_ else val), pdata)
  | STAT_SPD => Res.ok (bswap16 (if gen = GEN_I then party.spd else val), pdata)
  | STAT_SPC => Res.ok (bswap16 (if gen = GEN_I then party.spc else val), pdata)
  | STAT_HP => Res.ok (bswap16 (if gen = GEN_I then party.hp else val), pdata)
  | STAT_ATK_EV => Res.ok (bswap16 (if gen = GEN_I then party.atk_ev else val), pdata)
  | STAT_DEF_EV => Res.ok (bswap16 (if gen = GEN_I then party.def_ev else val), pdata)
  | STAT_SPD_EV => Res.ok (bswap16 (if gen = GEN_I then party.spd_ev else val), pdata)
  | STAT_SPC_EV => Res.ok (bswap16 (if gen = GEN_I then party.spc_ev else val), pdata)
  | STAT_HP_EV => Res.ok (bswap16 (if gen = GEN_I then party.hp_ev else val), pdata)
  | STAT_ATK_IV =>
    if gen = GEN_I then Res.ok ((party.iv >>> 12) &&& 0x0F, pdata)
    else Res.ok (bswap16 val, pdata)
  | STAT_DEF_IV =>
    if gen = GEN_I then Res.ok ((party.iv >>> 8) &&& 0x0F, pdata)
    else Res.ok (bswap16 val, pdata)
  | STAT_SPD_IV =>
    if gen = GEN_I then Res.ok ((party.iv >>> 4) &&& 0x0F, pdata)
    else Res.ok (bswap16 val, pdata)
  | STAT_SPC_IV =>
    if gen = GEN_I then Res.ok (party.iv &&& 0x0F, pdata)
    else Res.ok (bswap16 val, pdata)
  | STAT_HP_IV =>
    if gen = GEN_I then Res.ok ((party.iv &&& 0xAA) >>> 4, pdata)
    else Res.ok (bswap16 val, pdata)
  | STAT_LEVEL =>
    if gen = GEN_I then Res.ok (party.level, pdata)
    else Res.ok (bswap16 val, pdata)
  | STAT_INDEX =>
    if gen = GEN_I then Res.ok (party.index, pdata)
    else Res.ok (bswap16 val, pdata)
  | STAT_NUM =>
    (table_pokemon_pos_get pokemon_table (if gen = GEN_I then party.index else val)).bind
      fun pos => Res.ok (pos, pdata)
  | STAT_MOVE =>
    if gen = GEN_I then (party.move_get which).bind fun m => Res.ok (m, pdata)
    else Res.ok (bswap16 val, pdata)
  | STAT_TYPE =>
    if gen = GEN_I then (party.type_get which).bind fun t => Res.ok (t, pdata)
    else Res.ok (bswap16 val, pdata)
  | STAT_OT_ID => Res.ok (bswap16 (if gen = GEN_I then party.ot_id else val), pdata)
  | STAT_SEL =>
    if gen = GEN_I then Res.ok (pdata.stat_sel % 65536, pdata)
    else Res.ok (bswap16 val, pdata)
  | STAT_CONDITION =>
    if gen = GEN_I then
      Res.ok (val % 256, pdata.set_party { party with status_condition := val % 256 })
    else Res.ok (bswap16 val, pdata)
  | STAT_GEN => Res.ok (GEN_I, pdata)
  | _ => Res.fault Fault.crash

/-! ## Names -/

/-- Translation of `pokemon_name_set`: the buffer is filled with `TERM_` over
`LEN_NAME_BUF` bytes and handed to the codec with the length of the field;
`name` is the character array the argument points at. -/
def pokemon_name_set (encode : Encoder) (pdata : PokemonData) (stat : DataStat)
    (name : List ℕ) : Res PokemonData :=
  let cleared := List.replicate LEN_NAME_BUF TERM_
  match stat with
  | STAT_NICKNAME =>
    Res.ok { pdata with
      trade_block := { pdata.trade_block with nickname0 := encode cleared name 10 } }
  | STAT_OT_NAME =>
    Res.ok { pdata with
      trade_block := { pdata.trade_block with ot_name0 := encode cleared name 7 } }
  | STAT_TRAINER_NAME =>
    Res.ok { pdata with
      trade_block := { pdata.trade_block with trainer_name := encode cleared name 7 } }
  | _ => Res.fault Fault.crash

/-- The text decoder `pokemon_encoded_array_to_str(dest, src, n)` of the missing
`pokemon_char_encode.c`, a function from the destination characters, the
encoded buffer and the length to the new destination characters. It is an
argument of the definition that reads a name. -/
abbrev Decoder : Type := List ℕ → List ℕ → ℕ → List ℕ

/-- Translation of `pokemon_name_get`; the result is the character array `dest`
after the call. -/
def pokemon_name_get (decode : Decoder) (pdata : PokemonData) (stat : DataStat)
    (dest : List ℕ) (len : ℕ) : Res (List ℕ) :=
  match stat with
  | STAT_NICKNAME => Res.ok (decode dest pdata.trade_block.nickname0 len)
  | STAT_OT_NAME => Res.ok (decode dest pdata.trade_block.ot_name0 len)
  | _ => Res.fault Fault.crash

/-- Translation of `pokemon_default_nickname_set`. The result carries the
scratch buffer `buf`, which the C function copies to `dest` when `dest` is not
`NULL`. A `NULL` species name makes `strncpy` read through `NULL`. -/
def pokemon_default_nickname_set (encode : Encoder) (pdata : PokemonData) :
    Res (List ℕ × PokemonData) :=
  (pokemon_stat_get pdata STAT_NUM NONE).bind fun num =>
  (table_stat_name_get pokemon_table num.1).bind fun name =>
    match name with
    | none => Res.fault Fault.undefined
    | some s =>
      let buf := (strncpy (cstr s) LEN_NAME_BUF).map toupper
      (pokemon_name_set encode num.2 STAT_NICKNAME buf).bind fun pdata1 =>
        Res.ok (buf, pdata1)

/-! ## Catalog columns of the current species -/

/-- Translation of `table_stat_base_get`. The case `STAT_BASE_ATK` returns the
column `base_hp`, as the source does. -/
def table_stat_base_get (table : List PokemonTable) (pdata : PokemonData) (stat : BaseStat)
    (num : ℕ) : Res (ℕ × PokemonData) :=
  (pokemon_stat_get pdata STAT_NUM NONE).bind fun pkmnnum =>
  (arr_get table pkmnnum.1).bind fun row =>
    match stat with
    | STAT_BASE_ATK => Res.ok (row.base_hp, pkmnnum.2)
    | STAT_BASE_DEF => Res.ok (row.base_def, pkmnnum.2)
    | STAT_BASE_SPD => Res.ok (row.base_spd, pkmnnum.2)
    | STAT_BASE_SPC => Res.ok (row.base_spc, pkmnnum.2)
    | STAT_BASE_HP => Res.ok (row.base_hp, pkmnnum.2)
    | STAT_BASE_TYPE => (arr_get row.type num).bind fun t => Res.ok (t, pkmnnum.2)
    | STAT_BASE_MOVE => (arr_get row.move num).bind fun m => Res.ok (m, pkmnnum.2)
    | STAT_BASE_GROWTH => Res.ok (row.growth, pkmnnum.2)

/-! ## Effort and individual values -/

/-- Translation of `pokemon_stat_ev_get`. -/
def pokemon_stat_ev_get (pdata : PokemonData) (stat : DataStat) : Res (ℕ × PokemonData) :=
  match stat with
  | STAT_ATK => pokemon_stat_get pdata STAT_ATK_EV NONE
  | STAT_DEF => pokemon_stat_get pdata STAT_DEF_EV NONE
  | STAT_SPD => pokemon_stat_get pdata STAT_SPD_EV NONE
  | STAT_SPC => pokemon_stat_get pdata STAT_SPC_EV NONE
  | STAT_HP => pokemon_stat_get pdata STAT_HP_EV NONE
  | _ => Res.fault Fault.crash

/-- Translation of `pokemon_stat_iv_get`; the result is a `uint8_t`. -/
def pokemon_stat_iv_get (pdata : PokemonData) (stat : DataStat) : Res (ℕ × PokemonData) :=
  let r :=
    match stat with
    | STAT_ATK => pokemon_stat_get pdata STAT_ATK_IV NONE
    | STAT_DEF => pokemon_stat_get pdata STAT_DEF_IV NONE
    | STAT_SPD => pokemon_stat_get pdata STAT_SPD_IV NONE
    | STAT_SPC => pokemon_stat_get pdata STAT_SPC_IV NONE
    | STAT_HP => pokemon_stat_get pdata STAT_HP_IV NONE
    | _ => Res.fault Fault.crash
  r.bind fun v => Res.ok (v.1 % 256, v.2)

/-- A counted C loop: `f` is run for each element of the list in turn, on the
record the step before left; the first fault ends it. -/
def Res.loop {α β : Type} (f : β → α → Res β) : β → List α → Res β
  | b, [] => Res.ok b
  | b, a :: as => (f b a).bind fun b1 => Res.loop f b1 as

/-- The switch of `pokemon_stat_ev_calc` on the preset `val`: the `uint16_t`
effort value `ev` for a level. -/
def stat_ev_switch (val level : ℕ) : ℕ :=
  if val = RANDIV_LEVELEV ∨ val = MAXIV_LEVELEV then ((0xffff / 100) * level) % 65536
  else if val = RANDIV_MAXEV ∨ val = MAXIV_MAXEV then 0xffff
  else 0

/-- Translation of `pokemon_stat_ev_calc`. The loop
`for(i = STAT_EV; i < STAT_EV_END; i++)` runs over the five effort values. -/
def pokemon_stat_ev_calc (set : Setter) (pdata : PokemonData) (val : ℕ) : Res PokemonData :=
  (pokemon_stat_get pdata STAT_LEVEL NONE).bind fun lv =>
    let level := lv.1
    let ev : ℕ := stat_ev_switch val level
    Res.loop (fun pd i => set pd i NONE ev) lv.2
      [STAT_ATK_EV, STAT_DEF_EV, STAT_SPD_EV, STAT_SPC_EV, STAT_HP_EV]

/-- The switch of `pokemon_stat_iv_calc` on the preset `val`: the `uint16_t`
word `iv`; `rnd` is what `rand()` returns. -/
def stat_iv_switch (rnd val : ℕ) : ℕ :=
  if val = RANDIV_ZEROEV ∨ val = RANDIV_LEVELEV ∨ val = RANDIV_MAXEV then rnd % 65536
  else 0xFFFF

/-- Translation of `pokemon_stat_iv_calc`. -/
def pokemon_stat_iv_calc (set : Setter) (rnd : ℕ) (pdata : PokemonData) (val : ℕ) :
    Res PokemonData :=
  let iv : ℕ := stat_iv_switch rnd val
  set pdata STAT_IV NONE iv

/-! ## Experience -/

/-- Translation of `pokemon_exp_set` with the macro `UINT32_TO_EXP`. -/
def pokemon_exp_set (set : Setter) (pdata : PokemonData) (exp : ℕ) : Res PokemonData :=
  let exp_tmp : List ℕ := [(exp >>> 16) &&& 0xFF, (exp >>> 8) &&& 0xFF, exp &&& 0xFF]
  Res.loop (fun pd i => (arr_get exp_tmp i).bind fun b => set pd STAT_EXP i b) pdata
    [EXP_0, EXP_1, EXP_2]

/-- The switch of `pokemon_exp_calc` on the growth class: the curve value,
computed in `int`; an unknown class is `furi_crash`. -/
def exp_switch (growth : ℕ) (level : ℤ) : Res ℤ :=
  if growth = GROWTH_FAST then Res.ok ((4 * level * level * level) / 5)
  else if growth = GROWTH_MEDIUM_FAST then Res.ok (level * level * level)
  else if growth = GROWTH_MEDIUM_SLOW then
    Res.ok (((level * level * level) * 6 / 5) - (15 * level * level) + (100 * level) - 140)
  else if growth = GROWTH_SLOW then Res.ok ((5 * level * level * level) / 4)
  else Res.fault Fault.crash

/-- Translation of `pokemon_exp_calc`. The curve value is assigned to the
`uint32_t exp`, that is reduced modulo `2 ^ 32`. -/
def pokemon_exp_calc (set : Setter) (pdata : PokemonData) : Res PokemonData :=
  (table_stat_base_get pokemon_table pdata STAT_BASE_GROWTH NONE).bind fun g =>
    let growth := g.1 % 256
    (pokemon_stat_get g.2 STAT_LEVEL NONE).bind fun lv =>
      let level : ℤ := (lv.1 : ℤ)
      (exp_switch growth level).bind fun e => pokemon_exp_set set lv.2 (e % 2 ^ 32).toNat

/-! ## Final stats -/

/-- Translation of `pokemon_stat_calc`. The locals `level`, `stat_base` and
`stat_iv` are `uint8_t`, `stat_ev` is `uint16_t`. An identifier that is none of
the five stats matches no case of `table_stat_base_get` that the code relies on
and none of `pokemon_stat_ev_get`. -/
def pokemon_stat_calc (set : Setter) (pdata : PokemonData) (stat : DataStat) :
    Res PokemonData :=
  (pokemon_stat_get pdata STAT_LEVEL NONE).bind fun lv =>
    let level := lv.1 % 256
    match stat.base with
    | none => Res.fault Fault.crash
    | some b =>
      (table_stat_base_get pokemon_table lv.2 b NONE).bind fun sb =>
        let stat_base := sb.1 % 256
        (pokemon_stat_ev_get sb.2 stat).bind fun se =>
          let stat_ev := se.1 % 65536
          (pokemon_stat_iv_get se.2 stat).bind fun si =>
            let stat_iv := si.1 % 256
            let stat_tmp := stat_calc stat_base stat_iv stat_ev level stat
            set si.2 stat NONE stat_tmp

/-! ## Recalculation and the mutator -/

/-- Translation of `pokemon_recalculate`; `set` is `pokemon_stat_set`, `recalc`
a `uint8_t` mask. The groups run in the order of the source: nickname, moves,
types, experience, effort then individual values, final stats. -/
def pokemon_recalculate (encode : Encoder) (set : Setter) (rnd : ℕ) (pdata : PokemonData)
    (recalc : ℕ) : Res PokemonData :=
  if recalc = RECALC_NONE then Res.ok pdata
  else
    (if recalc &&& RECALC_NICKNAME ≠ 0 then
        (pokemon_default_nickname_set encode pdata).bind fun r => Res.ok r.2
      else Res.ok pdata).bind fun pdata1 =>
    (if recalc &&& RECALC_MOVES ≠ 0 then
        Res.loop (fun pd i =>
          (table_stat_base_get pokemon_table pd STAT_BASE_MOVE i).bind fun m =>
            set m.2 STAT_MOVE i m.1) pdata1 [MOVE_0, MOVE_1, MOVE_2, MOVE_3]
      else Res.ok pdata1).bind fun pdata2 =>
    (if recalc &&& RECALC_TYPES ≠ 0 then
        Res.loop (fun pd i =>
          (table_stat_base_get pokemon_table pd STAT_BASE_TYPE i).bind fun t =>
            set t.2 STAT_TYPE i t.1) pdata2 [TYPE_0, TYPE_1]
      else Res.ok pdata2).bind fun pdata3 =>
    (if recalc &&& RECALC_EXP ≠ 0 then pokemon_exp_calc set pdata3
      else Res.ok pdata3).bind fun pdata4 =>
    (if recalc &&& RECALC_EVIVS ≠ 0 then
        (pokemon_stat_ev_calc set pdata4 pdata4.stat_sel).bind fun pdata5 =>
          pokemon_stat_iv_calc set rnd pdata5 pdata5.stat_sel
      else Res.ok pdata4).bind fun pdata6 =>
    if recalc &&& RECALC_STATS ≠ 0 then
      Res.loop (fun pd i => pokemon_stat_calc set pd i) pdata6
        [STAT_ATK, STAT_DEF, STAT_SPD, STAT_SPC, STAT_HP]
    else Res.ok pdata6

/-- Translation of `pokemon_stat_set`. The first argument after the codec is
the recursion budget: the nested calls (from the case `STAT_NUM` and from
`pokemon_recalculate`) get one less. `val` is a `uint16_t`, stores into
`uint8_t` members keep its low byte. The switch yields the record after the
write and the recalculation mask. -/
def pokemon_stat_set (encode : Encoder) : ℕ → ℕ → PokemonData → DataStat → ℕ → ℕ →
    Res PokemonData
  | 0, _, _, _, _, _ => Res.fault Fault.fuel
  | fuel + 1, rnd, pdata, stat, which, val0 =>
    let set : Setter := pokemon_stat_set encode fuel rnd
    let party := pdata.party
    let gen := pdata.gen
    let val := val0 % 65536
    let val_swap := bswap16 val
    let switch : Res (PokemonData × ℕ) :=
      match stat with
      | STAT_ATK =>
        Res.ok (if gen = GEN_I then pdata.set_party { party with atk := val_swap } else pdata,
          RECALC_NONE)
      | STAT_DEF =>
        Res.ok (if gen = GEN_I then pdata.set_party { party with def_ := val_swap } else pdata,
          RECALC_NONE)
      | STAT_SPD =>
        Res.ok (if gen = GEN_I then pdata.set_party { party with spd := val_swap } else pdata,
          RECALC_NONE)
      | STAT_SPC =>
        Res.ok (if gen = GEN_I then pdata.set_party { party with spc := val_swap } else pdata,
          RECALC_NONE)
      | STAT_HP =>
        Res.ok (if gen = GEN_I then
            pdata.set_party { party with hp := val_swap, max_hp := val_swap }
          else pdata, RECALC_NONE)
      | STAT_ATK_EV =>
        Res.ok (if gen = GEN_I then pdata.set_party { party with atk_ev := val_swap }
          else pdata, RECALC_NONE)
      | STAT_DEF_EV =>
        Res.ok (if gen = GEN_I then pdata.set_party { party with def_ev := val_swap }
          else pdata, RECALC_NONE)
      | STAT_SPD_EV =>
        Res.ok (if gen = GEN_I then pdata.set_party { party with spd_ev := val_swap }
          else pdata, RECALC_NONE)
      | STAT_SPC_EV =>
        Res.ok (if gen = GEN_I then pdata.set_party { party with spc_ev := val_swap }
          else pdata, RECALC_NONE)
      | STAT_HP_EV =>
        Res.ok (if gen = GEN_I then pdata.set_party { party with hp_ev := val_swap }
          else pdata, RECALC_NONE)
      | STAT_IV =>
        Res.ok (if gen = GEN_I then pdata.set_party { party with iv := val } else pdata,
          RECALC_NONE)
      | STAT_MOVE =>
        if gen = GEN_I then
          (party.move_set which (val % 256)).bind fun p => Res.ok (pdata.set_party p, RECALC_NONE)
        else Res.ok (pdata, RECALC_NONE)
      | STAT_TYPE =>
        if gen = GEN_I then
          (party.type_set which (val % 256)).bind fun p => Res.ok (pdata.set_party p, RECALC_NONE)
        else Res.ok (pdata, RECALC_NONE)
      | STAT_LEVEL =>
        Res.ok (if gen = GEN_I then
            pdata.set_party { party with level := val % 256, level_again := val % 256 }
          else pdata, RECALC_STATS ||| RECALC_EXP ||| RECALC_EVIVS)
      | STAT_INDEX =>
        Res.ok (if gen = GEN_I then
            { pdata with
              trade_block := { pdata.trade_block with
                party0 := { party with index := val % 256 }
                party_members0 := val % 256 } }
          else pdata, RECALC_ALL)
      | STAT_NUM =>
        (arr_get pokemon_table val).bind fun row =>
          (set pdata STAT_INDEX NONE row.index).bind fun pdata1 => Res.ok (pdata1, RECALC_NONE)
      | STAT_OT_ID =>
        Res.ok (if gen = GEN_I then pdata.set_party { party with ot_id := val_swap } else pdata,
          RECALC_NONE)
      | STAT_SEL =>
        Res.ok (if gen = GEN_I then { pdata with stat_sel := val } else pdata,
          RECALC_EVIVS ||| RECALC_STATS)
      | STAT_EXP =>
        if gen = GEN_I then
          (party.exp_set which (val % 256)).bind fun p => Res.ok (pdata.set_party p, RECALC_NONE)
        else Res.ok (pdata, RECALC_NONE)
      | STAT_CONDITION =>
        Res.ok (if gen = GEN_I then
            pdata.set_party { party with status_condition := val % 256 }
          else pdata, RECALC_NONE)
      | STAT_GEN => Res.ok (pdata, RECALC_NONE)
      | _ => Res.fault Fault.crash
    switch.bind fun w => pokemon_recalculate encode set rnd w.1 w.2

/-! ## Named lists -/

/-- One entry of a named list (`struct named_list`): display name, code and
generation tag; `name = none` is the `NULL` name of the sentinel entry. -/
structure NamedList where
  name : Option String
  index : ℕ
  gen : ℕ
  deriving DecidableEq, Repr

/-- The static list `move_list`, closed by the zero-initialised sentinel. -/
def move_list : List NamedList :=
  [
    NamedList.mk (some "No Move") 0x00 GEN_I,
    NamedList.mk (some "Absorb") 0x47 GEN_I,
    NamedList.mk (some "Acid Armor") 0x97 GEN_I,
    NamedList.mk (some "Acid") 0x33 GEN_I,
    NamedList.mk (some "Agility") 0x61 GEN_I,
    NamedList.mk (some "Amnesia") 0x85 GEN_I,
    NamedList.mk (some "Aurora Beam") 0x3E GEN_I,
    NamedList.mk (some "Barrage") 0x8C GEN_I,
    NamedList.mk (some "Barrier") 0x70 GEN_I,
    NamedList.mk (some "Bide") 0x75 GEN_I,
    NamedList.mk (some "Bind") 0x14 GEN_I,
    NamedList.mk (some "Bite") 0x2C GEN_I,
    NamedList.mk (some "Blizzard") 0x3B GEN_I,
    NamedList.mk (some "Body Slam") 0x22 GEN_I,
    NamedList.mk (some "Bone Club") 0x7D GEN_I,
    NamedList.mk (some "Boomerang") 0x9B GEN_I,
    NamedList.mk (some "Bubblebeam") 0x3D GEN_I,
    NamedList.mk (some "Bubble") 0x91 GEN_I,
    NamedList.mk (some "Clamp") 0x80 GEN_I,
    NamedList.mk (some "Comet Punch") 0x04 GEN_I,
    NamedList.mk (some "Confuse Ray") 0x6D GEN_I,
    NamedList.mk (some "Confusion") 0x5D GEN_I,
    NamedList.mk (some "Constrict") 0x84 GEN_I,
    NamedList.mk (some "Conversion") 0xA0 GEN_I,
    NamedList.mk (some "Counter") 0x44 GEN_I,
    NamedList.mk (some "Crabhammer") 0x98 GEN_I,
    NamedList.mk (some "Cut") 0x0F GEN_I,
    NamedList.mk (some "Defense Curl") 0x6F GEN_I,
    NamedList.mk (some "Dig") 0x5B GEN_I,
    NamedList.mk (some "Disable") 0x32 GEN_I,
    NamedList.mk (some "Dizzy Punch") 0x92 GEN_I,
    NamedList.mk (some "Doubleslap") 0x03 GEN_I,
    NamedList.mk (some "Double Kick") 0x18 GEN_I,
    NamedList.mk (some "Double Team") 0x68 GEN_I,
    NamedList.mk (some "Double-Edge") 0x26 GEN_I,
    NamedList.mk (some "Dragon Rage") 0x52 GEN_I,
    NamedList.mk (some "Dream Eater") 0x8A GEN_I,
    NamedList.mk (some "Drill Peck") 0x41 GEN_I,
    NamedList.mk (some "Earthquake") 0x59 GEN_I,
    NamedList.mk (some "Egg Bomb") 0x79 GEN_I,
    NamedList.mk (some "Ember") 0x34 GEN_I,
    NamedList.mk (some "Explosion") 0x99 GEN_I,
    NamedList.mk (some "Fire Blast") 0x7E GEN_I,
    NamedList.mk (some "Fire Punch") 0x07 GEN_I,
    NamedList.mk (some "Fire Spin") 0x53 GEN_I,
    NamedList.mk (some "Fissure") 0x5A GEN_I,
    NamedList.mk (some "Flamethrower") 0x35 GEN_I,
    NamedList.mk (some "Flash") 0x94 GEN_I,
    NamedList.mk (some "Fly") 0x13 GEN_I,
    NamedList.mk (some "Focus Energy") 0x74 GEN_I,
    NamedList.mk (some "Fury Attack") 0x1F GEN_I,
    NamedList.mk (some "Fury Swipes") 0x9A GEN_I,
    NamedList.mk (some "Glare") 0x89 GEN_I,
    NamedList.mk (some "Growl") 0x2D GEN_I,
    NamedList.mk (some "Growth") 0x4A GEN_I,
    NamedList.mk (some "Guillotine") 0x0C GEN_I,
    NamedList.mk (some "Gust") 0x10 GEN_I,
    NamedList.mk (some "Harden") 0x6A GEN_I,
    NamedList.mk (some "Haze") 0x72 GEN_I,
    NamedList.mk (some "Headbutt") 0x1D GEN_I,
    NamedList.mk (some "Hi Jump Kick") 0x88 GEN_I,
    NamedList.mk (some "Horn Attack") 0x1E GEN_I,
    NamedList.mk (some "Horn Drill") 0x20 GEN_I,
    NamedList.mk (some "Hydro Pump") 0x38 GEN_I,
    NamedList.mk (some "Hyper Beam") 0x3F GEN_I,
    NamedList.mk (some "Hyper Fang") 0x9E GEN_I,
    NamedList.mk (some "Hypnosis") 0x5F GEN_I,
    NamedList.mk (some "Ice Beam") 0x3A GEN_I,
    NamedList.mk (some "Ice Punch") 0x08 GEN_I,
    NamedList.mk (some "Jump Kick") 0x1A GEN_I,
    NamedList.mk (some "Karate Chop") 0x02 GEN_I,
    NamedList.mk (some "Kinesis") 0x86 GEN_I,
    NamedList.mk (some "Leech Life") 0x8D GEN_I,
    NamedList.mk (some "Leech Seed") 0x49 GEN_I,
    NamedList.mk (some "Leer") 0x2B GEN_I,
    NamedList.mk (some "Lick") 0x7A GEN_I,
    NamedList.mk (some "Light Screen") 0x71 GEN_I,
    NamedList.mk (some "Lovely Kiss") 0x8E GEN_I,
    NamedList.mk (some "Low Kick") 0x43 GEN_I,
    NamedList.mk (some "Meditate") 0x60 GEN_I,
    NamedList.mk (some "Mega Drain") 0x48 GEN_I,
    NamedList.mk (some "Mega Kick") 0x19 GEN_I,
    NamedList.mk (some "Mega Punch") 0x05 GEN_I,
    NamedList.mk (some "Metronome") 0x76 GEN_I,
    NamedList.mk (some "Mimic") 0x66 GEN_I,
    NamedList.mk (some "Minimize") 0x6B GEN_I,
    NamedList.mk (some "Mirror Move") 0x77 GEN_I,
    NamedList.mk (some "Mist") 0x36 GEN_I,
    NamedList.mk (some "Night Shade") 0x65 GEN_I,
    NamedList.mk (some "Pay Day") 0x06 GEN_I,
    NamedList.mk (some "Peck") 0x40 GEN_I,
    NamedList.mk (some "Petal Dance") 0x50 GEN_I,
    NamedList.mk (some "Pin Missile") 0x2A GEN_I,
    NamedList.mk (some "Poisonpowder") 0x4D GEN_I,
    NamedList.mk (some "Poison Gas") 0x8B GEN_I,
    NamedList.mk (some "Poison Sting") 0x28 GEN_I,
    NamedList.mk (some "Pound") 0x01 GEN_I,
    NamedList.mk (some "Psybeam") 0x3C GEN_I,
    NamedList.mk (some "Psychic") 0x5E GEN_I,
    NamedList.mk (some "Psywave") 0x95 GEN_I,
    NamedList.mk (some "Quick Attack") 0x62 GEN_I,
    NamedList.mk (some "Rage") 0x63 GEN_I,
    NamedList.mk (some "Razor Leaf") 0x4B GEN_I,
    NamedList.mk (some "Razor Wind") 0x0D GEN_I,
    NamedList.mk (some "Recover") 0x69 GEN_I,
    NamedList.mk (some "Reflect") 0x73 GEN_I,
    NamedList.mk (some "Rest") 0x9C GEN_I,
    NamedList.mk (some "Roar") 0x2E GEN_I,
    NamedList.mk (some "Rock Slide") 0x9D GEN_I,
    NamedList.mk (some "Rock Throw") 0x58 GEN_I,
    NamedList.mk (some "Rolling Kick") 0x1B GEN_I,
    NamedList.mk (some "Sand Attack") 0x1C GEN_I,
    NamedList.mk (some "Scratch") 0x0A GEN_I,
    NamedList.mk (some "Screech") 0x67 GEN_I,
    NamedList.mk (some "Seismic Toss") 0x45 GEN_I,
    NamedList.mk (some "Selfdestruct") 0x78 GEN_I,
    NamedList.mk (some "Sharpen") 0x9F GEN_I,
    NamedList.mk (some "Sing") 0x2F GEN_I,
    NamedList.mk (some "Skull Bash") 0x82 GEN_I,
    NamedList.mk (some "Sky Attack") 0x8F GEN_I,
    NamedList.mk (some "Slam") 0x15 GEN_I,
    NamedList.mk (some "Slash") 0xA3 GEN_I,
    NamedList.mk (some "Sleep Powder") 0x4F GEN_I,
    NamedList.mk (some "Sludge") 0x7C GEN_I,
    NamedList.mk (some "Smog") 0x7B GEN_I,
    NamedList.mk (some "Smokescreen") 0x6C GEN_I,
    NamedList.mk (some "Softboiled") 0x87 GEN_I,
    NamedList.mk (some "Solar Beam") 0x4C GEN_I,
    NamedList.mk (some "Sonicboom") 0x31 GEN_I,
    NamedList.mk (some "Spike Cannon") 0x83 GEN_I,
    NamedList.mk (some "Splash") 0x96 GEN_I,
    NamedList.mk (some "Spore") 0x93 GEN_I,
    NamedList.mk (some "Stomp") 0x17 GEN_I,
    NamedList.mk (some "Strength") 0x46 GEN_I,
    NamedList.mk (some "String Shot") 0x51 GEN_I,
    NamedList.mk (some "Struggle") 0xA5 GEN_I,
    NamedList.mk (some "Stun Spore") 0x4E GEN_I,
    NamedList.mk (some "Submission") 0x42 GEN_I,
    NamedList.mk (some "Substitute") 0xA4 GEN_I,
    NamedList.mk (some "Supersonic") 0x30 GEN_I,
    NamedList.mk (some "Super Fang") 0xA2 GEN_I,
    NamedList.mk (some "Surf") 0x39 GEN_I,
    NamedList.mk (some "Swift") 0x81 GEN_I,
    NamedList.mk (some "Swords Dance") 0x0E GEN_I,
    NamedList.mk (some "Tackle") 0x21 GEN_I,
    NamedList.mk (some "Tail Whip") 0x27 GEN_I,
    NamedList.mk (some "Take Down") 0x24 GEN_I,
    NamedList.mk (some "Teleport") 0x64 GEN_I,
    NamedList.mk (some "Thrash") 0x25 GEN_I,
    NamedList.mk (some "Thunderbolt") 0x55 GEN_I,
    NamedList.mk (some "Thunderpunch") 0x09 GEN_I,
    NamedList.mk (some "Thundershock") 0x54 GEN_I,
    NamedList.mk (some "Thunder Wave") 0x56 GEN_I,
    NamedList.mk (some "Thunder") 0x57 GEN_I,
    NamedList.mk (some "Toxic") 0x5C GEN_I,
    NamedList.mk (some "Transform") 0x90 GEN_I,
    NamedList.mk (some "Tri Attack") 0xA1 GEN_I,
    NamedList.mk (some "Twineedle") 0x29 GEN_I,
    NamedList.mk (some "Vicegrip") 0x0B GEN_I,
    NamedList.mk (some "Vine Whip") 0x16 GEN_I,
    NamedList.mk (some "Waterfall") 0x7F GEN_I,
    NamedList.mk (some "Water Gun") 0x37 GEN_I,
    NamedList.mk (some "Whirlwind") 0x12 GEN_I,
    NamedList.mk (some "Wing Attack") 0x11 GEN_I,
    NamedList.mk (some "Withdraw") 0x6E GEN_I,
    NamedList.mk (some "Wrap") 0x23 GEN_I,
    NamedList.mk none 0 0
  ]

/-- The static list `type_list`, closed by the zero-initialised sentinel. -/
def type_list : List NamedList :=
  [
    NamedList.mk (some "Bug") 0x07 GEN_I,
    NamedList.mk (some "Dragon") 0x1A GEN_I,
    NamedList.mk (some "Electric") 0x17 GEN_I,
    NamedList.mk (some "Fighting") 0x01 GEN_I,
    NamedList.mk (some "Fire") 0x14 GEN_I,
    NamedList.mk (some "Flying") 0x02 GEN_I,
    NamedList.mk (some "Ghost") 0x08 GEN_I,
    NamedList.mk (some "Grass") 0x16 GEN_I,
    NamedList.mk (some "Ground") 0x04 GEN_I,
    NamedList.mk (some "Ice") 0x19 GEN_I,
    NamedList.mk (some "Normal") 0x00 GEN_I,
    NamedList.mk (some "Poison") 0x03 GEN_I,
    NamedList.mk (some "Psychic") 0x18 GEN_I,
    NamedList.mk (some "Rock") 0x05 GEN_I,
    NamedList.mk (some "Water") 0x15 GEN_I,
    NamedList.mk none 0 0
  ]

/-- The static list `stat_list` of the presets, closed by the zero-initialised
sentinel. -/
def stat_list : List NamedList :=
  [
    NamedList.mk (some "Random IV, Zero EV") RANDIV_ZEROEV 0,
    NamedList.mk (some "Random IV, Max EV / Level") RANDIV_LEVELEV 0,
    NamedList.mk (some "Random IV, Max EV") RANDIV_MAXEV 0,
    NamedList.mk (some "Max IV, Zero EV") MAXIV_ZEROEV 0,
    NamedList.mk (some "Max IV, Max EV / Level") MAXIV_LEVELEV 0,
    NamedList.mk (some "Max IV, Max EV") MAXIV_MAXEV 0,
    NamedList.mk none 0 0
  ]

/-- Translation of `namelist_gen_get_pos`. -/
def namelist_gen_get_pos (list : List NamedList) (pos : ℕ) : Res ℕ :=
  (arr_get list (pos % 256)).bind fun e => Res.ok e.gen

/-- The loop of `namelist_cnt` from entry `i` on, `entries` being the entries
of the array from position `i`; running past the last entry of the array is a
read outside it. -/
def namelist_cnt_scan : List NamedList → ℕ → Res ℕ
  | [], _ => Res.fault Fault.undefined
  | e :: entries, i =>
    if e.name = none then Res.ok i
    else namelist_cnt_scan entries (i + 1)

/-- Translation of `namelist_cnt`. -/
def namelist_cnt (list : List NamedList) : Res ℕ :=
  namelist_cnt_scan list 0

/-- The loop of `namelist_pos_get` from entry `i` on: an entry is first tested
for the `NULL` name that ends the scan (the function then returns 0) and only
then compared with the wanted code. -/
def namelist_pos_scan (index : ℕ) : List NamedList → ℕ → Res ℕ
  | [], _ => Res.fault Fault.undefined
  | e :: entries, i =>
    if e.name = none then Res.ok 0
    else if index = e.index then Res.ok i
    else namelist_pos_scan index entries (i + 1)

/-- Translation of `namelist_pos_get`; `index` is a `uint8_t`. -/
def namelist_pos_get (list : List NamedList) (index : ℕ) : Res ℕ :=
  namelist_pos_scan (index % 256) list 0

/-- Translation of `namelist_index_get`; `pos` is a `uint8_t`. -/
def namelist_index_get (list : List NamedList) (pos : ℕ) : Res ℕ :=
  (arr_get list (pos % 256)).bind fun e => Res.ok e.index

/-- Translation of `namelist_name_get_index`. -/
def namelist_name_get_index (list : List NamedList) (index : ℕ) : Res (Option String) :=
  (namelist_pos_get list index).bind fun pos =>
    (arr_get list pos).bind fun e => Res.ok e.name

/-- Translation of `namelist_name_get_pos`; `pos` is a `uint8_t`. -/
def namelist_name_get_pos (list : List NamedList) (pos : ℕ) : Res (Option String) :=
  (arr_get list (pos % 256)).bind fun e => Res.ok e.name

/-! ## Vocabulary of the statements -/

/-- The experience of a party member: the bytes `exp[0]`, `exp[1]`, `exp[2]`
read as one big-endian number. -/
def PokemonPartyGenI.exp (p : PokemonPartyGenI) : ℕ :=
  p.exp0 * 65536 + p.exp1 * 256 + p.exp2

/-- A party member with every byte zero, as `memset` leaves it. -/
def zero_member : PokemonPartyGenI :=
  { index := 0, hp := 0, level_again := 0, status_condition := 0, type0 := 0, type1 := 0,
    catch_held := 0, move0 := 0, move1 := 0, move2 := 0, move3 := 0, ot_id := 0,
    exp0 := 0, exp1 := 0, exp2 := 0, hp_ev := 0, atk_ev := 0, def_ev := 0, spd_ev := 0,
    spc_ev := 0, iv := 0, move_pp := [0, 0, 0, 0], level := 0, max_hp := 0, atk := 0,
    def_ := 0, spd := 0, spc := 0 }

/-- A record to instantiate the theorems at: tag `GEN_I`, preset max IV / zero
EV, member 0 of species code `0x99` (Bulbasaur, storage position 0) at level 10
with status condition 4 and every other byte zero, the other party slots
unused (`0xFF`), all names cleared to `TERM_`. -/
def sample_record : PokemonData :=
  { gen := GEN_I
    stat_sel := MAXIV_ZEROEV
    trade_block :=
      { trainer_name := List.replicate LEN_NAME_BUF TERM_
        party_cnt := 1
        party_members0 := 0x99
        party_members_rest := List.replicate 6 0xFF
        party0 := { zero_member with
          index := 0x99, level := 10, level_again := 10, status_condition := 4 }
        party_rest := List.replicate 5 zero_member
        ot_name0 := List.replicate LEN_NAME_BUF TERM_
        ot_name_rest := List.replicate 5 (List.replicate LEN_NAME_BUF TERM_)
        nickname0 := List.replicate LEN_NAME_BUF TERM_
        nickname_rest := List.replicate 5 (List.replicate LEN_NAME_BUF TERM_) } }

/-- A codec to instantiate the theorems at: it writes nothing. -/
def sample_encode : Encoder :=
  fun dest _ _ => dest

/-- A codec to instantiate the theorems at: it writes the characters of the
source before its terminating zero, at most `n` of them, unchanged to the start
of the destination, and leaves the rest of the destination. -/
def copy_encode : Encoder :=
  fun dest src n =>
    let chars := (src.takeWhile (fun c => c ≠ 0)).take n
    chars ++ dest.drop chars.length

/-! ## Bulk copy and allocation -/

/-- The array `party_members[7]` of a trade block. -/
def TradeBlockGenI.party_members (tb : TradeBlockGenI) : List ℕ :=
  tb.party_members0 :: tb.party_members_rest

/-- The array `party[6]` of a trade block. -/
def TradeBlockGenI.party (tb : TradeBlockGenI) : List PokemonPartyGenI :=
  tb.party0 :: tb.party_rest

/-- The array `ot_name[6]` of a trade block. -/
def TradeBlockGenI.ot_name (tb : TradeBlockGenI) : List (List ℕ) :=
  tb.ot_name0 :: tb.ot_name_rest

/-- The array `nickname[6]` of a trade block. -/
def TradeBlockGenI.nickname (tb : TradeBlockGenI) : List (List ℕ) :=
  tb.nickname0 :: tb.nickname_rest

/-- Translation of `pokemon_stat_memcpy`; `traded` is the received trade block
the `void*` argument points at, `which` a `uint8_t`. The marker is assigned,
then the member, the nickname and the original-trainer name are copied whole
to element 0 of the destination's arrays. -/
def pokemon_stat_memcpy (dst : PokemonData) (traded : TradeBlockGenI) (which : ℕ) :
    Res PokemonData :=
  let w := which % 256
  (arr_get traded.party_members w).bind fun marker =>
  (arr_get traded.party w).bind fun member =>
  (arr_get traded.nickname w).bind fun nick =>
  (arr_get traded.ot_name w).bind fun ot =>
    Res.ok { dst with
      trade_block := { dst.trade_block with
        party_members0 := marker
        party0 := member
        nickname0 := nick
        ot_name0 := ot } }

/-- A party member with every byte `TERM_`, as
`memset(pdata->trade_block, TERM_, sizeof(TradeBlockGenI))` leaves the members
that are not zeroed afterwards. -/
def term_member : PokemonPartyGenI :=
  { index := TERM_, hp := TERM_ * 256 + TERM_, level_again := TERM_, status_condition := TERM_,
    type0 := TERM_, type1 := TERM_, catch_held := TERM_, move0 := TERM_, move1 := TERM_,
    move2 := TERM_, move3 := TERM_, ot_id := TERM_ * 256 + TERM_, exp0 := TERM_, exp1 := TERM_,
    exp2 := TERM_, hp_ev := TERM_ * 256 + TERM_, atk_ev := TERM_ * 256 + TERM_,
    def_ev := TERM_ * 256 + TERM_, spd_ev := TERM_ * 256 + TERM_, spc_ev := TERM_ * 256 + TERM_,
    iv := TERM_ * 256 + TERM_, move_pp := [TERM_, TERM_, TERM_, TERM_], level := TERM_,
    max_hp := TERM_ * 256 + TERM_, atk := TERM_ * 256 + TERM_, def_ := TERM_ * 256 + TERM_,
    spd := TERM_ * 256 + TERM_, spc := TERM_ * 256 + TERM_ }

/-- Translation of `pokemon_data_alloc`; `gen` is a `uint8_t`. The block is
filled with `TERM_`, the markers with `0xFF`, member 0 with zero, and the party
count is 1; then the two names, the trainer ID, the species by position, the
level and the status condition are set. `malloc` leaves `stat_sel` as it finds
it: `sel` is that value. `rnd1` and `rnd2` are what `rand()` returns in the
recalculations of the species write and of the level write; `fuel` is the
recursion budget of each write. -/
def pokemon_data_alloc (encode : Encoder) (fuel sel rnd1 rnd2 gen : ℕ) : Res PokemonData :=
  let name := List.replicate LEN_NAME_BUF TERM_
  let block : TradeBlockGenI :=
    { trainer_name := name
      party_cnt := 1
      party_members0 := 0xFF
      party_members_rest := List.replicate 6 0xFF
      party0 := zero_member
      party_rest := List.replicate 5 term_member
      ot_name0 := name
      ot_name_rest := List.replicate 5 name
      nickname0 := name
      nickname_rest := List.replicate 5 name }
  let pdata : PokemonData := { gen := gen % 256, stat_sel := sel, trade_block := block }
  (pokemon_name_set encode pdata STAT_TRAINER_NAME (cstr "Flipper" ++ [0])).bind fun pdata1 =>
  (pokemon_name_set encode pdata1 STAT_OT_NAME (cstr "Flipper" ++ [0])).bind fun pdata2 =>
  (pokemon_stat_set encode fuel rnd1 pdata2 STAT_OT_ID NONE 42069).bind fun pdata3 =>
  (pokemon_stat_set encode fuel rnd1 pdata3 STAT_NUM NONE 0).bind fun pdata4 =>
  (pokemon_stat_set encode fuel rnd2 pdata4 STAT_LEVEL NONE 2).bind fun pdata5 =>
  pokemon_stat_set encode fuel rnd2 pdata5 STAT_CONDITION NONE 0

/-- The generation tag, marker 0, the other markers and the species byte of
member 0 of a record. -/
def PokemonData.markers (pd : PokemonData) : ℕ × ℕ × List ℕ × ℕ :=
  (pd.gen, pd.trade_block.party_members0, pd.trade_block.party_members_rest,
    pd.trade_block.party0.index)

/-- The result with `f` applied to its value; the reason of a fault is kept. -/
def Res.map {α β : Type} (f : α → β) : Res α → Res β
  | Res.ok a => Res.ok (f a)
  | Res.fault e => Res.fault e

/-- The record with the IV word and the five final stats of member 0 (current
and max HP, attack, defense, speed, special) set to zero: everything a record
holds apart from them. -/
def PokemonData.without_iv_stats (pd : PokemonData) : PokemonData :=
  { pd with trade_block := { pd.trade_block with
      party0 := { pd.trade_block.party0 with
        iv := 0, hp := 0, max_hp := 0, atk := 0, def_ := 0, spd := 0, spc := 0 } } }

/-- Two outcomes related by `r`: two values that `r` relates, or two faults of
the same reason. -/
def Res.rel {α β : Type} (r : α → β → Prop) : Res α → Res β → Prop
  | Res.ok a, Res.ok b => r a b
  | Res.fault e, Res.fault f => e = f
  | _, _ => False

/-- Two records that agree on everything apart from the IV word and the five
final stats; with `b = true` they are moreover the same record, and its preset
is one of the three max-IV presets. -/
def PokemonData.agree (b : Bool) (pd1 pd2 : PokemonData) : Prop :=
  pd1.without_iv_stats = pd2.without_iv_stats ∧
    (b = true → pd1 = pd2 ∧
      (pd1.stat_sel = MAXIV_ZEROEV ∨ pd1.stat_sel = MAXIV_LEVELEV ∨
        pd1.stat_sel = MAXIV_MAXEV))

/-- The number of runs of the loop body of `namelist_pos_get` on the entries
`entries`: one for each entry examined, up to and including the one the scan
stops at. -/
def namelist_pos_steps (index : ℕ) : List NamedList → ℕ
  | [] => 0
  | e :: entries =>
    if e.name = none then 1
    else if index = e.index then 1
    else namelist_pos_steps index entries + 1

/-- The number of runs of the loop body of `table_pokemon_pos_get` on the rows
`rows`: one for each row examined, up to and including the one the scan stops
at. -/
def table_pokemon_pos_steps (index : ℕ) : List PokemonTable → ℕ
  | [] => 0
  | row :: rows =>
    if row.index = index then 1
    else if row.name = none then 1
    else table_pokemon_pos_steps index rows + 1

/-! ## Theorems -/

/-! ### binary64 rounding -/

theorem round_half_even_intCast (z : ℤ) : round_half_even (z : ℚ) = z := by
  simp [round_half_even]

theorem round_half_even_err (y : ℚ) : |(round_half_even y : ℚ) - y| ≤ 1 / 2 := by
  have h1 := Int.floor_le y
  have h2 := Int.lt_floor_add_one y
  unfold round_half_even
  simp only []
  rw [abs_le]
  split_ifs <;> push_cast <;> constructor <;> linarith

theorem int_log_two_dyadic (m : ℕ) (k : ℤ) (hm : 0 < m) :
    Int.log 2 ((m : ℚ) * 2 ^ k) = (Nat.log 2 m : ℤ) + k := by
  have hpos : (0 : ℚ) < (m : ℚ) * 2 ^ k := by positivity
  have hlo : 2 ^ Nat.log 2 m ≤ m := Nat.pow_log_le_self 2 hm.ne'
  have hhi : m < 2 ^ (Nat.log 2 m + 1) := Nat.lt_pow_succ_log_self (by norm_num) m
  have hlo' : ((2 : ℚ)) ^ Nat.log 2 m ≤ (m : ℚ) := by exact_mod_cast hlo
  have hhi' : (m : ℚ) < (2 : ℚ) ^ (Nat.log 2 m + 1) := by exact_mod_cast hhi
  have h2k : (0 : ℚ) < 2 ^ k := by positivity
  apply le_antisymm
  · have : Int.log 2 ((m : ℚ) * 2 ^ k) < (Nat.log 2 m : ℤ) + k + 1 := by
      rw [← Int.lt_zpow_iff_log_lt (by norm_num) hpos]
      have e : ((2 : ℕ) : ℚ) ^ ((Nat.log 2 m : ℤ) + k + 1)
          = (2 : ℚ) ^ (Nat.log 2 m + 1) * 2 ^ k := by
        rw [show ((Nat.log 2 m : ℤ) + k + 1) = (((Nat.log 2 m + 1 : ℕ) : ℤ)) + k by
          push_cast; ring]
        rw [zpow_add₀ (by norm_num), zpow_natCast]; norm_num
      rw [e]
      exact mul_lt_mul_of_pos_right hhi' h2k
    omega
  · rw [← Int.zpow_le_iff_le_log (by norm_num) hpos]
    have e : ((2 : ℕ) : ℚ) ^ ((Nat.log 2 m : ℤ) + k) = (2 : ℚ) ^ (Nat.log 2 m) * 2 ^ k := by
      rw [zpow_add₀ (by norm_num), zpow_natCast]; norm_num
    rw [e]
    exact mul_le_mul_of_nonneg_right hlo' h2k.le

/-- A number `m * 2 ^ k` with `m < 2 ^ 53` is a double: rounding keeps it. -/
theorem f64_round_dyadic (m : ℕ) (k : ℤ) (hm : m < 2 ^ 53) :
    f64_round ((m : ℚ) * 2 ^ k) = (m : ℚ) * 2 ^ k := by
  rcases Nat.eq_zero_or_pos m with h0 | hpos
  · subst h0; simp [f64_round]
  have hx : (0 : ℚ) < (m : ℚ) * 2 ^ k := by positivity
  have hL : Nat.log 2 m < 53 := Nat.log_lt_of_lt_pow hpos.ne' hm
  unfold f64_round
  rw [if_neg hx.ne', abs_of_pos hx, int_log_two_dyadic m k hpos]
  simp only []
  have hu : (0 : ℚ) < 2 ^ ((Nat.log 2 m : ℤ) + k - 52) := by positivity
  have hq : (m : ℚ) * 2 ^ k / 2 ^ ((Nat.log 2 m : ℤ) + k - 52)
      = (((m * 2 ^ (52 - Nat.log 2 m) : ℕ) : ℤ) : ℚ) := by
    rw [div_eq_iff hu.ne']
    push_cast
    rw [mul_assoc, ← zpow_natCast, ← zpow_add₀ (by norm_num)]
    congr 2
    have : ((52 - Nat.log 2 m : ℕ) : ℤ) = 52 - (Nat.log 2 m : ℤ) := by omega
    rw [this]; ring
  rw [hq, round_half_even_intCast, ← hq]
  field_simp

theorem f64_round_natCast (n : ℕ) (hn : n < 2 ^ 53) : f64_round (n : ℚ) = n := by
  simpa using f64_round_dyadic n 0 hn

/-- Relative error of rounding: at most half a unit in the last place. -/
theorem f64_round_err (x : ℚ) (hx : 0 < x) : |f64_round x - x| ≤ x / 2 ^ 53 := by
  unfold f64_round
  rw [if_neg hx.ne', abs_of_pos hx]
  simp only []
  set u : ℚ := 2 ^ (Int.log 2 x - 52) with hu
  have hupos : 0 < u := by positivity
  have hle : u ≤ x / 2 ^ 52 := by
    rw [hu, zpow_sub₀ (by norm_num)]
    have := Int.zpow_log_le_self (b := 2) (by norm_num) hx
    have h52 : ((2 : ℚ) ^ (52 : ℤ)) = 2 ^ 52 := by norm_num
    rw [h52]
    apply div_le_div_of_nonneg_right _ (by positivity)
    exact_mod_cast this
  have herr := round_half_even_err (x / u)
  have : (round_half_even (x / u) : ℚ) * u - x
      = ((round_half_even (x / u) : ℚ) - x / u) * u := by
    field_simp
  rw [this, abs_mul, abs_of_pos hupos]
  calc |(round_half_even (x / u) : ℚ) - x / u| * u ≤ 1 / 2 * u := by
        exact mul_le_mul_of_nonneg_right herr hupos.le
    _ ≤ 1 / 2 * (x / 2 ^ 52) := by linarith
    _ = x / 2 ^ 53 := by ring

/-- The significand of the rounded square root lies between the scaled integer
square root and its successor. -/
theorem f64_sqrt_significand (n : ℕ) (hn0 : 0 < n) (hn : n < 2 ^ 16) :
    ∃ m : ℕ, f64_sqrt n = (m : ℚ) * 2 ^ (((Nat.log 2 n / 2 : ℕ) : ℤ) - 52) ∧
      Nat.sqrt n * 2 ^ (52 - Nat.log 2 n / 2) ≤ m ∧
      m < (Nat.sqrt n + 1) * 2 ^ (52 - Nat.log 2 n / 2) := by
  have hlog : Nat.log 2 n < 16 := Nat.log_lt_of_lt_pow hn0.ne' hn
  set e := Nat.log 2 n / 2 with he
  have he7 : e ≤ 7 := by omega
  set P : ℕ := 2 ^ (52 - e) with hP
  set s := Nat.sqrt n with hs
  have hs1 : s * s ≤ n := Nat.sqrt_le n
  have hs2 : n < (s + 1) * (s + 1) := Nat.lt_succ_sqrt n
  have hs256 : s + 1 ≤ 256 := by
    by_contra hc
    have : 256 ≤ s := by omega
    have : 256 * 256 ≤ s * s := Nat.mul_le_mul this this
    omega
  have hPbig : 2 ^ 45 ≤ P := Nat.pow_le_pow_right (by norm_num) (by omega)
  have h4 : 4 ^ (52 - e) = P * P := by
    rw [hP, ← pow_two, ← pow_mul, show (4 : ℕ) = 2 ^ 2 by norm_num, ← pow_mul, mul_comm]
  set N : ℕ := n * 4 ^ (52 - e) with hN
  have hNP : N = n * (P * P) := by rw [hN, h4]
  set r := Nat.sqrt N with hr
  have hr1 : r * r ≤ N := Nat.sqrt_le N
  have hlo : s * P ≤ r := by
    rw [hr, Nat.le_sqrt, hNP]
    calc s * P * (s * P) = s * s * (P * P) := by ring
      _ ≤ n * (P * P) := Nat.mul_le_mul_right _ hs1
  have hhi : r < (s + 1) * P := by
    rw [hr, Nat.sqrt_lt, hNP]
    have hPP : 0 < P * P := by positivity
    calc n * (P * P) < (s + 1) * (s + 1) * (P * P) := Nat.mul_lt_mul_of_pos_right hs2 hPP
      _ = (s + 1) * P * ((s + 1) * P) := by ring
  refine ⟨if N - r * r ≤ r then r else r + 1, ?_, ?_, ?_⟩
  · simp only [f64_sqrt, if_neg hn0.ne']
  · split_ifs <;> omega
  · split_ifs with hc
    · exact hhi
    · by_contra hge
      have hreq : r + 1 = (s + 1) * P := by omega
      have hup : N + P * P ≤ (r + 1) * (r + 1) := by
        rw [hreq, hNP]
        have : n + 1 ≤ (s + 1) * (s + 1) := hs2
        calc n * (P * P) + P * P = (n + 1) * (P * P) := by ring
          _ ≤ (s + 1) * (s + 1) * (P * P) := Nat.mul_le_mul_right _ this
          _ = (s + 1) * P * ((s + 1) * P) := by ring
      have hPP : (r + 1) ≤ P * P := by
        rw [hreq]
        exact Nat.mul_le_mul_right _ (by omega)
      have : (r + 1) * (r + 1) = r * r + 2 * r + 1 := by ring
      omega

/-- The quotient `sqrt(ev) / 4`, rounded and floored, is the integer square root
divided by four. -/
theorem quarter_root_floor (n : ℕ) (hn : n < 2 ^ 16) :
    ⌊f64_round (f64_sqrt n / 4)⌋ = ((Nat.sqrt n / 4 : ℕ) : ℤ) := by
  rcases Nat.eq_zero_or_pos n with h0 | hn0
  · subst h0
    simp [f64_sqrt, f64_round]
  obtain ⟨m, hm, hlo, hhi⟩ := f64_sqrt_significand n hn0 hn
  have hlog : Nat.log 2 n < 16 := Nat.log_lt_of_lt_pow hn0.ne' hn
  set e := Nat.log 2 n / 2 with he
  have he7 : e ≤ 7 := by omega
  set P : ℕ := 2 ^ (52 - e) with hP
  set s := Nat.sqrt n with hs
  have hn4 : n < 2 ^ (2 * (e + 1)) := by
    have := Nat.lt_pow_succ_log_self (b := 2) (by norm_num) n
    exact lt_of_lt_of_le this (Nat.pow_le_pow_right (by norm_num) (by omega))
  have hse : s < 2 ^ (e + 1) := by
    rw [hs, Nat.sqrt_lt, ← pow_two, ← pow_mul, mul_comm]; exact hn4
  have hm53 : m < 2 ^ 53 := by
    calc m < (s + 1) * P := hhi
      _ ≤ 2 ^ (e + 1) * 2 ^ (52 - e) := Nat.mul_le_mul_right _ hse
      _ = 2 ^ 53 := by rw [← pow_add]; congr 1; omega
  have hdiv : f64_sqrt n / 4 = (m : ℚ) * 2 ^ (((e : ℤ) - 52) - 2) := by
    rw [hm, zpow_sub₀ (by norm_num : (2 : ℚ) ≠ 0) _ 2]
    norm_num
    ring
  rw [hdiv, f64_round_dyadic m _ hm53]
  have hval : (m : ℚ) * 2 ^ (((e : ℤ) - 52) - 2) = (m : ℚ) / ((4 * P : ℕ) : ℚ) := by
    have : ((e : ℤ) - 52 - 2) = -(((52 - e + 2 : ℕ)) : ℤ) := by omega
    rw [this, zpow_neg, zpow_natCast, hP]
    push_cast
    rw [pow_add]
    ring
  rw [hval, Int.floor_eq_iff]
  have hPpos : 0 < P := by positivity
  have h4P : (0 : ℚ) < ((4 * P : ℕ) : ℚ) := by exact_mod_cast (by omega : 0 < 4 * P)
  have hq := Nat.div_add_mod s 4
  have hr4 := Nat.mod_lt s (by norm_num : 4 > 0)
  constructor
  · rw [le_div_iff₀ h4P]
    have : s / 4 * (4 * P) ≤ m := by
      calc s / 4 * (4 * P) = (4 * (s / 4)) * P := by ring
        _ ≤ s * P := Nat.mul_le_mul_right _ (by omega)
        _ ≤ m := hlo
    exact_mod_cast this
  · rw [div_lt_iff₀ h4P]
    have : m < (s / 4 + 1) * (4 * P) := by
      calc m < (s + 1) * P := hhi
        _ ≤ (4 * (s / 4) + 4) * P := Nat.mul_le_mul_right _ (by omega)
        _ = (s / 4 + 1) * (4 * P) := by ring
    exact_mod_cast this

/-- The quotient by `100`, rounded and floored, is the truncating integer
quotient, for every numerator `stat_calc` can produce. -/
theorem hundredth_floor (N : ℕ) (hN : N < 2 ^ 53) :
    ⌊f64_round ((N : ℚ) / 100)⌋ = ((N / 100 : ℕ) : ℤ) := by
  have hq := Nat.div_add_mod N 100
  have hr := Nat.mod_lt N (by norm_num : 100 > 0)
  rcases Nat.eq_zero_or_pos (N % 100) with h0 | hpos
  · have hx : (N : ℚ) / 100 = ((N / 100 : ℕ) : ℚ) := by
      have : N = 100 * (N / 100) := by omega
      rw [div_eq_iff (by norm_num)]
      exact_mod_cast (by omega : N = N / 100 * 100)
    rw [hx, f64_round_natCast _ (by omega)]
    exact Int.floor_natCast _
  · have hN0 : 0 < N := by omega
    have hx0 : (0 : ℚ) < (N : ℚ) / 100 := by positivity
    have herr := f64_round_err _ hx0
    rw [abs_le] at herr
    have hNq : (N : ℚ) = 100 * ((N / 100 : ℕ) : ℚ) + ((N % 100 : ℕ) : ℚ) := by
      exact_mod_cast hq.symm
    have hlo : (1 : ℚ) ≤ ((N % 100 : ℕ) : ℚ) := by exact_mod_cast hpos
    have hhi : ((N % 100 : ℕ) : ℚ) ≤ 99 := by exact_mod_cast (by omega : N % 100 ≤ 99)
    have hNb : (N : ℚ) < 9007199254740992 := by
      have : N < 9007199254740992 := by norm_num at hN; exact hN
      exact_mod_cast this
    have hsmall : (N : ℚ) / 100 / 2 ^ 53 < 1 / 100 := by
      rw [div_div, div_lt_iff₀ (by positivity)]
      norm_num
      linarith
    have hsplit : (N : ℚ) / 100 = ((N / 100 : ℕ) : ℚ) + ((N % 100 : ℕ) : ℚ) / 100 := by
      rw [hNq]; ring
    have h1 : (1 : ℚ) / 100 ≤ ((N % 100 : ℕ) : ℚ) / 100 :=
      div_le_div_of_nonneg_right hlo (by norm_num)
    have h2 : ((N % 100 : ℕ) : ℚ) / 100 ≤ 99 / 100 :=
      div_le_div_of_nonneg_right hhi (by norm_num)
    rw [Int.floor_eq_iff]
    simp only [Int.cast_natCast]
    constructor
    · linarith [herr.1]
    · linarith [herr.2]

/-- The double-precision evaluation inside `stat_calc` is exact integer
arithmetic with truncating division. -/
theorem stat_calc_eq (base iv ev level : ℕ) (stat : DataStat)
    (hb : base < 256) (hi : iv < 256) (he : ev < 65536) (hl : level < 256) :
    stat_calc base iv ev level stat
      = if stat = STAT_HP
        then ((2 * (base + iv) + Nat.sqrt ev / 4) * level / 100 + (level + 10)) % 65536
        else ((2 * (base + iv) + Nat.sqrt ev / 4) * level / 100 + 5) % 65536 := by
  have hs : Nat.sqrt ev < 256 := by
    rw [Nat.sqrt_lt]; omega
  have hX : 2 * (base + iv) + Nat.sqrt ev / 4 < 1100 := by omega
  have hprod : (2 * (base + iv) + Nat.sqrt ev / 4) * level < 2 ^ 53 := by
    calc (2 * (base + iv) + Nat.sqrt ev / 4) * level
        ≤ 1100 * 255 := Nat.mul_le_mul (by omega) (by omega)
      _ < 2 ^ 53 := by norm_num
  have hquo : (2 * (base + iv) + Nat.sqrt ev / 4) * level / 100 < 65536 := by
    have h1 : (2 * (base + iv) + Nat.sqrt ev / 4) * level ≤ 1100 * 255 :=
      Nat.mul_le_mul (by omega) (by omega)
    omega
  unfold stat_calc
  simp only []
  rw [quarter_root_floor ev (by norm_num; omega)]
  have e1 : (((2 * (base + iv) : ℕ) : ℚ) + (((Nat.sqrt ev / 4 : ℕ) : ℤ) : ℚ))
      = ((2 * (base + iv) + Nat.sqrt ev / 4 : ℕ) : ℚ) := by
    rw [Int.cast_natCast, ← Nat.cast_add]
  rw [e1, f64_round_natCast _ (lt_trans hX (by norm_num))]
  have e2 : ((2 * (base + iv) + Nat.sqrt ev / 4 : ℕ) : ℚ) * (level : ℚ)
      = (((2 * (base + iv) + Nat.sqrt ev / 4) * level : ℕ) : ℚ) := by push_cast; ring
  rw [e2, f64_round_natCast _ hprod, hundredth_floor _ hprod]
  rw [Int.toNat_natCast, Nat.mod_eq_of_lt hquo]

/-! ### Sequencing, byte order, catalog rows -/

@[simp]
theorem Res.bind_ok {α β : Type} (a : α) (f : α → Res β) : (Res.ok a).bind f = f a := rfl
@[simp]
theorem Res.bind_fault {α β : Type} (e : Fault) (f : α → Res β) :
    (Res.fault e : Res α).bind f = Res.fault e := rfl
@[simp]
theorem Res.loop_nil {α β : Type} (f : β → α → Res β) (b : β) :
    Res.loop f b [] = Res.ok b := rfl
@[simp]
theorem Res.loop_cons {α β : Type} (f : β → α → Res β) (b : β) (a : α) (as : List α) :
    Res.loop f b (a :: as) = (f b a).bind fun b1 => Res.loop f b1 as := rfl

theorem bswap16_bswap16 (v : ℕ) (h : v < 65536) : bswap16 (bswap16 v) = v := by
  unfold bswap16
  have h1 : v / 256 < 256 := by omega
  have h2 : v / 256 % 256 = v / 256 := Nat.mod_eq_of_lt h1
  have h3 : (v % 256 * 256 + v / 256) % 256 = v / 256 := by omega
  have h4 : (v % 256 * 256 + v / 256) / 256 = v % 256 := by omega
  rw [h2, h3, h4]
  omega

theorem bswap16_lt (v : ℕ) : bswap16 v < 65536 := by
  unfold bswap16; omega

@[simp]
theorem recalculate_none (encode : Encoder) (set : Setter) (rnd : ℕ) (pdata : PokemonData) :
    pokemon_recalculate encode set rnd pdata RECALC_NONE = Res.ok pdata := by
  simp [pokemon_recalculate]

set_option maxRecDepth 100000 in
theorem catalog_rows :
    ∀ x ∈ (pokemon_table.take 151).enum,
      table_pokemon_pos_get pokemon_table x.2.index = Res.ok x.1 ∧
      x.2.name ≠ none ∧ x.2.index < 256 ∧
      (x.2.base_hp < 256 ∧ x.2.base_atk < 256 ∧ x.2.base_def < 256 ∧ x.2.base_spd < 256 ∧
        x.2.base_spc < 256) ∧
      (x.2.type.length = 2 ∧ ∀ t ∈ x.2.type, t < 256) ∧
      (x.2.move.length = 4 ∧ ∀ m ∈ x.2.move, m < 256) ∧
      (x.2.growth = GROWTH_FAST ∨ x.2.growth = GROWTH_MEDIUM_FAST ∨
        x.2.growth = GROWTH_MEDIUM_SLOW ∨ x.2.growth = GROWTH_SLOW) := by
  decide

set_option maxRecDepth 100000 in
theorem pokemon_table_length : pokemon_table.length = 152 := by decide

set_option maxRecDepth 100000 in
theorem pokemon_table_sentinel :
    pokemon_table.get? 151 = some (PokemonTable.mk none 0 0 0 0 0 0 [0, 0] [0, 0, 0, 0] 0) := by
  decide

/-- A row with a name sits before the sentinel. -/
theorem species_lt {p : ℕ} {row : PokemonTable} (hrow : pokemon_table.get? p = some row)
    (hname : row.name ≠ none) : p < 151 := by
  by_contra hge
  rcases Nat.lt_or_ge p 152 with h | h
  · have : p = 151 := by omega
    subst this
    rw [pokemon_table_sentinel] at hrow
    cases hrow
    exact hname rfl
  · have := List.get?_eq_none.2 (by rw [pokemon_table_length]; exact h : pokemon_table.length ≤ p)
    rw [this] at hrow
    cases hrow

/-- The facts of `catalog_rows` for a row given by its position. -/
theorem species_row {p : ℕ} {row : PokemonTable} (hrow : pokemon_table.get? p = some row)
    (hname : row.name ≠ none) :
    table_pokemon_pos_get pokemon_table row.index = Res.ok p ∧ row.index < 256 ∧
      (row.base_hp < 256 ∧ row.base_atk < 256 ∧ row.base_def < 256 ∧ row.base_spd < 256 ∧
        row.base_spc < 256) ∧
      (row.type.length = 2 ∧ ∀ t ∈ row.type, t < 256) ∧
      (row.move.length = 4 ∧ ∀ m ∈ row.move, m < 256) ∧
      (row.growth = GROWTH_FAST ∨ row.growth = GROWTH_MEDIUM_FAST ∨
        row.growth = GROWTH_MEDIUM_SLOW ∨ row.growth = GROWTH_SLOW) := by
  have hp : p < 151 := species_lt hrow hname
  have hmem : (p, row) ∈ (pokemon_table.take 151).enum := by
    rw [List.mk_mem_enum_iff_getElem?, List.getElem?_take, if_pos hp, ← List.get?_eq_getElem?]
    exact hrow
  have h := catalog_rows (p, row) hmem
  exact ⟨h.1, h.2.2⟩

/-! ### Reads and recalculation groups on a Gen I record of a catalog species -/

theorem and_255 (x : ℕ) : x &&& 0xFF = x % 256 := Nat.and_pow_two_sub_one_eq_mod x 8

theorem and_15 (x : ℕ) : x &&& 0x0F = x % 16 := Nat.and_pow_two_sub_one_eq_mod x 4

theorem stat_calc_lt (base iv ev level : ℕ) (stat : DataStat) :
    stat_calc base iv ev level stat < 65536 := by
  unfold stat_calc
  simp only []
  split_ifs <;> exact Nat.mod_lt _ (by norm_num)

theorem arr_get_of_get? {α : Type} {xs : List α} {i : ℕ} {x : α} (h : xs.get? i = some x) :
    arr_get xs i = Res.ok x := by
  unfold arr_get; rw [h]

theorem get_num_ok {p : ℕ} {row : PokemonTable} (hrow : pokemon_table.get? p = some row)
    (hname : row.name ≠ none) {pdata : PokemonData} (hgen : pdata.gen = GEN_I)
    (hidx : pdata.trade_block.party0.index = row.index) (which : ℕ) :
    pokemon_stat_get pdata STAT_NUM which = Res.ok (p, pdata) := by
  have h := (species_row hrow hname).1
  simp [pokemon_stat_get, hgen, PokemonData.party, hidx, h]

theorem base_get_ok {p : ℕ} {row : PokemonTable} (hrow : pokemon_table.get? p = some row)
    (hname : row.name ≠ none) {pdata : PokemonData} (hgen : pdata.gen = GEN_I)
    (hidx : pdata.trade_block.party0.index = row.index) (b : BaseStat) (num : ℕ) :
    table_stat_base_get pokemon_table pdata b num
      = match b with
        | STAT_BASE_ATK => Res.ok (row.base_hp, pdata)
        | STAT_BASE_DEF => Res.ok (row.base_def, pdata)
        | STAT_BASE_SPD => Res.ok (row.base_spd, pdata)
        | STAT_BASE_SPC => Res.ok (row.base_spc, pdata)
        | STAT_BASE_HP => Res.ok (row.base_hp, pdata)
        | STAT_BASE_TYPE => (arr_get row.type num).bind fun t => Res.ok (t, pdata)
        | STAT_BASE_MOVE => (arr_get row.move num).bind fun m => Res.ok (m, pdata)
        | STAT_BASE_GROWTH => Res.ok (row.growth, pdata) := by
  cases b <;> simp [table_stat_base_get, get_num_ok hrow hname hgen hidx, arr_get_of_get? hrow]

theorem get_level_ok {pdata : PokemonData} (hgen : pdata.gen = GEN_I) (which : ℕ) :
    pokemon_stat_get pdata STAT_LEVEL which = Res.ok (pdata.trade_block.party0.level, pdata) := by
  simp [pokemon_stat_get, hgen, PokemonData.party]

theorem exp_set_ok (encode : Encoder) (fuel rnd : ℕ) {pdata : PokemonData}
    (hgen : pdata.gen = GEN_I) (e : ℕ) :
    pokemon_exp_set (pokemon_stat_set encode (fuel + 1) rnd) pdata e
      = Res.ok { pdata with trade_block := { pdata.trade_block with
          party0 := { pdata.trade_block.party0 with
            exp0 := e / 65536 % 256, exp1 := e / 256 % 256, exp2 := e % 256 } } } := by
  have h0 : (e >>> 16) % 256 % 65536 % 256 = e / 65536 % 256 := by
    rw [Nat.shiftRight_eq_div_pow]; omega
  have h1 : (e >>> 8) % 256 % 65536 % 256 = e / 256 % 256 := by
    rw [Nat.shiftRight_eq_div_pow]; omega
  have h2 : e % 256 % 65536 % 256 = e % 256 := by omega
  simp [pokemon_exp_set, pokemon_stat_set, arr_get, hgen, PokemonData.party,
    PokemonData.set_party, PokemonPartyGenI.exp_set, and_255, h0, h1, h2]

theorem growth_mod {p : ℕ} {row : PokemonTable} (hrow : pokemon_table.get? p = some row)
    (hname : row.name ≠ none) : row.growth % 256 = row.growth := by
  rcases (species_row hrow hname).2.2.2.2.2 with h | h | h | h <;> (rw [h]; decide)

theorem exp_calc_ok (encode : Encoder) (fuel rnd : ℕ) {p : ℕ} {row : PokemonTable}
    (hrow : pokemon_table.get? p = some row) (hname : row.name ≠ none) {pdata : PokemonData}
    (hgen : pdata.gen = GEN_I) (hidx : pdata.trade_block.party0.index = row.index) :
    pokemon_exp_calc (pokemon_stat_set encode (fuel + 1) rnd) pdata
      = (exp_switch row.growth pdata.trade_block.party0.level).bind fun c =>
        Res.ok { pdata with trade_block := { pdata.trade_block with
          party0 := { pdata.trade_block.party0 with
            exp0 := (c % 2 ^ 32).toNat / 65536 % 256,
            exp1 := (c % 2 ^ 32).toNat / 256 % 256,
            exp2 := (c % 2 ^ 32).toNat % 256 } } } := by
  simp only [pokemon_exp_calc, base_get_ok hrow hname hgen hidx, Res.bind_ok, get_level_ok hgen,
    growth_mod hrow hname]
  cases exp_switch row.growth pdata.trade_block.party0.level with
  | ok c => simp only [Res.bind_ok, exp_set_ok encode fuel rnd hgen]
  | fault e => rfl

theorem ev_calc_ok (encode : Encoder) (fuel rnd : ℕ) {pdata : PokemonData}
    (hgen : pdata.gen = GEN_I) (val : ℕ) :
    pokemon_stat_ev_calc (pokemon_stat_set encode (fuel + 1) rnd) pdata val
      = Res.ok { pdata with trade_block := { pdata.trade_block with
          party0 := { pdata.trade_block.party0 with
            atk_ev := bswap16 (stat_ev_switch val pdata.trade_block.party0.level % 65536),
            def_ev := bswap16 (stat_ev_switch val pdata.trade_block.party0.level % 65536),
            spd_ev := bswap16 (stat_ev_switch val pdata.trade_block.party0.level % 65536),
            spc_ev := bswap16 (stat_ev_switch val pdata.trade_block.party0.level % 65536),
            hp_ev := bswap16 (stat_ev_switch val pdata.trade_block.party0.level % 65536) } } } := by
  simp [pokemon_stat_ev_calc, get_level_ok hgen, pokemon_stat_set, hgen, PokemonData.party,
    PokemonData.set_party]

theorem iv_calc_ok (encode : Encoder) (fuel rnd : ℕ) {pdata : PokemonData}
    (hgen : pdata.gen = GEN_I) (val : ℕ) :
    pokemon_stat_iv_calc (pokemon_stat_set encode (fuel + 1) rnd) rnd pdata val
      = Res.ok { pdata with trade_block := { pdata.trade_block with
          party0 := { pdata.trade_block.party0 with iv := stat_iv_switch rnd val % 65536 } } } := by
  simp [pokemon_stat_iv_calc, pokemon_stat_set, hgen, PokemonData.party, PokemonData.set_party]

/-- The five passes of the final-stat loop. -/
theorem stats_loop_ok (encode : Encoder) (fuel rnd : ℕ) {p : ℕ} {row : PokemonTable}
    (hrow : pokemon_table.get? p = some row) (hname : row.name ≠ none) {pdata : PokemonData}
    (hgen : pdata.gen = GEN_I) (hidx : pdata.trade_block.party0.index = row.index) :
    Res.loop (fun pd i => pokemon_stat_calc (pokemon_stat_set encode (fuel + 1) rnd) pd i) pdata
        [STAT_ATK, STAT_DEF, STAT_SPD, STAT_SPC, STAT_HP]
      = Res.ok { pdata with trade_block := { pdata.trade_block with
          party0 := { pdata.trade_block.party0 with
            atk := bswap16 (stat_calc (row.base_hp % 256)
              (((pdata.trade_block.party0.iv >>> 12) &&& 0x0F) % 256)
              (bswap16 pdata.trade_block.party0.atk_ev % 65536)
              (pdata.trade_block.party0.level % 256) STAT_ATK % 65536),
            def_ := bswap16 (stat_calc (row.base_def % 256)
              (((pdata.trade_block.party0.iv >>> 8) &&& 0x0F) % 256)
              (bswap16 pdata.trade_block.party0.def_ev % 65536)
              (pdata.trade_block.party0.level % 256) STAT_DEF % 65536),
            spd := bswap16 (stat_calc (row.base_spd % 256)
              (((pdata.trade_block.party0.iv >>> 4) &&& 0x0F) % 256)
              (bswap16 pdata.trade_block.party0.spd_ev % 65536)
              (pdata.trade_block.party0.level % 256) STAT_SPD % 65536),
            spc := bswap16 (stat_calc (row.base_spc % 256)
              ((pdata.trade_block.party0.iv &&& 0x0F) % 256)
              (bswap16 pdata.trade_block.party0.spc_ev % 65536)
              (pdata.trade_block.party0.level % 256) STAT_SPC % 65536),
            hp := bswap16 (stat_calc (row.base_hp % 256)
              (((pdata.trade_block.party0.iv &&& 0xAA) >>> 4) % 256)
              (bswap16 pdata.trade_block.party0.hp_ev % 65536)
              (pdata.trade_block.party0.level % 256) STAT_HP % 65536),
            max_hp := bswap16 (stat_calc (row.base_hp % 256)
              (((pdata.trade_block.party0.iv &&& 0xAA) >>> 4) % 256)
              (bswap16 pdata.trade_block.party0.hp_ev % 65536)
              (pdata.trade_block.party0.level % 256) STAT_HP % 65536) } } } := by
  simp [pokemon_stat_calc, pokemon_stat_get, DataStat.base, table_stat_base_get,
    (species_row hrow hname).1, arr_get_of_get? hrow, hidx,
    pokemon_stat_ev_get, pokemon_stat_iv_get, pokemon_stat_set, hgen,
    PokemonData.party, PokemonData.set_party]

theorem nickname_ok (encode : Encoder) {p : ℕ} {row : PokemonTable}
    (hrow : pokemon_table.get? p = some row) {s : String} (hs : row.name = some s)
    {pdata : PokemonData} (hgen : pdata.gen = GEN_I)
    (hidx : pdata.trade_block.party0.index = row.index) :
    pokemon_default_nickname_set encode pdata
      = Res.ok ((strncpy (cstr s) LEN_NAME_BUF).map toupper,
          { pdata with trade_block := { pdata.trade_block with
            nickname0 := encode (List.replicate LEN_NAME_BUF TERM_)
              ((strncpy (cstr s) LEN_NAME_BUF).map toupper) 10 } }) := by
  have hname : row.name ≠ none := by rw [hs]; exact Option.some_ne_none s
  simp [pokemon_default_nickname_set, get_num_ok hrow hname hgen hidx, table_stat_name_get,
    arr_get_of_get? hrow, hs, pokemon_name_set]

theorem moves_loop_ok (encode : Encoder) (fuel rnd : ℕ) {p : ℕ} {row : PokemonTable}
    (hrow : pokemon_table.get? p = some row) (hname : row.name ≠ none) {m0 m1 m2 m3 : ℕ}
    (hm : row.move = [m0, m1, m2, m3]) {pdata : PokemonData}
    (hgen : pdata.gen = GEN_I) (hidx : pdata.trade_block.party0.index = row.index) :
    Res.loop (fun pd i =>
        (table_stat_base_get pokemon_table pd STAT_BASE_MOVE i).bind fun m =>
          pokemon_stat_set encode (fuel + 1) rnd m.2 STAT_MOVE i m.1) pdata
        [MOVE_0, MOVE_1, MOVE_2, MOVE_3]
      = Res.ok { pdata with trade_block := { pdata.trade_block with
          party0 := { pdata.trade_block.party0 with
            move0 := m0, move1 := m1, move2 := m2, move3 := m3 } } } := by
  have hb := (species_row hrow hname).2.2.2.2.1.2
  rw [hm] at hb
  have h0 : m0 % 65536 % 256 = m0 := by have := hb m0 (by simp); omega
  have h1 : m1 % 65536 % 256 = m1 := by have := hb m1 (by simp); omega
  have h2 : m2 % 65536 % 256 = m2 := by have := hb m2 (by simp); omega
  have h3 : m3 % 65536 % 256 = m3 := by have := hb m3 (by simp); omega
  have e0 : arr_get row.move MOVE_0 = Res.ok m0 := by rw [hm]; rfl
  have e1 : arr_get row.move MOVE_1 = Res.ok m1 := by rw [hm]; rfl
  have e2 : arr_get row.move MOVE_2 = Res.ok m2 := by rw [hm]; rfl
  have e3 : arr_get row.move MOVE_3 = Res.ok m3 := by rw [hm]; rfl
  simp [table_stat_base_get, pokemon_stat_get, (species_row hrow hname).1,
    arr_get_of_get? hrow, hidx, e0, e1, e2, e3, pokemon_stat_set, hgen,
    PokemonData.party, PokemonData.set_party, PokemonPartyGenI.move_set, h0, h1, h2, h3]

theorem types_loop_ok (encode : Encoder) (fuel rnd : ℕ) {p : ℕ} {row : PokemonTable}
    (hrow : pokemon_table.get? p = some row) (hname : row.name ≠ none) {t0 t1 : ℕ}
    (ht : row.type = [t0, t1]) {pdata : PokemonData}
    (hgen : pdata.gen = GEN_I) (hidx : pdata.trade_block.party0.index = row.index) :
    Res.loop (fun pd i =>
        (table_stat_base_get pokemon_table pd STAT_BASE_TYPE i).bind fun t =>
          pokemon_stat_set encode (fuel + 1) rnd t.2 STAT_TYPE i t.1) pdata
        [TYPE_0, TYPE_1]
      = Res.ok { pdata with trade_block := { pdata.trade_block with
          party0 := { pdata.trade_block.party0 with type0 := t0, type1 := t1 } } } := by
  have hb := (species_row hrow hname).2.2.2.1.2
  rw [ht] at hb
  have h0 : t0 % 65536 % 256 = t0 := by have := hb t0 (by simp); omega
  have h1 : t1 % 65536 % 256 = t1 := by have := hb t1 (by simp); omega
  have e0 : arr_get row.type TYPE_0 = Res.ok t0 := by rw [ht]; rfl
  have e1 : arr_get row.type TYPE_1 = Res.ok t1 := by rw [ht]; rfl
  simp [table_stat_base_get, pokemon_stat_get, (species_row hrow hname).1,
    arr_get_of_get? hrow, hidx, e0, e1, pokemon_stat_set, hgen,
    PokemonData.party, PokemonData.set_party, PokemonPartyGenI.type_set, h0, h1]

set_option maxRecDepth 100000 in
theorem catalog_names :
    ∀ row ∈ pokemon_table.take 151,
      1 ≤ ((row.name.map fun s => (cstr s).length).getD 0) ∧
        ((row.name.map fun s => (cstr s).length).getD 0) ≤ 10 := by
  decide

theorem species_name_length {p : ℕ} {row : PokemonTable} (hrow : pokemon_table.get? p = some row)
    {s : String} (hs : row.name = some s) : 1 ≤ (cstr s).length ∧ (cstr s).length ≤ 10 := by
  have hname : row.name ≠ none := by rw [hs]; exact Option.some_ne_none s
  have hp := species_lt hrow hname
  have hmem : row ∈ pokemon_table.take 151 := by
    have : (pokemon_table.take 151).get? p = some row := by
      rw [List.get?_eq_getElem?, List.getElem?_take, if_pos hp, ← List.get?_eq_getElem?]
      exact hrow
    exact List.get?_mem this
  have h := catalog_names row hmem
  rw [hs] at h
  exact h

theorem toupper_zero : toupper 0 = 0 := by decide

/-- The scratch buffer of the default nickname: the upper-cased name, then zeros. -/
theorem nickname_buf {s : String} (hlen : (cstr s).length ≤ LEN_NAME_BUF) :
    (strncpy (cstr s) LEN_NAME_BUF).map toupper
      = (cstr s).map toupper ++ List.replicate (LEN_NAME_BUF - (cstr s).length) 0 := by
  unfold strncpy
  rw [List.take_of_length_le hlen, List.map_append, List.map_replicate, toupper_zero]


/-! ### The recalculation masks decoded -/

theorem recalculate_level (encode : Encoder) (set : Setter) (rnd : ℕ) (pdata : PokemonData) :
    pokemon_recalculate encode set rnd pdata (RECALC_STATS ||| RECALC_EXP ||| RECALC_EVIVS)
      = (pokemon_exp_calc set pdata).bind fun pdata4 =>
        ((pokemon_stat_ev_calc set pdata4 pdata4.stat_sel).bind fun pdata5 =>
          pokemon_stat_iv_calc set rnd pdata5 pdata5.stat_sel).bind fun pdata6 =>
        Res.loop (fun pd i => pokemon_stat_calc set pd i) pdata6
          [STAT_ATK, STAT_DEF, STAT_SPD, STAT_SPC, STAT_HP] := by
  simp +decide [pokemon_recalculate]

theorem recalculate_sel (encode : Encoder) (set : Setter) (rnd : ℕ) (pdata : PokemonData) :
    pokemon_recalculate encode set rnd pdata (RECALC_EVIVS ||| RECALC_STATS)
      = ((pokemon_stat_ev_calc set pdata pdata.stat_sel).bind fun pdata5 =>
          pokemon_stat_iv_calc set rnd pdata5 pdata5.stat_sel).bind fun pdata6 =>
        Res.loop (fun pd i => pokemon_stat_calc set pd i) pdata6
          [STAT_ATK, STAT_DEF, STAT_SPD, STAT_SPC, STAT_HP] := by
  simp +decide [pokemon_recalculate]

theorem recalculate_all (encode : Encoder) (set : Setter) (rnd : ℕ) (pdata : PokemonData) :
    pokemon_recalculate encode set rnd pdata RECALC_ALL
      = ((pokemon_default_nickname_set encode pdata).bind fun r => Res.ok r.2).bind fun pdata1 =>
        (Res.loop (fun pd i =>
          (table_stat_base_get pokemon_table pd STAT_BASE_MOVE i).bind fun m =>
            set m.2 STAT_MOVE i m.1) pdata1 [MOVE_0, MOVE_1, MOVE_2, MOVE_3]).bind fun pdata2 =>
        (Res.loop (fun pd i =>
          (table_stat_base_get pokemon_table pd STAT_BASE_TYPE i).bind fun t =>
            set t.2 STAT_TYPE i t.1) pdata2 [TYPE_0, TYPE_1]).bind fun pdata3 =>
        (pokemon_exp_calc set pdata3).bind fun pdata4 =>
        ((pokemon_stat_ev_calc set pdata4 pdata4.stat_sel).bind fun pdata5 =>
          pokemon_stat_iv_calc set rnd pdata5 pdata5.stat_sel).bind fun pdata6 =>
        Res.loop (fun pd i => pokemon_stat_calc set pd i) pdata6
          [STAT_ATK, STAT_DEF, STAT_SPD, STAT_SPC, STAT_HP] := by
  simp +decide [pokemon_recalculate]

theorem exp_switch_ok {p : ℕ} {row : PokemonTable} (hrow : pokemon_table.get? p = some row)
    (hname : row.name ≠ none) (level : ℤ) : ∃ c, exp_switch row.growth level = Res.ok c := by
  rcases (species_row hrow hname).2.2.2.2.2 with hg | hg | hg | hg <;>
    simp +decide [exp_switch, hg]

theorem set_level_unfold (encode : Encoder) (fuel rnd : ℕ) (pdata : PokemonData)
    (which val : ℕ) :
    pokemon_stat_set encode (fuel + 1) rnd pdata STAT_LEVEL which val
      = pokemon_recalculate encode (pokemon_stat_set encode fuel rnd) rnd
          (if pdata.gen = GEN_I then
            pdata.set_party { pdata.party with
              level := val % 65536 % 256, level_again := val % 65536 % 256 }
          else pdata) (RECALC_STATS ||| RECALC_EXP ||| RECALC_EVIVS) := by
  simp [pokemon_stat_set]

theorem stat_ev_switch_lt (val level : ℕ) : stat_ev_switch val level < 65536 := by
  unfold stat_ev_switch
  split_ifs <;> omega

theorem stat_iv_switch_lt (rnd val : ℕ) : stat_iv_switch rnd val < 65536 := by
  unfold stat_iv_switch
  split_ifs <;> omega

theorem nibble_mod (x : ℕ) : (x &&& 0x0F) % 256 = x &&& 0x0F := by
  rw [and_15]; omega

theorem hp_nibble_mod (x : ℕ) : ((x &&& 0xAA) >>> 4) % 256 = (x &&& 0xAA) >>> 4 := by
  have h : x &&& 0xAA ≤ 0xAA := Nat.and_le_right
  rw [Nat.shiftRight_eq_div_pow]
  omega

/-- The record a write to level leaves. -/
theorem set_level_ok (encode : Encoder) (fuel rnd : ℕ) {p : ℕ} {row : PokemonTable}
    (hrow : pokemon_table.get? p = some row) (hname : row.name ≠ none) {pdata : PokemonData}
    (hgen : pdata.gen = GEN_I) (hidx : pdata.trade_block.party0.index = row.index)
    (which L : ℕ) (hL : L < 256) {c : ℤ} (hc : exp_switch row.growth (L : ℤ) = Res.ok c) :
    pokemon_stat_set encode (fuel + 2) rnd pdata STAT_LEVEL which L
      = Res.ok { pdata with trade_block := { pdata.trade_block with
          party0 := { pdata.trade_block.party0 with
            level := L, level_again := L,
            exp0 := (c % 2 ^ 32).toNat / 65536 % 256,
            exp1 := (c % 2 ^ 32).toNat / 256 % 256,
            exp2 := (c % 2 ^ 32).toNat % 256,
            atk_ev := bswap16 (stat_ev_switch pdata.stat_sel L),
            def_ev := bswap16 (stat_ev_switch pdata.stat_sel L),
            spd_ev := bswap16 (stat_ev_switch pdata.stat_sel L),
            spc_ev := bswap16 (stat_ev_switch pdata.stat_sel L),
            hp_ev := bswap16 (stat_ev_switch pdata.stat_sel L),
            iv := stat_iv_switch rnd pdata.stat_sel,
            atk := bswap16 (stat_calc row.base_hp
              ((stat_iv_switch rnd pdata.stat_sel >>> 12) &&& 0x0F)
              (stat_ev_switch pdata.stat_sel L) L STAT_ATK),
            def_ := bswap16 (stat_calc row.base_def
              ((stat_iv_switch rnd pdata.stat_sel >>> 8) &&& 0x0F)
              (stat_ev_switch pdata.stat_sel L) L STAT_DEF),
            spd := bswap16 (stat_calc row.base_spd
              ((stat_iv_switch rnd pdata.stat_sel >>> 4) &&& 0x0F)
              (stat_ev_switch pdata.stat_sel L) L STAT_SPD),
            spc := bswap16 (stat_calc row.base_spc
              (stat_iv_switch rnd pdata.stat_sel &&& 0x0F)
              (stat_ev_switch pdata.stat_sel L) L STAT_SPC),
            hp := bswap16 (stat_calc row.base_hp
              ((stat_iv_switch rnd pdata.stat_sel &&& 0xAA) >>> 4)
              (stat_ev_switch pdata.stat_sel L) L STAT_HP),
            max_hp := bswap16 (stat_calc row.base_hp
              ((stat_iv_switch rnd pdata.stat_sel &&& 0xAA) >>> 4)
              (stat_ev_switch pdata.stat_sel L) L STAT_HP) } } } := by
  obtain ⟨_, _, ⟨hb1, _, hb3, hb4, hb5⟩, _⟩ := species_row hrow hname
  have hL1 : L % 65536 % 256 = L := by omega
  have hL2 : L % 256 = L := by omega
  rw [show fuel + 2 = (fuel + 1) + 1 from rfl, set_level_unfold, recalculate_level]
  simp [-Res.loop_cons, hgen, PokemonData.party, PokemonData.set_party, hL1, hL2,
    exp_calc_ok encode fuel rnd hrow hname, hidx, hc,
    ev_calc_ok encode fuel rnd, iv_calc_ok encode fuel rnd,
    stats_loop_ok encode fuel rnd hrow hname,
    Nat.mod_eq_of_lt (stat_ev_switch_lt _ _), Nat.mod_eq_of_lt (stat_iv_switch_lt _ _),
    Nat.mod_eq_of_lt (stat_calc_lt _ _ _ _ _), Nat.mod_eq_of_lt (bswap16_lt _),
    bswap16_bswap16 _ (stat_ev_switch_lt _ _), nibble_mod, hp_nibble_mod,
    Nat.mod_eq_of_lt hb1, Nat.mod_eq_of_lt hb3, Nat.mod_eq_of_lt hb4, Nat.mod_eq_of_lt hb5]


theorem set_index_unfold (encode : Encoder) (fuel rnd : ℕ) (pdata : PokemonData)
    (which val : ℕ) :
    pokemon_stat_set encode (fuel + 1) rnd pdata STAT_INDEX which val
      = pokemon_recalculate encode (pokemon_stat_set encode fuel rnd) rnd
          (if pdata.gen = GEN_I then
            { pdata with
              trade_block := { pdata.trade_block with
                party0 := { pdata.party with index := val % 65536 % 256 }
                party_members0 := val % 65536 % 256 } }
          else pdata) RECALC_ALL := by
  simp [pokemon_stat_set]

theorem set_sel_unfold (encode : Encoder) (fuel rnd : ℕ) (pdata : PokemonData)
    (which val : ℕ) :
    pokemon_stat_set encode (fuel + 1) rnd pdata STAT_SEL which val
      = pokemon_recalculate encode (pokemon_stat_set encode fuel rnd) rnd
          (if pdata.gen = GEN_I then { pdata with stat_sel := val % 65536 } else pdata)
          (RECALC_EVIVS ||| RECALC_STATS) := by
  simp [pokemon_stat_set]

theorem set_num_unfold (encode : Encoder) (fuel rnd : ℕ) (pdata : PokemonData)
    (which val : ℕ) :
    pokemon_stat_set encode (fuel + 1) rnd pdata STAT_NUM which val
      = (arr_get pokemon_table (val % 65536)).bind fun row =>
          pokemon_stat_set encode fuel rnd pdata STAT_INDEX NONE row.index := by
  simp only [pokemon_stat_set]
  cases arr_get pokemon_table (val % 65536) with
  | fault e => rfl
  | ok row =>
    simp only [Res.bind_ok]
    cases pokemon_stat_set encode fuel rnd pdata STAT_INDEX NONE row.index with
    | fault e => rfl
    | ok pd => simp

/-- The record a write of a catalog species code to species index leaves. -/
theorem set_index_ok (encode : Encoder) (fuel rnd : ℕ) {p : ℕ} {row : PokemonTable}
    (hrow : pokemon_table.get? p = some row) {s : String} (hs : row.name = some s)
    {m0 m1 m2 m3 t0 t1 : ℕ} (hm : row.move = [m0, m1, m2, m3]) (ht : row.type = [t0, t1])
    {pdata : PokemonData} (hgen : pdata.gen = GEN_I) (which : ℕ) {c : ℤ}
    (hc : exp_switch row.growth (pdata.trade_block.party0.level : ℤ) = Res.ok c) :
    pokemon_stat_set encode (fuel + 2) rnd pdata STAT_INDEX which row.index
      = Res.ok { pdata with trade_block := { pdata.trade_block with
          party_members0 := row.index,
          nickname0 := encode (List.replicate LEN_NAME_BUF TERM_)
            ((strncpy (cstr s) LEN_NAME_BUF).map toupper) 10,
          party0 := { pdata.trade_block.party0 with
            index := row.index,
            move0 := m0, move1 := m1, move2 := m2, move3 := m3,
            type0 := t0, type1 := t1,
            exp0 := (c % 2 ^ 32).toNat / 65536 % 256,
            exp1 := (c % 2 ^ 32).toNat / 256 % 256,
            exp2 := (c % 2 ^ 32).toNat % 256,
            atk_ev := bswap16 (stat_ev_switch pdata.stat_sel pdata.trade_block.party0.level),
            def_ev := bswap16 (stat_ev_switch pdata.stat_sel pdata.trade_block.party0.level),
            spd_ev := bswap16 (stat_ev_switch pdata.stat_sel pdata.trade_block.party0.level),
            spc_ev := bswap16 (stat_ev_switch pdata.stat_sel pdata.trade_block.party0.level),
            hp_ev := bswap16 (stat_ev_switch pdata.stat_sel pdata.trade_block.party0.level),
            iv := stat_iv_switch rnd pdata.stat_sel,
            atk := bswap16 (stat_calc row.base_hp
              ((stat_iv_switch rnd pdata.stat_sel >>> 12) &&& 0x0F)
              (stat_ev_switch pdata.stat_sel pdata.trade_block.party0.level)
              (pdata.trade_block.party0.level % 256) STAT_ATK),
            def_ := bswap16 (stat_calc row.base_def
              ((stat_iv_switch rnd pdata.stat_sel >>> 8) &&& 0x0F)
              (stat_ev_switch pdata.stat_sel pdata.trade_block.party0.level)
              (pdata.trade_block.party0.level % 256) STAT_DEF),
            spd := bswap16 (stat_calc row.base_spd
              ((stat_iv_switch rnd pdata.stat_sel >>> 4) &&& 0x0F)
              (stat_ev_switch pdata.stat_sel pdata.trade_block.party0.level)
              (pdata.trade_block.party0.level % 256) STAT_SPD),
            spc := bswap16 (stat_calc row.base_spc
              (stat_iv_switch rnd pdata.stat_sel &&& 0x0F)
              (stat_ev_switch pdata.stat_sel pdata.trade_block.party0.level)
              (pdata.trade_block.party0.level % 256) STAT_SPC),
            hp := bswap16 (stat_calc row.base_hp
              ((stat_iv_switch rnd pdata.stat_sel &&& 0xAA) >>> 4)
              (stat_ev_switch pdata.stat_sel pdata.trade_block.party0.level)
              (pdata.trade_block.party0.level % 256) STAT_HP),
            max_hp := bswap16 (stat_calc row.base_hp
              ((stat_iv_switch rnd pdata.stat_sel &&& 0xAA) >>> 4)
              (stat_ev_switch pdata.stat_sel pdata.trade_block.party0.level)
              (pdata.trade_block.party0.level % 256) STAT_HP) } } } := by
  have hname : row.name ≠ none := by rw [hs]; exact Option.some_ne_none s
  obtain ⟨_, hi, ⟨hb1, _, hb3, hb4, hb5⟩, _⟩ := species_row hrow hname
  have hi1 : row.index % 65536 % 256 = row.index := by omega
  rw [show fuel + 2 = (fuel + 1) + 1 from rfl, set_index_unfold, recalculate_all]
  simp [-Res.loop_cons, hgen, PokemonData.party, PokemonData.set_party, hi1,
    nickname_ok encode hrow hs, moves_loop_ok encode fuel rnd hrow hname hm,
    types_loop_ok encode fuel rnd hrow hname ht,
    exp_calc_ok encode fuel rnd hrow hname, hc,
    ev_calc_ok encode fuel rnd, iv_calc_ok encode fuel rnd,
    stats_loop_ok encode fuel rnd hrow hname,
    Nat.mod_eq_of_lt (stat_ev_switch_lt _ _), Nat.mod_eq_of_lt (stat_iv_switch_lt _ _),
    Nat.mod_eq_of_lt (stat_calc_lt _ _ _ _ _), Nat.mod_eq_of_lt (bswap16_lt _),
    bswap16_bswap16 _ (stat_ev_switch_lt _ _), nibble_mod, hp_nibble_mod,
    Nat.mod_eq_of_lt hb1, Nat.mod_eq_of_lt hb3, Nat.mod_eq_of_lt hb4, Nat.mod_eq_of_lt hb5]

/-! ### Facts used by the claims -/

theorem sample_row :
    pokemon_table.get? 0 = some (PokemonTable.mk (some "Bulbasaur") 0x99 0x2D 0x31 0x31 0x2D 0x41
      [0x16, 0x03] [0x21, 0x2D, 0x00, 0x00] GROWTH_MEDIUM_SLOW) := by
  rfl

theorem cube_facts (L : ℕ) (h2 : 2 ≤ L) (h100 : L ≤ 100) :
    L * L * L ≤ 1000000 ∧ 140 + 15 * (L * L) ≤ L * L * L * 6 / 5 + 100 * L ∧
      L * L * L * 6 / 5 + 100 * L - 15 * (L * L) - 140 < 16777216 := by
  interval_cases L <;> decide

theorem stat_iv_switch_maxiv (rnd : ℕ) : stat_iv_switch rnd MAXIV_ZEROEV = 0xFFFF := by
  simp +decide [stat_iv_switch]

theorem stat_ev_switch_zeroev (level : ℕ) : stat_ev_switch MAXIV_ZEROEV level = 0 := by
  simp +decide [stat_ev_switch]

/-- What a write that triggers no recalculation returns, field by field. -/
theorem set_plain_fields (encode : Encoder) (fuel rnd : ℕ) (pdata : PokemonData)
    (which val : ℕ) :
    let set := pokemon_stat_set encode (fuel + 1) rnd pdata
    let v := val % 65536
    let upd := fun (p : PokemonPartyGenI) =>
      Res.ok (if pdata.gen = GEN_I then pdata.set_party p else pdata)
    set STAT_ATK which val = upd { pdata.party with atk := bswap16 v } ∧
    set STAT_DEF which val = upd { pdata.party with def_ := bswap16 v } ∧
    set STAT_SPD which val = upd { pdata.party with spd := bswap16 v } ∧
    set STAT_SPC which val = upd { pdata.party with spc := bswap16 v } ∧
    set STAT_HP which val = upd { pdata.party with hp := bswap16 v, max_hp := bswap16 v } ∧
    set STAT_ATK_EV which val = upd { pdata.party with atk_ev := bswap16 v } ∧
    set STAT_DEF_EV which val = upd { pdata.party with def_ev := bswap16 v } ∧
    set STAT_SPD_EV which val = upd { pdata.party with spd_ev := bswap16 v } ∧
    set STAT_SPC_EV which val = upd { pdata.party with spc_ev := bswap16 v } ∧
    set STAT_HP_EV which val = upd { pdata.party with hp_ev := bswap16 v } ∧
    set STAT_IV which val = upd { pdata.party with iv := v } ∧
    set STAT_OT_ID which val = upd { pdata.party with ot_id := bswap16 v } ∧
    set STAT_CONDITION which val = upd { pdata.party with status_condition := v % 256 } ∧
    set STAT_GEN which val = Res.ok pdata ∧
    set STAT_MOVE MOVE_0 val = upd { pdata.party with move0 := v % 256 } ∧
    set STAT_MOVE MOVE_1 val = upd { pdata.party with move1 := v % 256 } ∧
    set STAT_MOVE MOVE_2 val = upd { pdata.party with move2 := v % 256 } ∧
    set STAT_MOVE MOVE_3 val = upd { pdata.party with move3 := v % 256 } ∧
    set STAT_TYPE TYPE_0 val = upd { pdata.party with type0 := v % 256 } ∧
    set STAT_TYPE TYPE_1 val = upd { pdata.party with type1 := v % 256 } ∧
    set STAT_EXP EXP_0 val = upd { pdata.party with exp0 := v % 256 } ∧
    set STAT_EXP EXP_1 val = upd { pdata.party with exp1 := v % 256 } ∧
    set STAT_EXP EXP_2 val = upd { pdata.party with exp2 := v % 256 } := by
  intro set v upd
  simp only [set, v, upd]
  refine ⟨?_, ?_, ?_, ?_, ?_, ?_, ?_, ?_, ?_, ?_, ?_, ?_, ?_, ?_, ?_, ?_, ?_, ?_, ?_, ?_, ?_,
    ?_, ?_⟩ <;>
  · by_cases h : pdata.gen = GEN_I <;>
      simp [pokemon_stat_set, PokemonPartyGenI.move_set, PokemonPartyGenI.type_set,
        PokemonPartyGenI.exp_set, h]

/-! ### The claims -/

/-- C1: for base in 0..255, iv in 0..15, ev in 0..65535 and level in 0..255,
`stat_calc` returns `(2 * (base + iv) + isqrt(ev) / 4) * level / 100` with
truncating divisions, plus `level + 10` for hit points and plus `5` for every
other stat. -/
theorem stat_calc_formula (base iv ev level : ℕ) (stat : DataStat)
    (hb : base < 256) (hi : iv < 16) (he : ev < 65536) (hl : level < 256) :
    stat_calc base iv ev level stat
      = (2 * (base + iv) + Nat.sqrt ev / 4) * level / 100
        + (if stat = STAT_HP then level + 10 else 5) := by
  have hs : Nat.sqrt ev < 256 := by
    rw [Nat.sqrt_lt]; omega
  have h1 : (2 * (base + iv) + Nat.sqrt ev / 4) * level ≤ 603 * 255 :=
    Nat.mul_le_mul (by omega) (by omega)
  rw [stat_calc_eq base iv ev level stat hb (by omega) he hl]
  split_ifs <;> omega

theorem stat_calc_formula_witness : stat_calc 45 15 25600 2 STAT_HP = 15 := by
  have h := stat_calc_formula 45 15 25600 2 STAT_HP (by decide) (by decide) (by decide) (by decide)
  have hs : Nat.sqrt 25600 = 160 := Nat.sqrt_eq 160
  rw [h, hs]
  decide

/-- C2: on a Gen I record of a catalog species at a level `L` in 2..100,
`pokemon_exp_calc` returns and stores, as the three big-endian experience
bytes, `4 * L ^ 3 / 5` for a fast species, `L ^ 3` for medium-fast,
`6 * L ^ 3 / 5 - 15 * L ^ 2 + 100 * L - 140` for medium-slow and `5 * L ^ 3 / 4`
for slow, with truncating division. -/
theorem exp_calc_curves (encode : Encoder) (fuel rnd : ℕ) {p : ℕ} {row : PokemonTable}
    (hrow : pokemon_table.get? p = some row) (hname : row.name ≠ none) {pdata : PokemonData}
    (hgen : pdata.gen = GEN_I) (hidx : pdata.party.index = row.index)
    (L : ℕ) (h2 : 2 ≤ L) (h100 : L ≤ 100) (hlev : pdata.party.level = L) :
    ∃ pd, pokemon_exp_calc (pokemon_stat_set encode (fuel + 1) rnd) pdata = Res.ok pd ∧
      (row.growth = GROWTH_FAST → pd.party.exp = 4 * L ^ 3 / 5) ∧
      (row.growth = GROWTH_MEDIUM_FAST → pd.party.exp = L ^ 3) ∧
      (row.growth = GROWTH_MEDIUM_SLOW →
        (pd.party.exp : ℤ) = 6 * (L : ℤ) ^ 3 / 5 - 15 * (L : ℤ) ^ 2 + 100 * (L : ℤ) - 140) ∧
      (row.growth = GROWTH_SLOW → pd.party.exp = 5 * L ^ 3 / 4) := by
  obtain ⟨hc1, hc2, hc3⟩ := cube_facts L h2 h100
  have hlev1 : pdata.trade_block.party0.level = L := hlev
  rw [exp_calc_ok encode fuel rnd hrow hname hgen hidx, hlev1]
  have hbytes : ∀ e : ℕ, e < 16777216 →
      e / 65536 % 256 * 65536 + e / 256 % 256 * 256 + e % 256 = e := by
    intro e he; omega
  have hcube : L ^ 3 = L * L * L := by ring
  have hsq : (L : ℤ) ^ 2 = ((L * L : ℕ) : ℤ) := by push_cast; ring
  have hcubez : (L : ℤ) ^ 3 = ((L * L * L : ℕ) : ℤ) := by push_cast; ring
  have hmul : (L : ℤ) * L * L = ((L * L * L : ℕ) : ℤ) := by push_cast; ring
  have hmul2 : (L : ℤ) * L = ((L * L : ℕ) : ℤ) := by push_cast; ring
  generalize htt : L * L * L = t at *
  generalize hss : L * L = s at *
  rcases (species_row hrow hname).2.2.2.2.2 with hg | hg | hg | hg
  · have hsw : exp_switch row.growth (L : ℤ) = Res.ok (((4 * t / 5 : ℕ) : ℤ)) := by
      simp only [exp_switch, hg, if_true]
      rw [show (4 : ℤ) * L * L * L = 4 * ((L : ℤ) * L * L) by ring, hmul]
      push_cast; rfl
    rw [hsw]
    refine ⟨_, rfl, ?_, ?_, ?_, ?_⟩
    · intro _
      simp only [PokemonData.party, PokemonPartyGenI.exp, hcube]
      have : ((((4 * t / 5 : ℕ) : ℤ)) % 2 ^ 32).toNat = 4 * t / 5 := by omega
      rw [this, hbytes _ (by omega)]
    all_goals (intro h; rw [hg] at h; exact absurd h (by decide))
  · have hsw : exp_switch row.growth (L : ℤ) = Res.ok (((t : ℕ) : ℤ)) := by
      simp only [exp_switch, hg]
      rw [if_neg (by decide), if_true, hmul]
    rw [hsw]
    refine ⟨_, rfl, ?_, ?_, ?_, ?_⟩
    · intro h; rw [hg] at h; exact absurd h (by decide)
    · intro _
      simp only [PokemonData.party, PokemonPartyGenI.exp, hcube]
      have : ((((t : ℕ) : ℤ)) % 2 ^ 32).toNat = t := by omega
      rw [this, hbytes _ (by omega)]
    all_goals (intro h; rw [hg] at h; exact absurd h (by decide))
  · have hsw : exp_switch row.growth (L : ℤ)
        = Res.ok (((t * 6 / 5 + 100 * L - 15 * s - 140 : ℕ) : ℤ)) := by
      simp only [exp_switch, hg]
      rw [if_neg (by decide), if_neg (by decide), if_true, hmul,
        show (15 : ℤ) * L * L = 15 * ((L : ℤ) * L) by ring, hmul2]
      congr 1
      omega
    rw [hsw]
    refine ⟨_, rfl, ?_, ?_, ?_, ?_⟩
    · intro h; rw [hg] at h; exact absurd h (by decide)
    · intro h; rw [hg] at h; exact absurd h (by decide)
    · intro _
      simp only [PokemonData.party, PokemonPartyGenI.exp]
      have : ((((t * 6 / 5 + 100 * L - 15 * s - 140 : ℕ) : ℤ)) % 2 ^ 32).toNat
          = t * 6 / 5 + 100 * L - 15 * s - 140 := by omega
      rw [this, hbytes _ (by omega), hcubez, hsq]
      omega
    · intro h; rw [hg] at h; exact absurd h (by decide)
  · have hsw : exp_switch row.growth (L : ℤ) = Res.ok (((5 * t / 4 : ℕ) : ℤ)) := by
      simp only [exp_switch, hg]
      rw [if_neg (by decide), if_neg (by decide), if_neg (by decide), if_true,
        show (5 : ℤ) * L * L * L = 5 * ((L : ℤ) * L * L) by ring, hmul]
      push_cast; rfl
    rw [hsw]
    refine ⟨_, rfl, ?_, ?_, ?_, ?_⟩
    · intro h; rw [hg] at h; exact absurd h (by decide)
    · intro h; rw [hg] at h; exact absurd h (by decide)
    · intro h; rw [hg] at h; exact absurd h (by decide)
    · intro _
      simp only [PokemonData.party, PokemonPartyGenI.exp, hcube]
      have : ((((5 * t / 4 : ℕ) : ℤ)) % 2 ^ 32).toNat = 5 * t / 4 := by omega
      rw [this, hbytes _ (by omega)]


/-- C2 at Bulbasaur (medium-slow) and level 10: the stored experience is 560. -/
theorem exp_calc_curves_witness :
    ∃ pd, pokemon_exp_calc (pokemon_stat_set sample_encode 1 0) sample_record = Res.ok pd ∧
      pd.party.exp = 560 := by
  obtain ⟨pd, h, _, _, h3, _⟩ := exp_calc_curves sample_encode 0 0 sample_row (by decide)
    (rfl : sample_record.gen = GEN_I) rfl 10 (by decide) (by decide) rfl
  refine ⟨pd, h, ?_⟩
  have := h3 rfl
  norm_num at this
  exact_mod_cast this

/-- C3, the code at the failing input: on the sample record (Bulbasaur, base hp
45, base attack 49, max IV, zero EV) a write of level 100 returns, and the
attack stat read back is 125, the formula at base 45, while the formula at the
attack base 49 is 133. -/
theorem attack_computed_from_base_hp (encode : Encoder) (fuel rnd : ℕ) :
    ∃ pd, pokemon_stat_set encode (fuel + 2) rnd sample_record STAT_LEVEL NONE 100 = Res.ok pd ∧
      pokemon_stat_get pd STAT_ATK NONE = Res.ok (125, pd) ∧
      stat_calc 0x2D 15 0 100 STAT_ATK = 125 ∧ stat_calc 0x31 15 0 100 STAT_ATK = 133 := by
  have hname : (PokemonTable.mk (some "Bulbasaur") 0x99 0x2D 0x31 0x31 0x2D 0x41
      [0x16, 0x03] [0x21, 0x2D, 0x00, 0x00] GROWTH_MEDIUM_SLOW).name ≠ none := by decide
  obtain ⟨c, hc⟩ := exp_switch_ok sample_row hname ((100 : ℕ) : ℤ)
  have hset := set_level_ok encode fuel rnd sample_row hname (rfl : sample_record.gen = GEN_I) rfl
    NONE 100 (by decide) hc
  have h45 : stat_calc 0x2D 15 0 100 STAT_ATK = 125 := by
    rw [stat_calc_eq _ _ _ _ _ (by decide) (by decide) (by decide) (by decide), Nat.sqrt_zero]
    decide
  have h49 : stat_calc 0x31 15 0 100 STAT_ATK = 133 := by
    rw [stat_calc_eq _ _ _ _ _ (by decide) (by decide) (by decide) (by decide), Nat.sqrt_zero]
    decide
  refine ⟨_, hset, ?_, h45, h49⟩
  have hiv : stat_iv_switch rnd sample_record.stat_sel = 0xFFFF := stat_iv_switch_maxiv rnd
  have hev : stat_ev_switch sample_record.stat_sel 100 = 0 := stat_ev_switch_zeroev 100
  have hn : ((0xFFFF : ℕ) >>> 12) &&& 0x0F = 15 := by decide
  have hg : sample_record.gen = GEN_I := rfl
  simp only [pokemon_stat_get, PokemonData.party, hiv, hev, hn, hg, if_true,
    h45, bswap16_bswap16 125 (by decide)]

/-- C4: on a Gen I record, one write of the species code of the catalog entry
at storage position `p` to species index returns a record whose four move
slots are the entry's four default moves, whose two type slots are the entry's
two types, and whose nickname buffer is the codec's output, on the cleared
buffer and with length 10, for the entry's name upper-cased and followed by its
terminating zeros: every byte of the name from `a` (97) to `z` (122) is
replaced by the byte 32 below it, its upper-case letter, and every other byte
is kept. -/
theorem set_index_cascade (encode : Encoder) (fuel rnd : ℕ) {p : ℕ} {row : PokemonTable}
    (hrow : pokemon_table.get? p = some row) {s : String} (hs : row.name = some s)
    {pdata : PokemonData} (hgen : pdata.gen = GEN_I) (which : ℕ) :
    ∃ pd, pokemon_stat_set encode (fuel + 2) rnd pdata STAT_INDEX which row.index = Res.ok pd ∧
      [pd.party.move0, pd.party.move1, pd.party.move2, pd.party.move3] = row.move ∧
      [pd.party.type0, pd.party.type1] = row.type ∧
      pd.trade_block.nickname0
        = encode (List.replicate LEN_NAME_BUF TERM_)
            ((cstr s).map (fun c => if 97 ≤ c ∧ c ≤ 122 then c - 32 else c)
              ++ List.replicate (LEN_NAME_BUF - (cstr s).length) 0) 10 := by
  have hname : row.name ≠ none := by rw [hs]; exact Option.some_ne_none s
  obtain ⟨_, _, _, ⟨htl, _⟩, ⟨hml, _⟩, _⟩ := species_row hrow hname
  obtain ⟨c, hc⟩ := exp_switch_ok hrow hname (pdata.trade_block.party0.level : ℤ)
  obtain ⟨m0, m1, m2, m3, hm⟩ : ∃ m0 m1 m2 m3, row.move = [m0, m1, m2, m3] := by
    match h : row.move, hml with
    | [a, b, c, d], _ => exact ⟨a, b, c, d, rfl⟩
  obtain ⟨t0, t1, ht⟩ : ∃ t0 t1, row.type = [t0, t1] := by
    match h : row.type, htl with
    | [a, b], _ => exact ⟨a, b, rfl⟩
  have hlen : (cstr s).length ≤ LEN_NAME_BUF := by
    have := (species_name_length hrow hs).2
    exact le_trans this (by decide)
  have hup : (cstr s).map toupper
      = (cstr s).map (fun c => if 97 ≤ c ∧ c ≤ 122 then c - 32 else c) := rfl
  refine ⟨_, set_index_ok encode fuel rnd hrow hs hm ht hgen which hc, ?_, ?_, ?_⟩
  · simp [PokemonData.party, hm]
  · simp [PokemonData.party, ht]
  · simp only [nickname_buf hlen, hup]

/-- C4 at the sample record and Bulbasaur with the copying codec: the moves and
types are those of the catalog row and the nickname buffer holds `BULBASAUR`
followed by two terminators. -/
theorem set_index_cascade_witness :
    ∃ pd, pokemon_stat_set copy_encode 2 0 sample_record STAT_INDEX NONE 0x99 = Res.ok pd ∧
      [pd.party.move0, pd.party.move1, pd.party.move2, pd.party.move3]
        = [0x21, 0x2D, 0x00, 0x00] ∧
      [pd.party.type0, pd.party.type1] = [0x16, 0x03] ∧
      pd.trade_block.nickname0 = [66, 85, 76, 66, 65, 83, 65, 85, 82, 0x50, 0x50] := by
  obtain ⟨pd, h1, h2, h3, h4⟩ := set_index_cascade copy_encode 0 0 sample_row
    (s := "Bulbasaur") rfl (rfl : sample_record.gen = GEN_I) NONE
  exact ⟨pd, h1, h2, h3, h4.trans (by decide)⟩

/-- C5: on a Gen I record of a catalog species, one write of a level `L` in
0..255 returns a record whose level reads `L`, whose experience is the low 24
bits of the curve value of the species' growth class at `L`, and in which each
of the five final stats is `stat_calc` of the catalog column, individual value
and effort value the accessors return for that stat, at level `L`. -/
theorem set_level_cascade (encode : Encoder) (fuel rnd : ℕ) {p : ℕ} {row : PokemonTable}
    (hrow : pokemon_table.get? p = some row) (hname : row.name ≠ none) {pdata : PokemonData}
    (hgen : pdata.gen = GEN_I) (hidx : pdata.party.index = row.index)
    (which L : ℕ) (hL : L < 256) :
    ∃ pd c, pokemon_stat_set encode (fuel + 2) rnd pdata STAT_LEVEL which L = Res.ok pd ∧
      pokemon_stat_get pd STAT_LEVEL NONE = Res.ok (L, pd) ∧
      exp_switch row.growth (L : ℤ) = Res.ok c ∧ (pd.party.exp : ℤ) = c % 2 ^ 24 ∧
      ∀ s ∈ [STAT_ATK, STAT_DEF, STAT_SPD, STAT_SPC, STAT_HP],
        ∃ b base iv ev, s.base = some b ∧
          table_stat_base_get pokemon_table pd b NONE = Res.ok (base, pd) ∧
          pokemon_stat_iv_get pd s = Res.ok (iv, pd) ∧
          pokemon_stat_ev_get pd s = Res.ok (ev, pd) ∧
          pokemon_stat_get pd s NONE = Res.ok (stat_calc base iv ev L s, pd) := by
  obtain ⟨c, hc⟩ := exp_switch_ok hrow hname (L : ℤ)
  have hset := set_level_ok encode fuel rnd hrow hname hgen hidx which L hL hc
  refine ⟨_, c, hset, ?_, hc, ?_, ?_⟩
  · simp [pokemon_stat_get, hgen, PokemonData.party]
  · simp only [PokemonData.party, PokemonPartyGenI.exp]
    omega
  · have hidx' : pdata.trade_block.party0.index = row.index := hidx
    have hev := bswap16_bswap16 _ (stat_ev_switch_lt pdata.stat_sel L)
    have hst := fun b i e l s => bswap16_bswap16 _ (stat_calc_lt b i e l s)
    intro s hs
    simp only [List.mem_cons, List.mem_singleton, List.not_mem_nil, or_false] at hs
    rcases hs with rfl | rfl | rfl | rfl | rfl
    · exact ⟨STAT_BASE_ATK, row.base_hp, (stat_iv_switch rnd pdata.stat_sel >>> 12) &&& 0x0F,
        stat_ev_switch pdata.stat_sel L, rfl,
        by simp [base_get_ok hrow hname, hgen, hidx'],
        by simp [pokemon_stat_iv_get, pokemon_stat_get, hgen, PokemonData.party, nibble_mod],
        by simp [pokemon_stat_ev_get, pokemon_stat_get, hgen, PokemonData.party, hev],
        by simp [pokemon_stat_get, hgen, PokemonData.party, hst]⟩
    · exact ⟨STAT_BASE_DEF, row.base_def, (stat_iv_switch rnd pdata.stat_sel >>> 8) &&& 0x0F,
        stat_ev_switch pdata.stat_sel L, rfl,
        by simp [base_get_ok hrow hname, hgen, hidx'],
        by simp [pokemon_stat_iv_get, pokemon_stat_get, hgen, PokemonData.party, nibble_mod],
        by simp [pokemon_stat_ev_get, pokemon_stat_get, hgen, PokemonData.party, hev],
        by simp [pokemon_stat_get, hgen, PokemonData.party, hst]⟩
    · exact ⟨STAT_BASE_SPD, row.base_spd, (stat_iv_switch rnd pdata.stat_sel >>> 4) &&& 0x0F,
        stat_ev_switch pdata.stat_sel L, rfl,
        by simp [base_get_ok hrow hname, hgen, hidx'],
        by simp [pokemon_stat_iv_get, pokemon_stat_get, hgen, PokemonData.party, nibble_mod],
        by simp [pokemon_stat_ev_get, pokemon_stat_get, hgen, PokemonData.party, hev],
        by simp [pokemon_stat_get, hgen, PokemonData.party, hst]⟩
    · exact ⟨STAT_BASE_SPC, row.base_spc, stat_iv_switch rnd pdata.stat_sel &&& 0x0F,
        stat_ev_switch pdata.stat_sel L, rfl,
        by simp [base_get_ok hrow hname, hgen, hidx'],
        by simp [pokemon_stat_iv_get, pokemon_stat_get, hgen, PokemonData.party, nibble_mod],
        by simp [pokemon_stat_ev_get, pokemon_stat_get, hgen, PokemonData.party, hev],
        by simp [pokemon_stat_get, hgen, PokemonData.party, hst]⟩
    · exact ⟨STAT_BASE_HP, row.base_hp, (stat_iv_switch rnd pdata.stat_sel &&& 0xAA) >>> 4,
        stat_ev_switch pdata.stat_sel L, rfl,
        by simp [base_get_ok hrow hname, hgen, hidx'],
        by simp [pokemon_stat_iv_get, pokemon_stat_get, hgen, PokemonData.party, hp_nibble_mod],
        by simp [pokemon_stat_ev_get, pokemon_stat_get, hgen, PokemonData.party, hev],
        by simp [pokemon_stat_get, hgen, PokemonData.party, hst]⟩


/-- C5 at the sample record and level 100. -/
theorem set_level_cascade_witness :
    ∃ pd, pokemon_stat_set sample_encode 2 0 sample_record STAT_LEVEL NONE 100 = Res.ok pd ∧
      pokemon_stat_get pd STAT_LEVEL NONE = Res.ok (100, pd) := by
  obtain ⟨pd, c, h1, h2, _⟩ := set_level_cascade sample_encode 0 0 sample_row (by decide)
    (rfl : sample_record.gen = GEN_I) rfl NONE 100 (by decide)
  exact ⟨pd, h1, h2⟩

set_option maxRecDepth 1000000 in
/-- C6, the code at the failing input: species code 0 is the code of no species
entry, and `table_pokemon_pos_get` returns for it position 151, the sentinel
row, not position 0; every other code of no species entry gets position 0. -/
theorem pos_get_zero_is_sentinel :
    0 ∉ (pokemon_table.take 151).map PokemonTable.index ∧
      table_pokemon_pos_get pokemon_table 0 = Res.ok 151 ∧
      pokemon_table.get? 151 = some (PokemonTable.mk none 0 0 0 0 0 0 [0, 0] [0, 0, 0, 0] 0) ∧
      ∀ c ∈ List.range 256, c = 0 ∨ c ∈ (pokemon_table.take 151).map PokemonTable.index ∨
        table_pokemon_pos_get pokemon_table c = Res.ok 0 := by
  decide

/-- C7: a write of a final stat, an effort value, the IV word, a move slot, a
type slot, the trainer ID, an experience byte, the status condition or the
generation identifier returns the record with only the storage of that field
replaced (both HP words for hit points, nothing for the generation
identifier, nothing at all on a record that is not Gen I); no recalculation
changes anything else. -/
theorem set_plain_field_frame (encode : Encoder) (fuel rnd : ℕ) (pdata : PokemonData)
    (which val : ℕ) :
    let set := pokemon_stat_set encode (fuel + 1) rnd pdata
    let v := val % 65536
    let upd := fun (p : PokemonPartyGenI) =>
      Res.ok (if pdata.gen = GEN_I then pdata.set_party p else pdata)
    set STAT_ATK which val = upd { pdata.party with atk := bswap16 v } ∧
    set STAT_DEF which val = upd { pdata.party with def_ := bswap16 v } ∧
    set STAT_SPD which val = upd { pdata.party with spd := bswap16 v } ∧
    set STAT_SPC which val = upd { pdata.party with spc := bswap16 v } ∧
    set STAT_HP which val = upd { pdata.party with hp := bswap16 v, max_hp := bswap16 v } ∧
    set STAT_ATK_EV which val = upd { pdata.party with atk_ev := bswap16 v } ∧
    set STAT_DEF_EV which val = upd { pdata.party with def_ev := bswap16 v } ∧
    set STAT_SPD_EV which val = upd { pdata.party with spd_ev := bswap16 v } ∧
    set STAT_SPC_EV which val = upd { pdata.party with spc_ev := bswap16 v } ∧
    set STAT_HP_EV which val = upd { pdata.party with hp_ev := bswap16 v } ∧
    set STAT_IV which val = upd { pdata.party with iv := v } ∧
    set STAT_OT_ID which val = upd { pdata.party with ot_id := bswap16 v } ∧
    set STAT_CONDITION which val = upd { pdata.party with status_condition := v % 256 } ∧
    set STAT_GEN which val = Res.ok pdata ∧
    set STAT_MOVE MOVE_0 val = upd { pdata.party with move0 := v % 256 } ∧
    set STAT_MOVE MOVE_1 val = upd { pdata.party with move1 := v % 256 } ∧
    set STAT_MOVE MOVE_2 val = upd { pdata.party with move2 := v % 256 } ∧
    set STAT_MOVE MOVE_3 val = upd { pdata.party with move3 := v % 256 } ∧
    set STAT_TYPE TYPE_0 val = upd { pdata.party with type0 := v % 256 } ∧
    set STAT_TYPE TYPE_1 val = upd { pdata.party with type1 := v % 256 } ∧
    set STAT_EXP EXP_0 val = upd { pdata.party with exp0 := v % 256 } ∧
    set STAT_EXP EXP_1 val = upd { pdata.party with exp1 := v % 256 } ∧
    set STAT_EXP EXP_2 val = upd { pdata.party with exp2 := v % 256 } :=
  set_plain_fields encode fuel rnd pdata which val

/-- C8: on a Gen I record and for a 16-bit value `v`, a write of a final stat,
an effort value or the trainer ID returns a record that holds the byte-swapped
word `bswap16 v` in that field (in both the current-HP and the max-HP field
for hit points), and a read of the same field then returns `v` and leaves the
record as it is. -/
theorem set_get_swapped (encode : Encoder) (fuel rnd : ℕ) (pdata : PokemonData)
    (hgen : pdata.gen = GEN_I) (which v : ℕ) (hv : v < 65536) :
    (∃ pd, pokemon_stat_set encode (fuel + 1) rnd pdata STAT_ATK which v = Res.ok pd ∧
      pd.party.atk = bswap16 v ∧ pokemon_stat_get pd STAT_ATK which = Res.ok (v, pd)) ∧
    (∃ pd, pokemon_stat_set encode (fuel + 1) rnd pdata STAT_DEF which v = Res.ok pd ∧
      pd.party.def_ = bswap16 v ∧ pokemon_stat_get pd STAT_DEF which = Res.ok (v, pd)) ∧
    (∃ pd, pokemon_stat_set encode (fuel + 1) rnd pdata STAT_SPD which v = Res.ok pd ∧
      pd.party.spd = bswap16 v ∧ pokemon_stat_get pd STAT_SPD which = Res.ok (v, pd)) ∧
    (∃ pd, pokemon_stat_set encode (fuel + 1) rnd pdata STAT_SPC which v = Res.ok pd ∧
      pd.party.spc = bswap16 v ∧ pokemon_stat_get pd STAT_SPC which = Res.ok (v, pd)) ∧
    (∃ pd, pokemon_stat_set encode (fuel + 1) rnd pdata STAT_HP which v = Res.ok pd ∧
      pd.party.hp = bswap16 v ∧ pd.party.max_hp = bswap16 v ∧
      pokemon_stat_get pd STAT_HP which = Res.ok (v, pd)) ∧
    (∃ pd, pokemon_stat_set encode (fuel + 1) rnd pdata STAT_ATK_EV which v = Res.ok pd ∧
      pd.party.atk_ev = bswap16 v ∧ pokemon_stat_get pd STAT_ATK_EV which = Res.ok (v, pd)) ∧
    (∃ pd, pokemon_stat_set encode (fuel + 1) rnd pdata STAT_DEF_EV which v = Res.ok pd ∧
      pd.party.def_ev = bswap16 v ∧ pokemon_stat_get pd STAT_DEF_EV which = Res.ok (v, pd)) ∧
    (∃ pd, pokemon_stat_set encode (fuel + 1) rnd pdata STAT_SPD_EV which v = Res.ok pd ∧
      pd.party.spd_ev = bswap16 v ∧ pokemon_stat_get pd STAT_SPD_EV which = Res.ok (v, pd)) ∧
    (∃ pd, pokemon_stat_set encode (fuel + 1) rnd pdata STAT_SPC_EV which v = Res.ok pd ∧
      pd.party.spc_ev = bswap16 v ∧ pokemon_stat_get pd STAT_SPC_EV which = Res.ok (v, pd)) ∧
    (∃ pd, pokemon_stat_set encode (fuel + 1) rnd pdata STAT_HP_EV which v = Res.ok pd ∧
      pd.party.hp_ev = bswap16 v ∧ pokemon_stat_get pd STAT_HP_EV which = Res.ok (v, pd)) ∧
    (∃ pd, pokemon_stat_set encode (fuel + 1) rnd pdata STAT_OT_ID which v = Res.ok pd ∧
      pd.party.ot_id = bswap16 v ∧ pokemon_stat_get pd STAT_OT_ID which = Res.ok (v, pd)) := by
  have hm : v % 65536 = v := Nat.mod_eq_of_lt hv
  have hb := bswap16_bswap16 v hv
  have H := set_plain_fields encode fuel rnd pdata which v
  simp only [hgen, if_true, hm] at H
  obtain ⟨h1, h2, h3, h4, h5, h6, h7, h8, h9, h10, _, h12, _⟩ := H
  refine ⟨⟨_, h1, ?_⟩, ⟨_, h2, ?_⟩, ⟨_, h3, ?_⟩, ⟨_, h4, ?_⟩, ⟨_, h5, ?_⟩, ⟨_, h6, ?_⟩,
    ⟨_, h7, ?_⟩, ⟨_, h8, ?_⟩, ⟨_, h9, ?_⟩, ⟨_, h10, ?_⟩, ⟨_, h12, ?_⟩⟩ <;>
  simp [pokemon_stat_get, PokemonData.party, PokemonData.set_party, hgen, hb]

/-- C8 at the sample record and the value `0x1234`. -/
theorem set_get_swapped_witness :
    ∃ pd, pokemon_stat_set sample_encode 1 0 sample_record STAT_OT_ID NONE 0x1234 = Res.ok pd ∧
      pd.party.ot_id = 0x3412 ∧ pokemon_stat_get pd STAT_OT_ID NONE = Res.ok (0x1234, pd) := by
  obtain ⟨pd, h1, h2, h3⟩ :=
    (set_get_swapped sample_encode 0 0 sample_record rfl NONE 0x1234 (by decide)).2.2.2.2.2.2.2.2.2.2
  exact ⟨pd, h1, by rw [h2]; decide, h3⟩

/-- C9, the code at the failing input: on the sample record a write of status
condition 4 returns and stores 4, and the read of the status condition that
follows returns 0 and leaves 0 stored. -/
theorem condition_read_returns_zero (encode : Encoder) (fuel rnd : ℕ) :
    ∃ pd, pokemon_stat_set encode (fuel + 1) rnd sample_record STAT_CONDITION NONE 4 = Res.ok pd ∧
      pd.party.status_condition = 4 ∧
      pokemon_stat_get pd STAT_CONDITION NONE
        = Res.ok (0, pd.set_party { pd.party with status_condition := 0 }) := by
  have H := set_plain_fields encode fuel rnd sample_record NONE 4
  simp only [show sample_record.gen = GEN_I from rfl, if_true] at H
  obtain ⟨_, _, _, _, _, _, _, _, _, _, _, _, h13, _⟩ := H
  exact ⟨_, h13, rfl, rfl⟩

/-- C10, the code at the failing input: a read of the status condition of the
sample record, whose status condition is 4, returns 0 together with a record
whose status condition is 0, so the record is not what it was. -/
theorem condition_read_writes :
    sample_record.party.status_condition = 4 ∧
      ∃ pd, pokemon_stat_get sample_record STAT_CONDITION NONE = Res.ok (0, pd) ∧
        pd.party.status_condition = 0 ∧ pd ≠ sample_record := by
  refine ⟨rfl, sample_record.set_party { sample_record.party with status_condition := 0 },
    rfl, rfl, by decide⟩

/-! ### Species by storage position -/

/-- A write of a catalog species code to species index returns the same record
for every budget from 2 on and every sub-index; the record is Gen I and holds
that code. -/
theorem set_index_exists (encode : Encoder) (rnd : ℕ) {p : ℕ} {row : PokemonTable}
    (hrow : pokemon_table.get? p = some row) (hname : row.name ≠ none)
    {pdata : PokemonData} (hgen : pdata.gen = GEN_I) :
    ∃ pd, (∀ fuel which,
        pokemon_stat_set encode (fuel + 2) rnd pdata STAT_INDEX which row.index = Res.ok pd) ∧
      pd.gen = GEN_I ∧ pd.trade_block.party0.index = row.index ∧
      pd.trade_block.party_members0 = row.index := by
  obtain ⟨_, _, _, ⟨htl, _⟩, ⟨hml, _⟩, _⟩ := species_row hrow hname
  obtain ⟨c, hc⟩ := exp_switch_ok hrow hname (pdata.trade_block.party0.level : ℤ)
  obtain ⟨s, hs⟩ : ∃ s, row.name = some s := Option.ne_none_iff_exists'.1 hname
  obtain ⟨m0, m1, m2, m3, hm⟩ : ∃ m0 m1 m2 m3, row.move = [m0, m1, m2, m3] := by
    match h : row.move, hml with
    | [a, b, c, d], _ => exact ⟨a, b, c, d, rfl⟩
  obtain ⟨t0, t1, ht⟩ : ∃ t0 t1, row.type = [t0, t1] := by
    match h : row.type, htl with
    | [a, b], _ => exact ⟨a, b, rfl⟩
  exact ⟨_, fun fuel which => set_index_ok encode fuel rnd hrow hs hm ht hgen which hc,
    hgen, rfl, rfl⟩

theorem pos_get_zero : table_pokemon_pos_get pokemon_table 0 = Res.ok 151 := by
  decide

/-- On a record that is not Gen I a write to species index reads the name of
the sentinel row: the default nickname is taken at position
`table_pokemon_pos_get 0`. -/
theorem set_index_other_gen (encode : Encoder) (fuel rnd : ℕ) {pdata : PokemonData}
    (hgen : pdata.gen ≠ GEN_I) (which val : ℕ) :
    pokemon_stat_set encode (fuel + 1) rnd pdata STAT_INDEX which val
      = Res.fault Fault.undefined := by
  rw [set_index_unfold, recalculate_all, if_neg hgen]
  simp [pokemon_default_nickname_set, pokemon_stat_get, hgen, pos_get_zero,
    table_stat_name_get, arr_get_of_get? pokemon_table_sentinel]

/-- A write to `STAT_NUM` of the storage position of a species entry is the
write of that entry's code to `STAT_INDEX`, with one call less of budget. -/
theorem set_num_eq_index (encode : Encoder) (fuel rnd : ℕ) (pdata : PokemonData)
    (which : ℕ) {p : ℕ} {row : PokemonTable}
    (hrow : pokemon_table.get? p = some row) (hname : row.name ≠ none) :
    pokemon_stat_set encode (fuel + 3) rnd pdata STAT_NUM which p
      = pokemon_stat_set encode (fuel + 2) rnd pdata STAT_INDEX NONE row.index := by
  have hp : p % 65536 = p := by
    have := species_lt hrow hname
    omega
  rw [show fuel + 3 = (fuel + 2) + 1 from rfl, set_num_unfold, hp, arr_get_of_get? hrow,
    Res.bind_ok]

/-- C11: for every record and every storage position `p` of a species entry, a
write of `p` to `STAT_NUM` gives exactly what a write of that entry's code to
`STAT_INDEX` gives, whatever the budgets (from 3 and from 2 on) and
sub-indices; on a Gen I record both return a record. -/
theorem set_num_is_set_index (encode : Encoder) (rnd : ℕ) (pdata : PokemonData)
    (f1 f2 w1 w2 : ℕ) {p : ℕ} {row : PokemonTable}
    (hrow : pokemon_table.get? p = some row) (hname : row.name ≠ none) :
    pokemon_stat_set encode (f1 + 3) rnd pdata STAT_NUM w1 p
        = pokemon_stat_set encode (f2 + 2) rnd pdata STAT_INDEX w2 row.index ∧
      (pdata.gen = GEN_I →
        ∃ pd, pokemon_stat_set encode (f2 + 2) rnd pdata STAT_INDEX w2 row.index = Res.ok pd) := by
  have hnum := set_num_eq_index encode f1 rnd pdata w1 hrow hname
  by_cases hgen : pdata.gen = GEN_I
  · obtain ⟨pd, hpd, _⟩ := set_index_exists encode rnd hrow hname hgen
    exact ⟨by rw [hnum, hpd, hpd], fun _ => ⟨pd, hpd f2 w2⟩⟩
  · refine ⟨?_, fun h => absurd h hgen⟩
    rw [hnum, show f1 + 2 = (f1 + 1) + 1 from rfl, show f2 + 2 = (f2 + 1) + 1 from rfl,
      set_index_other_gen encode _ rnd hgen, set_index_other_gen encode _ rnd hgen]

/-- C11 at the sample record and storage position 0. -/
theorem set_num_is_set_index_witness :
    pokemon_stat_set sample_encode 3 0 sample_record STAT_NUM NONE 0
      = pokemon_stat_set sample_encode 2 0 sample_record STAT_INDEX NONE 0x99 :=
  (set_num_is_set_index sample_encode 0 sample_record 0 0 NONE NONE sample_row (by decide)).1

/-- C12: on a Gen I record, after a write of the storage position `p` of a
species entry to `STAT_NUM`, a read of `STAT_NUM` returns `p` and a read of
`STAT_INDEX` returns the entry's code. -/
theorem set_num_get_num (encode : Encoder) (fuel rnd : ℕ) (pdata : PokemonData)
    (hgen : pdata.gen = GEN_I) (which : ℕ) {p : ℕ} {row : PokemonTable}
    (hrow : pokemon_table.get? p = some row) (hname : row.name ≠ none) :
    ∃ pd, pokemon_stat_set encode (fuel + 3) rnd pdata STAT_NUM which p = Res.ok pd ∧
      pokemon_stat_get pd STAT_NUM NONE = Res.ok (p, pd) ∧
      pokemon_stat_get pd STAT_INDEX NONE = Res.ok (row.index, pd) := by
  obtain ⟨pd, hpd, hg, hi, _⟩ := set_index_exists encode rnd hrow hname hgen
  have h := set_num_eq_index encode fuel rnd pdata which hrow hname
  refine ⟨pd, by rw [h, hpd], get_num_ok hrow hname hg hi NONE, ?_⟩
  simp [pokemon_stat_get, hg, PokemonData.party, hi]

/-- C12 at the sample record and storage position 0. -/
theorem set_num_get_num_witness :
    ∃ pd, pokemon_stat_set sample_encode 3 0 sample_record STAT_NUM NONE 0 = Res.ok pd ∧
      pokemon_stat_get pd STAT_NUM NONE = Res.ok (0, pd) ∧
      pokemon_stat_get pd STAT_INDEX NONE = Res.ok (0x99, pd) :=
  set_num_get_num sample_encode 0 0 sample_record rfl NONE sample_row (by decide)

/-- C13: for every storage position `p` of a species entry,
`table_pokemon_pos_get` of that entry's code is `p`; hence two species entries
with the same code are at the same position. -/
theorem pos_get_of_code {p q : ℕ} {rp rq : PokemonTable}
    (hp : pokemon_table.get? p = some rp) (hnp : rp.name ≠ none)
    (hq : pokemon_table.get? q = some rq) (hnq : rq.name ≠ none) :
    table_pokemon_pos_get pokemon_table rp.index = Res.ok p ∧
      (rp.index = rq.index → p = q) := by
  have h1 := (species_row hp hnp).1
  have h2 := (species_row hq hnq).1
  refine ⟨h1, fun h => ?_⟩
  rw [h, h2] at h1
  exact (Res.ok.inj h1).symm

set_option maxRecDepth 100000 in
/-- C13 at Mew, the last species entry, position 150 and code `0x15`. -/
theorem pos_get_of_code_witness : table_pokemon_pos_get pokemon_table 0x15 = Res.ok 150 :=
  (pos_get_of_code
    (by decide : pokemon_table.get? 150 = some (PokemonTable.mk (some "Mew") 0x15 0x64 0x64 0x64
      0x64 0x64 [0x18, 0x18] [0x01, 0x00, 0x00, 0x00] GROWTH_MEDIUM_SLOW))
    (by decide) sample_row (by decide)).1

/-! ### Named lists -/

theorem namelist_cnt_scan_entries (entries rest : List NamedList) (s : NamedList)
    (hs : s.name = none) (hn : ∀ e ∈ entries, e.name ≠ none) (i : ℕ) :
    namelist_cnt_scan (entries ++ s :: rest) i = Res.ok (i + entries.length) := by
  induction entries generalizing i with
  | nil => simp [namelist_cnt_scan, hs]
  | cons e es ih =>
    have he : e.name ≠ none := hn e (List.mem_cons_self e es)
    have := ih (fun x hx => hn x (List.mem_cons_of_mem e hx)) (i + 1)
    change namelist_cnt_scan (e :: (es ++ s :: rest)) i = _
    rw [namelist_cnt_scan, if_neg he, this, List.length_cons,
      show i + 1 + es.length = i + (es.length + 1) from by omega]

theorem namelist_pos_scan_entries (entries rest : List NamedList) (s : NamedList)
    (hs : s.name = none) (hn : ∀ e ∈ entries, e.name ≠ none) (c i : ℕ) :
    ∃ r, namelist_pos_scan c (entries ++ s :: rest) i = Res.ok r ∧
      ((∃ k e, entries.get? k = some e ∧ e.index = c ∧ r = i + k ∧
          ∀ j < k, ∀ x, entries.get? j = some x → x.index ≠ c) ∨
        (r = 0 ∧ ∀ e ∈ entries, e.index ≠ c)) := by
  induction entries generalizing i with
  | nil => exact ⟨0, by simp [namelist_pos_scan, hs], Or.inr ⟨rfl, by simp⟩⟩
  | cons e es ih =>
    have he : e.name ≠ none := hn e (List.mem_cons_self e es)
    by_cases hc : c = e.index
    · refine ⟨i, by simp [namelist_pos_scan, he, hc], Or.inl ⟨0, e, rfl, hc.symm, rfl, ?_⟩⟩
      intro j hj
      omega
    · obtain ⟨r, hr, hcase⟩ := ih (fun x hx => hn x (List.mem_cons_of_mem e hx)) (i + 1)
      have hscan : namelist_pos_scan c (e :: es ++ s :: rest) i = Res.ok r := by
        change namelist_pos_scan c (e :: (es ++ s :: rest)) i = _
        rw [namelist_pos_scan, if_neg he, if_neg hc, hr]
      refine ⟨r, hscan, ?_⟩
      rcases hcase with ⟨k, x, hk, hx, hrk, hlt⟩ | ⟨h0, hall⟩
      · refine Or.inl ⟨k + 1, x, by simpa using hk, hx, by omega, ?_⟩
        intro j hj y hy
        cases j with
        | zero =>
          simp only [List.get?_cons_zero, Option.some.injEq] at hy
          rw [← hy]
          exact fun h => hc h.symm
        | succ j => exact hlt j (by omega) y (by simpa using hy)
      · refine Or.inr ⟨h0, ?_⟩
        intro y hy
        rcases List.mem_cons.1 hy with rfl | hy
        · exact fun h => hc h.symm
        · exact hall y hy

/-- C15: in a list whose entries before the first `NULL` name are `entries`,
`namelist_cnt` returns their number, and `namelist_pos_get` returns for every
code the position of the first of them with that code (as a `uint8_t`), or 0
when none of them has it; when `entries` is not empty the result is below the
count and `namelist_name_get_index` returns a name that is not `NULL`. -/
theorem namelist_pos_get_first (entries rest : List NamedList) (s : NamedList)
    (hs : s.name = none) (hn : ∀ e ∈ entries, e.name ≠ none) (code : ℕ) :
    namelist_cnt (entries ++ s :: rest) = Res.ok entries.length ∧
      ∃ r, namelist_pos_get (entries ++ s :: rest) code = Res.ok r ∧
        ((∃ e, entries.get? r = some e ∧ e.index = code % 256 ∧
            ∀ j < r, ∀ x, entries.get? j = some x → x.index ≠ code % 256) ∨
          (r = 0 ∧ ∀ e ∈ entries, e.index ≠ code % 256)) ∧
        (entries ≠ [] → r < entries.length ∧
          ∃ name, namelist_name_get_index (entries ++ s :: rest) code = Res.ok (some name)) := by
  refine ⟨by simpa using namelist_cnt_scan_entries entries rest s hs hn 0, ?_⟩
  obtain ⟨r, hr, hcase⟩ := namelist_pos_scan_entries entries rest s hs hn (code % 256) 0
  have hcase' : (∃ e, entries.get? r = some e ∧ e.index = code % 256 ∧
      ∀ j < r, ∀ x, entries.get? j = some x → x.index ≠ code % 256) ∨
      (r = 0 ∧ ∀ e ∈ entries, e.index ≠ code % 256) := by
    rcases hcase with ⟨k, e, hk, he, hrk, hlt⟩ | h
    · have : r = k := by omega
      subst this
      exact Or.inl ⟨e, hk, he, hlt⟩
    · exact Or.inr h
  refine ⟨r, hr, hcase', fun hne => ?_⟩
  have hlt : r < entries.length := by
    rcases hcase' with ⟨e, hk, _⟩ | ⟨h0, _⟩
    · by_contra hge
      rw [List.get?_eq_none.2 (by omega)] at hk
      cases hk
    · rw [h0]
      exact List.length_pos.2 hne
  refine ⟨hlt, ?_⟩
  have hget : (entries ++ s :: rest).get? r = some (entries.get ⟨r, hlt⟩) := by
    rw [List.get?_eq_getElem?, List.getElem?_append_left hlt, List.getElem?_eq_getElem hlt]
    rfl
  have hname := hn _ (List.get_mem entries r hlt)
  obtain ⟨name, hname⟩ := Option.ne_none_iff_exists'.1 hname
  refine ⟨name, ?_⟩
  unfold namelist_name_get_index
  change (namelist_pos_scan (code % 256) (entries ++ s :: rest) 0).bind _ = _
  rw [hr, Res.bind_ok, arr_get_of_get? hget, Res.bind_ok, hname]

set_option maxRecDepth 100000 in
/-- C15 at the type list and the code `0x16` of Grass, its entry 7. -/
theorem namelist_pos_get_first_witness :
    ∃ r, namelist_pos_get type_list 0x16 = Res.ok r ∧ r < 15 := by
  obtain ⟨_, r, hr, _, h⟩ := namelist_pos_get_first (type_list.take 15) []
    (NamedList.mk none 0 0) rfl (by decide) 0x16
  exact ⟨r, hr, (h (by decide)).1⟩

set_option maxRecDepth 1000000 in
/-- C14: the move list has 166 entries and the type list 15 before the
sentinel, and at every position `p` below that count the code read by
`namelist_index_get` is found by `namelist_pos_get` at position `p`. -/
theorem namelist_pos_index_inverse :
    (namelist_cnt move_list = Res.ok 166 ∧
      ∀ p < 166, (namelist_index_get move_list p).bind (namelist_pos_get move_list)
        = Res.ok p) ∧
    (namelist_cnt type_list = Res.ok 15 ∧
      ∀ p < 15, (namelist_index_get type_list p).bind (namelist_pos_get type_list)
        = Res.ok p) := by
  decide

/-! ### Presets of the derived-stat selector -/

theorem Res.bind_ok_self {α : Type} (r : Res α) : (r.bind fun a => Res.ok a) = r := by
  cases r <;> rfl

theorem recalculate_evivs (encode : Encoder) (set : Setter) (rnd : ℕ) (pdata : PokemonData) :
    pokemon_recalculate encode set rnd pdata RECALC_EVIVS
      = (pokemon_stat_ev_calc set pdata pdata.stat_sel).bind fun pdata5 =>
          pokemon_stat_iv_calc set rnd pdata5 pdata5.stat_sel := by
  simp +decide [pokemon_recalculate, Res.bind_ok_self]

/-- The record the effort and individual value group leaves. -/
theorem evivs_ok (encode : Encoder) (fuel rnd : ℕ) {pdata : PokemonData}
    (hgen : pdata.gen = GEN_I) :
    pokemon_recalculate encode (pokemon_stat_set encode (fuel + 1) rnd) rnd pdata RECALC_EVIVS
      = Res.ok { pdata with trade_block := { pdata.trade_block with
          party0 := { pdata.trade_block.party0 with
            atk_ev := bswap16 (stat_ev_switch pdata.stat_sel pdata.trade_block.party0.level),
            def_ev := bswap16 (stat_ev_switch pdata.stat_sel pdata.trade_block.party0.level),
            spd_ev := bswap16 (stat_ev_switch pdata.stat_sel pdata.trade_block.party0.level),
            spc_ev := bswap16 (stat_ev_switch pdata.stat_sel pdata.trade_block.party0.level),
            hp_ev := bswap16 (stat_ev_switch pdata.stat_sel pdata.trade_block.party0.level),
            iv := stat_iv_switch rnd pdata.stat_sel } } } := by
  rw [recalculate_evivs]
  simp [hgen, ev_calc_ok encode fuel rnd, iv_calc_ok encode fuel rnd,
    Nat.mod_eq_of_lt (stat_ev_switch_lt _ _), Nat.mod_eq_of_lt (stat_iv_switch_lt _ _)]

/-- The record a write to the selector leaves. -/
theorem set_sel_ok (encode : Encoder) (fuel rnd : ℕ) {p : ℕ} {row : PokemonTable}
    (hrow : pokemon_table.get? p = some row) (hname : row.name ≠ none) {pdata : PokemonData}
    (hgen : pdata.gen = GEN_I) (hidx : pdata.trade_block.party0.index = row.index)
    (which v : ℕ) (hv : v < 65536) :
    pokemon_stat_set encode (fuel + 2) rnd pdata STAT_SEL which v
      = Res.ok { pdata with
          stat_sel := v
          trade_block := { pdata.trade_block with
          party0 := { pdata.trade_block.party0 with
            atk_ev := bswap16 (stat_ev_switch v pdata.trade_block.party0.level),
            def_ev := bswap16 (stat_ev_switch v pdata.trade_block.party0.level),
            spd_ev := bswap16 (stat_ev_switch v pdata.trade_block.party0.level),
            spc_ev := bswap16 (stat_ev_switch v pdata.trade_block.party0.level),
            hp_ev := bswap16 (stat_ev_switch v pdata.trade_block.party0.level),
            iv := stat_iv_switch rnd v,
            atk := bswap16 (stat_calc row.base_hp
              ((stat_iv_switch rnd v >>> 12) &&& 0x0F)
              (stat_ev_switch v pdata.trade_block.party0.level)
              (pdata.trade_block.party0.level % 256) STAT_ATK),
            def_ := bswap16 (stat_calc row.base_def
              ((stat_iv_switch rnd v >>> 8) &&& 0x0F)
              (stat_ev_switch v pdata.trade_block.party0.level)
              (pdata.trade_block.party0.level % 256) STAT_DEF),
            spd := bswap16 (stat_calc row.base_spd
              ((stat_iv_switch rnd v >>> 4) &&& 0x0F)
              (stat_ev_switch v pdata.trade_block.party0.level)
              (pdata.trade_block.party0.level % 256) STAT_SPD),
            spc := bswap16 (stat_calc row.base_spc
              (stat_iv_switch rnd v &&& 0x0F)
              (stat_ev_switch v pdata.trade_block.party0.level)
              (pdata.trade_block.party0.level % 256) STAT_SPC),
            hp := bswap16 (stat_calc row.base_hp
              ((stat_iv_switch rnd v &&& 0xAA) >>> 4)
              (stat_ev_switch v pdata.trade_block.party0.level)
              (pdata.trade_block.party0.level % 256) STAT_HP),
            max_hp := bswap16 (stat_calc row.base_hp
              ((stat_iv_switch rnd v &&& 0xAA) >>> 4)
              (stat_ev_switch v pdata.trade_block.party0.level)
              (pdata.trade_block.party0.level % 256) STAT_HP) } } } := by
  obtain ⟨_, _, ⟨hb1, _, hb3, hb4, hb5⟩, _⟩ := species_row hrow hname
  have hv1 : v % 65536 = v := by omega
  rw [show fuel + 2 = (fuel + 1) + 1 from rfl, set_sel_unfold, recalculate_sel]
  simp [-Res.loop_cons, hgen, PokemonData.party, PokemonData.set_party, hv1, hidx,
    ev_calc_ok encode fuel rnd, iv_calc_ok encode fuel rnd,
    stats_loop_ok encode fuel rnd hrow hname,
    Nat.mod_eq_of_lt (stat_ev_switch_lt _ _), Nat.mod_eq_of_lt (stat_iv_switch_lt _ _),
    Nat.mod_eq_of_lt (stat_calc_lt _ _ _ _ _), Nat.mod_eq_of_lt (bswap16_lt _),
    bswap16_bswap16 _ (stat_ev_switch_lt _ _), nibble_mod, hp_nibble_mod,
    Nat.mod_eq_of_lt hb1, Nat.mod_eq_of_lt hb3, Nat.mod_eq_of_lt hb4, Nat.mod_eq_of_lt hb5]

theorem sample_row_name :
    (PokemonTable.mk (some "Bulbasaur") 0x99 0x2D 0x31 0x31 0x2D 0x41
      [0x16, 0x03] [0x21, 0x2D, 0x00, 0x00] GROWTH_MEDIUM_SLOW).name ≠ none := by
  decide

/-- C17: on a Gen I record holding Bulbasaur (species code `0x99`, storage
position 0, base hp 45) with the preset max IV / zero EV selected, a write of
level 2 returns a record in which the five effort values read 0 and hit points
read 14, which is the stat formula at base 45, IV 15, EV 0 and level 2. -/
theorem bulbasaur_level_two (encode : Encoder) (fuel rnd : ℕ) {pdata : PokemonData}
    (hgen : pdata.gen = GEN_I) (hidx : pdata.party.index = 0x99)
    (hsel : pdata.stat_sel = MAXIV_ZEROEV) (which : ℕ) :
    ∃ pd, pokemon_stat_set encode (fuel + 2) rnd pdata STAT_LEVEL which 2 = Res.ok pd ∧
      pokemon_stat_get pd STAT_NUM NONE = Res.ok (0, pd) ∧
      table_stat_base_get pokemon_table pd STAT_BASE_HP NONE = Res.ok (45, pd) ∧
      (∀ s ∈ [STAT_ATK_EV, STAT_DEF_EV, STAT_SPD_EV, STAT_SPC_EV, STAT_HP_EV],
        pokemon_stat_get pd s NONE = Res.ok (0, pd)) ∧
      pokemon_stat_get pd STAT_HP NONE = Res.ok (14, pd) ∧
      stat_calc 45 15 0 2 STAT_HP = 14 := by
  obtain ⟨c, hc⟩ := exp_switch_ok sample_row sample_row_name ((2 : ℕ) : ℤ)
  have hidx' : pdata.trade_block.party0.index = 0x99 := hidx
  have hset := set_level_ok encode fuel rnd sample_row sample_row_name hgen hidx' which 2
    (by decide) hc
  have h15 : stat_calc 45 15 0 2 STAT_HP = 14 := by
    rw [stat_calc_eq _ _ _ _ _ (by decide) (by decide) (by decide) (by decide), Nat.sqrt_zero]
    decide
  have h10 : stat_calc 45 10 0 2 STAT_HP = 14 := by
    rw [stat_calc_eq _ _ _ _ _ (by decide) (by decide) (by decide) (by decide), Nat.sqrt_zero]
    decide
  have hiv : stat_iv_switch rnd pdata.stat_sel = 0xFFFF := by
    rw [hsel]; exact stat_iv_switch_maxiv rnd
  have hev : stat_ev_switch pdata.stat_sel 2 = 0 := by
    rw [hsel]; exact stat_ev_switch_zeroev 2
  have hn : ((0xFFFF : ℕ) &&& 0xAA) >>> 4 = 10 := by decide
  have hb0 : bswap16 (bswap16 0) = 0 := bswap16_bswap16 0 (by decide)
  have hb14 : bswap16 (bswap16 14) = 14 := bswap16_bswap16 14 (by decide)
  rw [hiv, hev, hn, h10] at hset
  refine ⟨_, hset, ?_, ?_, ?_, ?_, h15⟩
  · refine get_num_ok sample_row sample_row_name ?_ ?_ NONE
    · exact hgen
    · exact hidx'
  · refine base_get_ok sample_row sample_row_name ?_ ?_ STAT_BASE_HP NONE
    · exact hgen
    · exact hidx'
  · intro s hs
    simp only [List.mem_cons, List.mem_singleton, List.not_mem_nil, or_false] at hs
    rcases hs with rfl | rfl | rfl | rfl | rfl <;>
      simp [pokemon_stat_get, hgen, PokemonData.party, hb0]
  · simp [pokemon_stat_get, hgen, PokemonData.party, hb14]

/-- C17 at the sample record. -/
theorem bulbasaur_level_two_witness :
    ∃ pd, pokemon_stat_set sample_encode 2 0 sample_record STAT_LEVEL NONE 2 = Res.ok pd ∧
      pokemon_stat_get pd STAT_HP_EV NONE = Res.ok (0, pd) ∧
      pokemon_stat_get pd STAT_HP NONE = Res.ok (14, pd) := by
  obtain ⟨pd, h1, _, _, h2, h3, _⟩ := bulbasaur_level_two sample_encode 0 0
    (rfl : sample_record.gen = GEN_I) rfl rfl NONE
  exact ⟨pd, h1, h2 STAT_HP_EV (by decide), h3⟩

/-- What the individual-value accessor returns from the IV word `0xFFFF`. -/
theorem max_iv_accessors {pdata : PokemonData} (hgen : pdata.gen = GEN_I)
    (h : pdata.party.iv = 0xFFFF) :
    pokemon_stat_iv_get pdata STAT_ATK = Res.ok (15, pdata) ∧
      pokemon_stat_iv_get pdata STAT_DEF = Res.ok (15, pdata) ∧
      pokemon_stat_iv_get pdata STAT_SPD = Res.ok (15, pdata) ∧
      pokemon_stat_iv_get pdata STAT_SPC = Res.ok (15, pdata) ∧
      pokemon_stat_iv_get pdata STAT_HP = Res.ok (10, pdata) := by
  have hhp : (0xFFFF : ℕ) &&& 0xAA = 0xAA := by decide
  refine ⟨?_, ?_, ?_, ?_, ?_⟩ <;>
    simp [pokemon_stat_iv_get, pokemon_stat_get, hgen, h, and_15, hhp]

theorem stat_iv_switch_max (rnd : ℕ) {v : ℕ}
    (hv : v = MAXIV_ZEROEV ∨ v = MAXIV_LEVELEV ∨ v = MAXIV_MAXEV) :
    stat_iv_switch rnd v = 0xFFFF := by
  rcases hv with h | h | h <;> (rw [h]; simp +decide [stat_iv_switch])

/-- What the individual-value accessor returns once a max-IV preset is written
to the selector. -/
theorem max_iv_reads (encode : Encoder) (fuel rnd : ℕ) {p : ℕ} {row : PokemonTable}
    (hrow : pokemon_table.get? p = some row) (hname : row.name ≠ none) {pdata : PokemonData}
    (hgen : pdata.gen = GEN_I) (hidx : pdata.trade_block.party0.index = row.index)
    (which v : ℕ) (hv : v = MAXIV_ZEROEV ∨ v = MAXIV_LEVELEV ∨ v = MAXIV_MAXEV) :
    ∃ pd, pokemon_stat_set encode (fuel + 2) rnd pdata STAT_SEL which v = Res.ok pd ∧
      pd.party.iv = 0xFFFF ∧
      pokemon_stat_iv_get pd STAT_ATK = Res.ok (15, pd) ∧
      pokemon_stat_iv_get pd STAT_DEF = Res.ok (15, pd) ∧
      pokemon_stat_iv_get pd STAT_SPD = Res.ok (15, pd) ∧
      pokemon_stat_iv_get pd STAT_SPC = Res.ok (15, pd) ∧
      pokemon_stat_iv_get pd STAT_HP = Res.ok (10, pd) := by
  have hv1 : v < 65536 := by rcases hv with h | h | h <;> (rw [h]; norm_num)
  have hset := set_sel_ok encode fuel rnd hrow hname hgen hidx which v hv1
  rw [stat_iv_switch_max rnd hv] at hset
  exact ⟨_, hset, rfl, max_iv_accessors hgen rfl⟩

/-- C18, the code at the failing input: on the sample record, for each of the
three max-IV presets, a write of the preset to the selector returns a record
whose IV word is `0xFFFF`; the accessor reads 15 for attack, defense, speed and
special, and 10 for hit points. -/
theorem hp_iv_reads_ten (encode : Encoder) (fuel rnd : ℕ) :
    let reads := fun (v : ℕ) =>
      ∃ pd, pokemon_stat_set encode (fuel + 2) rnd sample_record STAT_SEL NONE v = Res.ok pd ∧
        pd.party.iv = 0xFFFF ∧
        pokemon_stat_iv_get pd STAT_ATK = Res.ok (15, pd) ∧
        pokemon_stat_iv_get pd STAT_DEF = Res.ok (15, pd) ∧
        pokemon_stat_iv_get pd STAT_SPD = Res.ok (15, pd) ∧
        pokemon_stat_iv_get pd STAT_SPC = Res.ok (15, pd) ∧
        pokemon_stat_iv_get pd STAT_HP = Res.ok (10, pd)
    reads MAXIV_ZEROEV ∧ reads MAXIV_LEVELEV ∧ reads MAXIV_MAXEV := by
  intro reads
  have hg : sample_record.gen = GEN_I := rfl
  exact ⟨max_iv_reads encode fuel rnd sample_row sample_row_name hg rfl NONE _ (Or.inl rfl),
    max_iv_reads encode fuel rnd sample_row sample_row_name hg rfl NONE _ (Or.inr (Or.inl rfl)),
    max_iv_reads encode fuel rnd sample_row sample_row_name hg rfl NONE _ (Or.inr (Or.inr rfl))⟩

/-- C19: on a Gen I record at level `L`, the effort and individual value
recalculation returns a record whose five effort values read one value `ev`:
0 under the two zero-EV presets, 65535 under the two max-EV presets, and
`65535 / 100 * L = 655 * L` reduced modulo `2 ^ 16` under the two level-scaled
presets, which is `655 * L` itself for `L` up to 100. -/
theorem ev_by_preset (encode : Encoder) (fuel rnd : ℕ) {pdata : PokemonData}
    (hgen : pdata.gen = GEN_I) (L : ℕ) (hL : pdata.party.level = L) :
    ∃ pd ev,
      pokemon_recalculate encode (pokemon_stat_set encode (fuel + 1) rnd) rnd pdata RECALC_EVIVS
        = Res.ok pd ∧
      (∀ s ∈ [STAT_ATK_EV, STAT_DEF_EV, STAT_SPD_EV, STAT_SPC_EV, STAT_HP_EV],
        pokemon_stat_get pd s NONE = Res.ok (ev, pd)) ∧
      (pdata.stat_sel = RANDIV_ZEROEV ∨ pdata.stat_sel = MAXIV_ZEROEV → ev = 0) ∧
      (pdata.stat_sel = RANDIV_MAXEV ∨ pdata.stat_sel = MAXIV_MAXEV → ev = 65535) ∧
      (pdata.stat_sel = RANDIV_LEVELEV ∨ pdata.stat_sel = MAXIV_LEVELEV →
        ev = 65535 / 100 * L % 2 ^ 16 ∧ ev = 655 * L % 2 ^ 16 ∧ (L ≤ 100 → ev = 655 * L)) := by
  have hL' : pdata.trade_block.party0.level = L := hL
  have hset := evivs_ok encode fuel rnd hgen
  rw [hL'] at hset
  have hb := bswap16_bswap16 _ (stat_ev_switch_lt pdata.stat_sel L)
  refine ⟨_, stat_ev_switch pdata.stat_sel L, hset, ?_, ?_, ?_, ?_⟩
  · intro s hs
    simp only [List.mem_cons, List.mem_singleton, List.not_mem_nil, or_false] at hs
    rcases hs with rfl | rfl | rfl | rfl | rfl <;>
      simp [pokemon_stat_get, hgen, PokemonData.party, hb]
  · rintro (h | h) <;> (rw [h]; simp +decide [stat_ev_switch])
  · rintro (h | h) <;> (rw [h]; simp +decide [stat_ev_switch])
  · intro h
    have hev : stat_ev_switch pdata.stat_sel L = 655 * L % 65536 := by
      rcases h with h | h <;> (rw [h]; simp +decide [stat_ev_switch])
    refine ⟨by rw [hev]; rfl, by rw [hev]; rfl, fun h100 => ?_⟩
    rw [hev]
    omega

/-- C19 at the sample record, level 10 and the preset max IV / zero EV. -/
theorem ev_by_preset_witness :
    ∃ pd, pokemon_recalculate sample_encode (pokemon_stat_set sample_encode 1 0) 0 sample_record
        RECALC_EVIVS = Res.ok pd ∧
      pokemon_stat_get pd STAT_HP_EV NONE = Res.ok (0, pd) := by
  obtain ⟨pd, ev, h1, h2, h3, _⟩ := ev_by_preset sample_encode 0 0
    (rfl : sample_record.gen = GEN_I) 10 rfl
  have h0 : ev = 0 := h3 (Or.inr rfl)
  rw [h0] at h2
  exact ⟨pd, h1, h2 STAT_HP_EV (by decide)⟩

/-- C20: on a Gen I record, whatever its level and species, the effort and
individual value recalculation returns a record whose IV word is `0xFFFF`
under each of the three max-IV presets, and the 16-bit value of the number
drawn under each of the three random-IV presets. -/
theorem iv_by_preset (encode : Encoder) (fuel rnd : ℕ) {pdata : PokemonData}
    (hgen : pdata.gen = GEN_I) :
    ∃ pd,
      pokemon_recalculate encode (pokemon_stat_set encode (fuel + 1) rnd) rnd pdata RECALC_EVIVS
        = Res.ok pd ∧
      (pdata.stat_sel = MAXIV_ZEROEV ∨ pdata.stat_sel = MAXIV_LEVELEV ∨
        pdata.stat_sel = MAXIV_MAXEV → pd.party.iv = 0xFFFF) ∧
      (pdata.stat_sel = RANDIV_ZEROEV ∨ pdata.stat_sel = RANDIV_LEVELEV ∨
        pdata.stat_sel = RANDIV_MAXEV → pd.party.iv = rnd % 2 ^ 16) := by
  refine ⟨_, evivs_ok encode fuel rnd hgen, ?_, ?_⟩
  · intro h
    show stat_iv_switch rnd pdata.stat_sel = 0xFFFF
    rcases h with h | h | h <;> (rw [h]; simp +decide [stat_iv_switch])
  · intro h
    show stat_iv_switch rnd pdata.stat_sel = rnd % 2 ^ 16
    rcases h with h | h | h <;> (rw [h]; simp +decide [stat_iv_switch])

/-- C20 at the sample record, whose preset is max IV / zero EV. -/
theorem iv_by_preset_witness :
    ∃ pd, pokemon_recalculate sample_encode (pokemon_stat_set sample_encode 1 7) 7 sample_record
        RECALC_EVIVS = Res.ok pd ∧ pd.party.iv = 0xFFFF := by
  obtain ⟨pd, h1, h2, _⟩ := iv_by_preset sample_encode 0 7 (rfl : sample_record.gen = GEN_I)
  exact ⟨pd, h1, h2 (Or.inl rfl)⟩

/-! ### Recursion budget -/

theorem ok_ne_fuel {α : Type} (a : α) : Res.ok a ≠ Res.fault Fault.fuel := by
  intro h; cases h

theorem crash_ne_fuel {α : Type} : (Res.fault Fault.crash : Res α) ≠ Res.fault Fault.fuel := by
  intro h; cases h

theorem undefined_ne_fuel {α : Type} :
    (Res.fault Fault.undefined : Res α) ≠ Res.fault Fault.fuel := by
  intro h; cases h

theorem bind_ne_fuel {α β : Type} {r : Res α} {f : α → Res β}
    (hr : r ≠ Res.fault Fault.fuel) (hf : ∀ a, f a ≠ Res.fault Fault.fuel) :
    r.bind f ≠ Res.fault Fault.fuel := by
  cases r with
  | ok a => exact hf a
  | fault e =>
    rw [Res.bind_fault]
    intro h
    exact hr (congrArg Res.fault (Res.fault.inj h))

theorem ite_ne_fuel {α : Type} {c : Prop} [Decidable c] {x y : Res α}
    (hx : x ≠ Res.fault Fault.fuel) (hy : y ≠ Res.fault Fault.fuel) :
    (if c then x else y) ≠ Res.fault Fault.fuel := by
  split_ifs <;> assumption

theorem loop_ne_fuel {α β : Type} {f : β → α → Res β}
    (hf : ∀ b a, f b a ≠ Res.fault Fault.fuel) (b : β) (l : List α) :
    Res.loop f b l ≠ Res.fault Fault.fuel := by
  induction l generalizing b with
  | nil => exact ok_ne_fuel b
  | cons a as ih => exact bind_ne_fuel (hf b a) (fun b1 => ih b1)

theorem loop_mem_ne_fuel {α β : Type} {f : β → α → Res β} (l : List α)
    (hf : ∀ b, ∀ a ∈ l, f b a ≠ Res.fault Fault.fuel) (b : β) :
    Res.loop f b l ≠ Res.fault Fault.fuel := by
  induction l generalizing b with
  | nil => exact ok_ne_fuel b
  | cons a as ih =>
    exact bind_ne_fuel (hf b a (List.mem_cons_self a as))
      (fun b1 => ih (fun b x hx => hf b x (List.mem_cons_of_mem a hx)) b1)

theorem arr_get_ne_fuel {α : Type} (xs : List α) (i : ℕ) :
    arr_get xs i ≠ Res.fault Fault.fuel := by
  unfold arr_get
  split
  · exact ok_ne_fuel _
  · exact undefined_ne_fuel

theorem pos_scan_ne_fuel (index : ℕ) (rows : List PokemonTable) (i : ℕ) :
    table_pokemon_pos_scan index rows i ≠ Res.fault Fault.fuel := by
  induction rows generalizing i with
  | nil => exact undefined_ne_fuel
  | cons row rows ih =>
    unfold table_pokemon_pos_scan
    exact ite_ne_fuel (ok_ne_fuel _) (ite_ne_fuel (ok_ne_fuel _) (ih _))

theorem member_ne_fuel (p : PokemonPartyGenI) (which v : ℕ) :
    p.move_get which ≠ Res.fault Fault.fuel ∧ p.type_get which ≠ Res.fault Fault.fuel ∧
      p.move_set which v ≠ Res.fault Fault.fuel ∧ p.type_set which v ≠ Res.fault Fault.fuel ∧
      p.exp_set which v ≠ Res.fault Fault.fuel := by
  refine ⟨?_, ?_, ?_, ?_, ?_⟩
  · unfold PokemonPartyGenI.move_get
    split <;> first | exact ok_ne_fuel _ | exact undefined_ne_fuel
  · unfold PokemonPartyGenI.type_get
    split <;> first | exact ok_ne_fuel _ | exact undefined_ne_fuel
  · unfold PokemonPartyGenI.move_set
    split <;> first | exact ok_ne_fuel _ | exact undefined_ne_fuel
  · unfold PokemonPartyGenI.type_set
    split <;> first | exact ok_ne_fuel _ | exact undefined_ne_fuel
  · unfold PokemonPartyGenI.exp_set
    split <;> first | exact ok_ne_fuel _ | exact undefined_ne_fuel

theorem stat_get_ne_fuel (pdata : PokemonData) (stat : DataStat) (which : ℕ) :
    pokemon_stat_get pdata stat which ≠ Res.fault Fault.fuel := by
  have hm := member_ne_fuel pdata.party which 0
  cases stat <;> simp only [pokemon_stat_get] <;>
    first
    | exact ok_ne_fuel _
    | exact crash_ne_fuel
    | exact ite_ne_fuel (ok_ne_fuel _) (ok_ne_fuel _)
    | exact bind_ne_fuel (pos_scan_ne_fuel _ _ _) (fun _ => ok_ne_fuel _)
    | exact ite_ne_fuel (bind_ne_fuel hm.1 (fun _ => ok_ne_fuel _)) (ok_ne_fuel _)
    | exact ite_ne_fuel (bind_ne_fuel hm.2.1 (fun _ => ok_ne_fuel _)) (ok_ne_fuel _)

theorem base_get_ne_fuel (pdata : PokemonData) (stat : BaseStat) (num : ℕ) :
    table_stat_base_get pokemon_table pdata stat num ≠ Res.fault Fault.fuel := by
  unfold table_stat_base_get
  refine bind_ne_fuel (stat_get_ne_fuel _ _ _) (fun n => bind_ne_fuel (arr_get_ne_fuel _ _) ?_)
  intro row
  cases stat <;> simp only [] <;>
    first
    | exact ok_ne_fuel _
    | exact bind_ne_fuel (arr_get_ne_fuel _ _) (fun _ => ok_ne_fuel _)

theorem nickname_ne_fuel (encode : Encoder) (pdata : PokemonData) :
    pokemon_default_nickname_set encode pdata ≠ Res.fault Fault.fuel := by
  unfold pokemon_default_nickname_set
  refine bind_ne_fuel (stat_get_ne_fuel _ _ _) (fun n => bind_ne_fuel ?_ ?_)
  · unfold table_stat_name_get
    exact bind_ne_fuel (arr_get_ne_fuel _ _) (fun _ => ok_ne_fuel _)
  · intro name
    cases name with
    | none => exact undefined_ne_fuel
    | some s => exact bind_ne_fuel (ok_ne_fuel _) (fun _ => ok_ne_fuel _)

theorem ev_iv_get_ne_fuel (pdata : PokemonData) (stat : DataStat) :
    pokemon_stat_ev_get pdata stat ≠ Res.fault Fault.fuel ∧
      pokemon_stat_iv_get pdata stat ≠ Res.fault Fault.fuel := by
  constructor
  · unfold pokemon_stat_ev_get
    split <;> first | exact stat_get_ne_fuel _ _ _ | exact crash_ne_fuel
  · unfold pokemon_stat_iv_get
    refine bind_ne_fuel ?_ (fun _ => ok_ne_fuel _)
    split <;> first | exact stat_get_ne_fuel _ _ _ | exact crash_ne_fuel

theorem exp_switch_ne_fuel (growth : ℕ) (level : ℤ) :
    exp_switch growth level ≠ Res.fault Fault.fuel := by
  unfold exp_switch
  exact ite_ne_fuel (ok_ne_fuel _) (ite_ne_fuel (ok_ne_fuel _) (ite_ne_fuel (ok_ne_fuel _)
    (ite_ne_fuel (ok_ne_fuel _) crash_ne_fuel)))

theorem base_some_derived {stat : DataStat} {b : BaseStat} (h : stat.base = some b) :
    stat ∉ [STAT_LEVEL, STAT_INDEX, STAT_SEL, STAT_NUM] := by
  cases stat <;> simp [DataStat.base] at h ⊢

/-- A recalculation never runs out of budget when the setter it is given never
does on an identifier other than level, species index, selector and species
position. -/
theorem recalculate_ne_fuel (encode : Encoder) {set : Setter}
    (hset : ∀ pd stat which val, stat ∉ [STAT_LEVEL, STAT_INDEX, STAT_SEL, STAT_NUM] →
      set pd stat which val ≠ Res.fault Fault.fuel)
    (rnd : ℕ) (pdata : PokemonData) (recalc : ℕ) :
    pokemon_recalculate encode set rnd pdata recalc ≠ Res.fault Fault.fuel := by
  unfold pokemon_recalculate
  refine ite_ne_fuel (ok_ne_fuel _) (bind_ne_fuel ?_ (fun pdata1 => bind_ne_fuel ?_
    (fun pdata2 => bind_ne_fuel ?_ (fun pdata3 => bind_ne_fuel ?_ (fun pdata4 =>
      bind_ne_fuel ?_ (fun pdata6 => ?_))))))
  · exact ite_ne_fuel (bind_ne_fuel (nickname_ne_fuel _ _) (fun _ => ok_ne_fuel _)) (ok_ne_fuel _)
  · exact ite_ne_fuel (loop_ne_fuel (fun _ _ => bind_ne_fuel (base_get_ne_fuel _ _ _)
      (fun _ => hset _ _ _ _ (by decide))) _ _) (ok_ne_fuel _)
  · exact ite_ne_fuel (loop_ne_fuel (fun _ _ => bind_ne_fuel (base_get_ne_fuel _ _ _)
      (fun _ => hset _ _ _ _ (by decide))) _ _) (ok_ne_fuel _)
  · refine ite_ne_fuel ?_ (ok_ne_fuel _)
    unfold pokemon_exp_calc
    refine bind_ne_fuel (base_get_ne_fuel _ _ _) (fun _ => bind_ne_fuel (stat_get_ne_fuel _ _ _)
      (fun _ => bind_ne_fuel (exp_switch_ne_fuel _ _) (fun _ => ?_)))
    unfold pokemon_exp_set
    exact loop_ne_fuel (fun _ _ => bind_ne_fuel (arr_get_ne_fuel _ _)
      (fun _ => hset _ _ _ _ (by decide))) _ _
  · refine ite_ne_fuel (bind_ne_fuel ?_ (fun _ => hset _ _ _ _ (by decide))) (ok_ne_fuel _)
    unfold pokemon_stat_ev_calc
    refine bind_ne_fuel (stat_get_ne_fuel _ _ _) (fun _ => loop_mem_ne_fuel _ (fun _ a ha => ?_) _)
    refine hset _ _ _ _ ?_
    revert a
    decide
  · refine ite_ne_fuel (loop_ne_fuel (fun pd i => ?_) _ _) (ok_ne_fuel _)
    unfold pokemon_stat_calc
    refine bind_ne_fuel (stat_get_ne_fuel _ _ _) (fun _ => ?_)
    cases hb : i.base with
    | none => exact crash_ne_fuel
    | some b =>
      exact bind_ne_fuel (base_get_ne_fuel _ _ _) (fun _ =>
        bind_ne_fuel (ev_iv_get_ne_fuel _ _).1 (fun _ =>
          bind_ne_fuel (ev_iv_get_ne_fuel _ _).2 (fun _ => hset _ _ _ _ (base_some_derived hb))))

/-- A write of an identifier other than level, species index, selector and
species position issues no nested write: every budget from 1 on gives what
budget 1 gives, and that is no exhausted budget. -/
theorem set_derived (encode : Encoder) (fuel rnd : ℕ) (pdata : PokemonData) {stat : DataStat}
    (hs : stat ∉ [STAT_LEVEL, STAT_INDEX, STAT_SEL, STAT_NUM]) (which val : ℕ) :
    pokemon_stat_set encode (fuel + 1) rnd pdata stat which val
        = pokemon_stat_set encode 1 rnd pdata stat which val ∧
      pokemon_stat_set encode 1 rnd pdata stat which val ≠ Res.fault Fault.fuel := by
  have hm := member_ne_fuel pdata.party which (val % 65536 % 256)
  by_cases hg : pdata.gen = GEN_I
  · cases stat with
    | STAT_MOVE =>
      cases h : pdata.party.move_set which (val % 65536 % 256) with
      | ok p => simp [pokemon_stat_set, hg, h]
      | fault e =>
        exact ⟨by simp [pokemon_stat_set, hg, h],
          by simpa [pokemon_stat_set, hg, h] using hm.2.2.1⟩
    | STAT_TYPE =>
      cases h : pdata.party.type_set which (val % 65536 % 256) with
      | ok p => simp [pokemon_stat_set, hg, h]
      | fault e =>
        exact ⟨by simp [pokemon_stat_set, hg, h],
          by simpa [pokemon_stat_set, hg, h] using hm.2.2.2.1⟩
    | STAT_EXP =>
      cases h : pdata.party.exp_set which (val % 65536 % 256) with
      | ok p => simp [pokemon_stat_set, hg, h]
      | fault e =>
        exact ⟨by simp [pokemon_stat_set, hg, h],
          by simpa [pokemon_stat_set, hg, h] using hm.2.2.2.2⟩
    | _ =>
      first
      | exact absurd (by decide) hs
      | simp [pokemon_stat_set, hg]
  · cases stat with
    | _ =>
      first
      | exact absurd (by decide) hs
      | simp [pokemon_stat_set, hg]

/-- A recalculation issues writes of moves, types, experience bytes, effort
values, the IV word and final stats only: two setters that agree on the
identifiers other than level, species index, selector and species position
give the same recalculation. -/
theorem recalculate_congr (encode : Encoder) {set1 set2 : Setter}
    (h : ∀ pd stat which val, stat ∉ [STAT_LEVEL, STAT_INDEX, STAT_SEL, STAT_NUM] →
      set1 pd stat which val = set2 pd stat which val)
    (rnd : ℕ) (pdata : PokemonData) (recalc : ℕ) :
    pokemon_recalculate encode set1 rnd pdata recalc
      = pokemon_recalculate encode set2 rnd pdata recalc := by
  have h1 : ∀ pd w v, set1 pd STAT_MOVE w v = set2 pd STAT_MOVE w v :=
    fun pd w v => h pd _ w v (by decide)
  have h2 : ∀ pd w v, set1 pd STAT_TYPE w v = set2 pd STAT_TYPE w v :=
    fun pd w v => h pd _ w v (by decide)
  have h3 : ∀ pd w v, set1 pd STAT_EXP w v = set2 pd STAT_EXP w v :=
    fun pd w v => h pd _ w v (by decide)
  have h4 : ∀ pd w v, set1 pd STAT_ATK_EV w v = set2 pd STAT_ATK_EV w v :=
    fun pd w v => h pd _ w v (by decide)
  have h5 : ∀ pd w v, set1 pd STAT_DEF_EV w v = set2 pd STAT_DEF_EV w v :=
    fun pd w v => h pd _ w v (by decide)
  have h6 : ∀ pd w v, set1 pd STAT_SPD_EV w v = set2 pd STAT_SPD_EV w v :=
    fun pd w v => h pd _ w v (by decide)
  have h7 : ∀ pd w v, set1 pd STAT_SPC_EV w v = set2 pd STAT_SPC_EV w v :=
    fun pd w v => h pd _ w v (by decide)
  have h8 : ∀ pd w v, set1 pd STAT_HP_EV w v = set2 pd STAT_HP_EV w v :=
    fun pd w v => h pd _ w v (by decide)
  have h9 : ∀ pd w v, set1 pd STAT_IV w v = set2 pd STAT_IV w v :=
    fun pd w v => h pd _ w v (by decide)
  have h10 : ∀ pd w v, set1 pd STAT_ATK w v = set2 pd STAT_ATK w v :=
    fun pd w v => h pd _ w v (by decide)
  have h11 : ∀ pd w v, set1 pd STAT_DEF w v = set2 pd STAT_DEF w v :=
    fun pd w v => h pd _ w v (by decide)
  have h12 : ∀ pd w v, set1 pd STAT_SPD w v = set2 pd STAT_SPD w v :=
    fun pd w v => h pd _ w v (by decide)
  have h13 : ∀ pd w v, set1 pd STAT_SPC w v = set2 pd STAT_SPC w v :=
    fun pd w v => h pd _ w v (by decide)
  have h14 : ∀ pd w v, set1 pd STAT_HP w v = set2 pd STAT_HP w v :=
    fun pd w v => h pd _ w v (by decide)
  simp only [pokemon_recalculate, pokemon_exp_calc, pokemon_exp_set, pokemon_stat_ev_calc,
    pokemon_stat_iv_calc, pokemon_stat_calc, Res.loop_cons, Res.loop_nil, DataStat.base,
    h1, h2, h3, h4, h5, h6, h7, h8, h9, h10, h11, h12, h13, h14]

/-- A write of an identifier other than species position nests at most two
deep. -/
theorem set_budget_two (encode : Encoder) (fuel rnd : ℕ) (pdata : PokemonData)
    {stat : DataStat} (hs : stat ≠ STAT_NUM) (which val : ℕ) :
    pokemon_stat_set encode (fuel + 2) rnd pdata stat which val
        = pokemon_stat_set encode 2 rnd pdata stat which val ∧
      pokemon_stat_set encode 2 rnd pdata stat which val ≠ Res.fault Fault.fuel := by
  have hcongr := fun pd mask => recalculate_congr encode
    (fun pd s w v hd => (set_derived encode fuel rnd pd hd w v).1) rnd pd mask
  have hne := fun pd mask => recalculate_ne_fuel encode
    (fun pd s w v hd => (set_derived encode 0 rnd pd hd w v).2) rnd pd mask
  by_cases hd : stat ∈ [STAT_LEVEL, STAT_INDEX, STAT_SEL, STAT_NUM]
  · simp only [List.mem_cons, List.mem_singleton, List.not_mem_nil, or_false] at hd
    rcases hd with rfl | rfl | rfl | rfl
    · rw [show fuel + 2 = (fuel + 1) + 1 from rfl, set_level_unfold, hcongr,
        show 2 = 1 + 1 from rfl, set_level_unfold]
      exact ⟨rfl, hne _ _⟩
    · rw [show fuel + 2 = (fuel + 1) + 1 from rfl, set_index_unfold, hcongr,
        show 2 = 1 + 1 from rfl, set_index_unfold]
      exact ⟨rfl, hne _ _⟩
    · rw [show fuel + 2 = (fuel + 1) + 1 from rfl, set_sel_unfold, hcongr,
        show 2 = 1 + 1 from rfl, set_sel_unfold]
      exact ⟨rfl, hne _ _⟩
    · exact absurd rfl hs
  · have h1 := set_derived encode (fuel + 1) rnd pdata hd which val
    have h2 := set_derived encode 1 rnd pdata hd which val
    exact ⟨h1.1.trans h2.1.symm, by rw [h2.1]; exact h2.2⟩

theorem set_zero (encode : Encoder) (rnd : ℕ) (pdata : PokemonData) (stat : DataStat)
    (which val : ℕ) :
    pokemon_stat_set encode 0 rnd pdata stat which val = Res.fault Fault.fuel := by
  rfl

/-- The three nested calls are reached: on the sample record a write of storage
position 0 exhausts a budget of two, a write of a species code or of a level a
budget of one. -/
theorem set_budget_exhausted (encode : Encoder) (rnd : ℕ) :
    pokemon_stat_set encode 2 rnd sample_record STAT_NUM NONE 0 = Res.fault Fault.fuel ∧
      pokemon_stat_set encode 1 rnd sample_record STAT_INDEX NONE 0x99 = Res.fault Fault.fuel ∧
      pokemon_stat_set encode 1 rnd sample_record STAT_LEVEL NONE 2 = Res.fault Fault.fuel := by
  have hg : sample_record.gen = GEN_I := rfl
  have hidx : pokemon_stat_set encode 1 rnd sample_record STAT_INDEX NONE 0x99
      = Res.fault Fault.fuel := by
    rw [show 1 = 0 + 1 from rfl, set_index_unfold, recalculate_all, if_pos hg]
    simp [hg, PokemonData.party, nickname_ok encode sample_row rfl,
      base_get_ok sample_row sample_row_name, arr_get, set_zero]
  refine ⟨?_, hidx, ?_⟩
  · rw [show 2 = 1 + 1 from rfl, set_num_unfold, arr_get_of_get? sample_row, Res.bind_ok]
    exact hidx
  · rw [show 1 = 0 + 1 from rfl, set_level_unfold, recalculate_level, if_pos hg]
    simp +decide [hg, PokemonData.party, PokemonData.set_party, pokemon_exp_calc,
      base_get_ok sample_row sample_row_name, get_level_ok, exp_switch, pokemon_exp_set, arr_get,
      set_zero]

/-- C16: whatever the record, identifier, sub-index and value, a write given a
budget of more than three nested calls returns what it returns with a budget
of three, which is never an exhausted budget; a recalculation whose writes
get a budget of one never exhausts it; and each write the recalculation issues
(`d` a move, type, experience byte, effort value, the IV word or a final stat)
returns with a budget of one what it returns with any larger one. -/
theorem set_nesting_three (encode : Encoder) (fuel rnd : ℕ) (pdata : PokemonData)
    (stat : DataStat) (which val recalc : ℕ) (d : DataStat)
    (hd : d ∈ [STAT_MOVE, STAT_TYPE, STAT_EXP, STAT_ATK_EV, STAT_DEF_EV, STAT_SPD_EV,
      STAT_SPC_EV, STAT_HP_EV, STAT_IV, STAT_ATK, STAT_DEF, STAT_SPD, STAT_SPC, STAT_HP]) :
    (pokemon_stat_set encode (fuel + 3) rnd pdata stat which val
        = pokemon_stat_set encode 3 rnd pdata stat which val ∧
      pokemon_stat_set encode 3 rnd pdata stat which val ≠ Res.fault Fault.fuel) ∧
    pokemon_recalculate encode (pokemon_stat_set encode 1 rnd) rnd pdata recalc
      ≠ Res.fault Fault.fuel ∧
    (pokemon_stat_set encode (fuel + 1) rnd pdata d which val
        = pokemon_stat_set encode 1 rnd pdata d which val ∧
      pokemon_stat_set encode 1 rnd pdata d which val ≠ Res.fault Fault.fuel) := by
  have hd' : d ∉ [STAT_LEVEL, STAT_INDEX, STAT_SEL, STAT_NUM] := by
    revert d
    decide
  refine ⟨?_, recalculate_ne_fuel encode
    (fun pd s w v hs => (set_derived encode 0 rnd pd hs w v).2) rnd pdata recalc,
    set_derived encode fuel rnd pdata hd' which val⟩
  by_cases hs : stat = STAT_NUM
  · subst hs
    rw [show fuel + 3 = (fuel + 2) + 1 from rfl, set_num_unfold,
      show 3 = 2 + 1 from rfl, set_num_unfold]
    have h2 := fun row : PokemonTable =>
      set_budget_two encode fuel rnd pdata (by decide : STAT_INDEX ≠ STAT_NUM) NONE row.index
    refine ⟨?_, bind_ne_fuel (arr_get_ne_fuel _ _) (fun row => (h2 row).2)⟩
    congr 1
    funext row
    exact (h2 row).1
  · have h1 := set_budget_two encode (fuel + 1) rnd pdata hs which val
    have h2 := set_budget_two encode 1 rnd pdata hs which val
    exact ⟨h1.1.trans h2.1.symm, by rw [h2.1]; exact h2.2⟩

/-- C16 at the sample record: a write of storage position 0 with budget 4 is
the write with budget 3. -/
theorem set_nesting_three_witness :
    pokemon_stat_set sample_encode 4 0 sample_record STAT_NUM NONE 0
      = pokemon_stat_set sample_encode 3 0 sample_record STAT_NUM NONE 0 :=
  (set_nesting_three sample_encode 1 0 sample_record STAT_NUM NONE 0 RECALC_ALL STAT_MOVE
    (by decide)).1.1

/-! ### Packed fields -/

theorem shift_nibble (w k : ℕ) : (w >>> k) &&& 15 = w / 2 ^ k % 16 := by
  rw [show (15 : ℕ) = 0x0F from rfl, and_15, Nat.shiftRight_eq_div_pow]

/-- C21: on a Gen I record, a write of a 16-bit word `w` to the IV word stores
`w`, and the accessor then returns `(w >> 12) & 15` for attack, `(w >> 8) & 15`
for defense, `(w >> 4) & 15` for speed and `w & 15` for special; these four
nibbles give `w` back as `4096 * atk + 256 * def + 16 * spd + spc`. -/
theorem iv_nibbles (encode : Encoder) (fuel rnd : ℕ) {pdata : PokemonData}
    (hgen : pdata.gen = GEN_I) (which w : ℕ) (hw : w < 65536) :
    ∃ pd, pokemon_stat_set encode (fuel + 1) rnd pdata STAT_IV which w = Res.ok pd ∧
      pd.party.iv = w ∧
      pokemon_stat_iv_get pd STAT_ATK = Res.ok ((w >>> 12) &&& 15, pd) ∧
      pokemon_stat_iv_get pd STAT_DEF = Res.ok ((w >>> 8) &&& 15, pd) ∧
      pokemon_stat_iv_get pd STAT_SPD = Res.ok ((w >>> 4) &&& 15, pd) ∧
      pokemon_stat_iv_get pd STAT_SPC = Res.ok (w &&& 15, pd) ∧
      w = 4096 * ((w >>> 12) &&& 15) + 256 * ((w >>> 8) &&& 15) + 16 * ((w >>> 4) &&& 15)
        + (w &&& 15) := by
  have hset : pokemon_stat_set encode (fuel + 1) rnd pdata STAT_IV which w
      = Res.ok (pdata.set_party { pdata.party with iv := w }) := by
    simp [pokemon_stat_set, hgen, Nat.mod_eq_of_lt hw]
  have h0 : w &&& 15 = w % 16 := and_15 w
  refine ⟨_, hset, rfl, ?_, ?_, ?_, ?_, ?_⟩
  · simp [pokemon_stat_iv_get, pokemon_stat_get, hgen, PokemonData.party, PokemonData.set_party,
      nibble_mod]
  · simp [pokemon_stat_iv_get, pokemon_stat_get, hgen, PokemonData.party, PokemonData.set_party,
      nibble_mod]
  · simp [pokemon_stat_iv_get, pokemon_stat_get, hgen, PokemonData.party, PokemonData.set_party,
      nibble_mod]
  · simp [pokemon_stat_iv_get, pokemon_stat_get, hgen, PokemonData.party, PokemonData.set_party,
      nibble_mod]
  · rw [shift_nibble, shift_nibble, shift_nibble, h0]
    norm_num
    omega

/-- C21 at the sample record and the word `0x1234`. -/
theorem iv_nibbles_witness :
    ∃ pd, pokemon_stat_set sample_encode 1 0 sample_record STAT_IV NONE 0x1234 = Res.ok pd ∧
      pokemon_stat_iv_get pd STAT_ATK = Res.ok (1, pd) ∧
      pokemon_stat_iv_get pd STAT_DEF = Res.ok (2, pd) ∧
      pokemon_stat_iv_get pd STAT_SPD = Res.ok (3, pd) ∧
      pokemon_stat_iv_get pd STAT_SPC = Res.ok (4, pd) := by
  obtain ⟨pd, h, _, h1, h2, h3, h4, _⟩ := iv_nibbles sample_encode 0 0
    (rfl : sample_record.gen = GEN_I) NONE 0x1234 (by decide)
  exact ⟨pd, h, h1, h2, h3, h4⟩

/-- C22: on a Gen I record `pokemon_exp_set` of any value `e` returns a record
whose experience bytes are `(e >> 16) & 0xFF`, `(e >> 8) & 0xFF` and `e & 0xFF`;
read as one big-endian number they are `e` modulo `2 ^ 24`, and `e` itself when
`e` is below `2 ^ 24`. -/
theorem exp_bytes (encode : Encoder) (fuel rnd : ℕ) {pdata : PokemonData}
    (hgen : pdata.gen = GEN_I) (e : ℕ) :
    ∃ pd, pokemon_exp_set (pokemon_stat_set encode (fuel + 1) rnd) pdata e = Res.ok pd ∧
      pd.party.exp0 = (e >>> 16) &&& 0xFF ∧ pd.party.exp1 = (e >>> 8) &&& 0xFF ∧
      pd.party.exp2 = e &&& 0xFF ∧
      pd.party.exp = e % 2 ^ 24 ∧ (e < 2 ^ 24 → pd.party.exp = e) := by
  have h16 : (e >>> 16) &&& 0xFF = e / 65536 % 256 := by
    rw [and_255, Nat.shiftRight_eq_div_pow]
  have h8 : (e >>> 8) &&& 0xFF = e / 256 % 256 := by
    rw [and_255, Nat.shiftRight_eq_div_pow]
  have hexp : e / 65536 % 256 * 65536 + e / 256 % 256 * 256 + e % 256 = e % 2 ^ 24 := by
    norm_num
    omega
  refine ⟨_, exp_set_ok encode fuel rnd hgen e, h16.symm, h8.symm, (and_255 e).symm, hexp, ?_⟩
  intro h24
  exact hexp.trans (Nat.mod_eq_of_lt h24)

/-- C22 at the sample record and the value 560. -/
theorem exp_bytes_witness :
    ∃ pd, pokemon_exp_set (pokemon_stat_set sample_encode 1 0) sample_record 560 = Res.ok pd ∧
      pd.party.exp = 560 := by
  obtain ⟨pd, h, _, _, _, _, h2⟩ := exp_bytes sample_encode 0 0
    (rfl : sample_record.gen = GEN_I) 560
  exact ⟨pd, h, h2 (by norm_num)⟩

/-- A write to level keeps the low byte of the value only. -/
theorem set_level_mod (encode : Encoder) (fuel rnd : ℕ) (pdata : PokemonData) (which v : ℕ) :
    pokemon_stat_set encode (fuel + 1) rnd pdata STAT_LEVEL which v
      = pokemon_stat_set encode (fuel + 1) rnd pdata STAT_LEVEL which (v % 256) := by
  rw [set_level_unfold, set_level_unfold,
    show v % 256 % 65536 % 256 = v % 65536 % 256 from by omega]

/-- C23: on a Gen I record of a catalog species, a write of `v` to level is the
recalculation of the record in which level and the redundant level are both
`v mod 256`, and it returns a record in which both still hold `v mod 256`. -/
theorem level_fields_in_sync (encode : Encoder) (fuel rnd : ℕ) {p : ℕ} {row : PokemonTable}
    (hrow : pokemon_table.get? p = some row) (hname : row.name ≠ none) {pdata : PokemonData}
    (hgen : pdata.gen = GEN_I) (hidx : pdata.party.index = row.index) (which v : ℕ) :
    ∃ pd, pokemon_stat_set encode (fuel + 2) rnd pdata STAT_LEVEL which v
        = pokemon_recalculate encode (pokemon_stat_set encode (fuel + 1) rnd) rnd
            (pdata.set_party { pdata.party with level := v % 256, level_again := v % 256 })
            (RECALC_STATS ||| RECALC_EXP ||| RECALC_EVIVS) ∧
      pokemon_stat_set encode (fuel + 2) rnd pdata STAT_LEVEL which v = Res.ok pd ∧
      pd.party.level = v % 256 ∧ pd.party.level_again = v % 256 := by
  obtain ⟨c, hc⟩ := exp_switch_ok hrow hname ((v % 256 : ℕ) : ℤ)
  have hset := set_level_ok encode fuel rnd hrow hname hgen hidx which (v % 256)
    (Nat.mod_lt _ (by norm_num)) hc
  rw [← set_level_mod] at hset
  refine ⟨_, ?_, hset, rfl, rfl⟩
  rw [show fuel + 2 = (fuel + 1) + 1 from rfl, set_level_unfold, if_pos hgen,
    show v % 65536 % 256 = v % 256 from by omega]

/-- C23 at the sample record and the value `0x0164`, whose low byte is 100. -/
theorem level_fields_in_sync_witness :
    ∃ pd, pokemon_stat_set sample_encode 2 0 sample_record STAT_LEVEL NONE 0x0164 = Res.ok pd ∧
      pd.party.level = 100 ∧ pd.party.level_again = 100 := by
  obtain ⟨pd, _, h, h1, h2⟩ := level_fields_in_sync sample_encode 0 0 sample_row sample_row_name
    (rfl : sample_record.gen = GEN_I) rfl NONE 0x0164
  exact ⟨pd, h, h1, h2⟩

/-! ### Names, failing calls, bulk copy -/

theorem cleared_get (i : ℕ) (hi : i < LEN_NAME_BUF) :
    (List.replicate LEN_NAME_BUF TERM_).get? i = some TERM_ := by
  rw [List.get?_eq_getElem?, List.getElem?_replicate, if_pos hi]

/-- C24: for each of the three name buffers, `pokemon_name_set` of a name
returns, on any two records, records whose buffer is what the codec makes of
the buffer filled with `TERM_`, the name and the length of the field (10 for
the nickname, 7 for the two trainer names): the same buffer on both records,
and `TERM_` at every position below `LEN_NAME_BUF` that the codec leaves as it
finds it. -/
theorem name_set_clears (encode : Encoder) (pd1 pd2 : PokemonData) (name : List ℕ) :
    let cleared := List.replicate LEN_NAME_BUF TERM_
    (∃ r1 r2, pokemon_name_set encode pd1 STAT_NICKNAME name = Res.ok r1 ∧
      pokemon_name_set encode pd2 STAT_NICKNAME name = Res.ok r2 ∧
      r1.trade_block.nickname0 = encode cleared name 10 ∧
      r2.trade_block.nickname0 = r1.trade_block.nickname0 ∧
      ∀ i < LEN_NAME_BUF, (encode cleared name 10).get? i = cleared.get? i →
        r1.trade_block.nickname0.get? i = some TERM_) ∧
    (∃ r1 r2, pokemon_name_set encode pd1 STAT_OT_NAME name = Res.ok r1 ∧
      pokemon_name_set encode pd2 STAT_OT_NAME name = Res.ok r2 ∧
      r1.trade_block.ot_name0 = encode cleared name 7 ∧
      r2.trade_block.ot_name0 = r1.trade_block.ot_name0 ∧
      ∀ i < LEN_NAME_BUF, (encode cleared name 7).get? i = cleared.get? i →
        r1.trade_block.ot_name0.get? i = some TERM_) ∧
    (∃ r1 r2, pokemon_name_set encode pd1 STAT_TRAINER_NAME name = Res.ok r1 ∧
      pokemon_name_set encode pd2 STAT_TRAINER_NAME name = Res.ok r2 ∧
      r1.trade_block.trainer_name = encode cleared name 7 ∧
      r2.trade_block.trainer_name = r1.trade_block.trainer_name ∧
      ∀ i < LEN_NAME_BUF, (encode cleared name 7).get? i = cleared.get? i →
        r1.trade_block.trainer_name.get? i = some TERM_) := by
  intro cleared
  refine ⟨⟨_, _, rfl, rfl, rfl, rfl, ?_⟩, ⟨_, _, rfl, rfl, rfl, rfl, ?_⟩,
    ⟨_, _, rfl, rfl, rfl, rfl, ?_⟩⟩ <;>
  · intro i hi h
    exact h.trans (cleared_get i hi)

/-- C24 with a codec that copies the characters: the nickname `XYZ` set on a
record whose nickname buffer holds the nine characters `ABCDEFGHI` leaves
`XYZ` followed by eight `TERM_`. -/
theorem name_set_clears_witness :
    ∃ r, pokemon_name_set copy_encode
        { sample_record with trade_block := { sample_record.trade_block with
            nickname0 := [65, 66, 67, 68, 69, 70, 71, 72, 73, TERM_, TERM_] } }
        STAT_NICKNAME [88, 89, 90, 0] = Res.ok r ∧
      r.trade_block.nickname0
        = [88, 89, 90, TERM_, TERM_, TERM_, TERM_, TERM_, TERM_, TERM_, TERM_] := by
  obtain ⟨⟨r1, _, h1, _, h3, _⟩, _⟩ := name_set_clears copy_encode
    { sample_record with trade_block := { sample_record.trade_block with
        nickname0 := [65, 66, 67, 68, 69, 70, 71, 72, 73, TERM_, TERM_] } }
    sample_record [88, 89, 90, 0]
  exact ⟨r1, h1, h3.trans (by decide)⟩

/-- C26: whatever the record, sub-index, value and name, a read of the
experience identifier or of one of the three name identifiers, a write of one
of the three name identifiers, and `pokemon_name_set` of an identifier that is
none of the three names end in the call of `furi_crash`, the default case of
their switch, which comes before every store and before the recalculation. -/
theorem unrecognized_rejected (encode : Encoder) (fuel rnd : ℕ) (pdata : PokemonData)
    (which val : ℕ) (name : List ℕ) :
    (∀ s ∈ [STAT_EXP, STAT_NICKNAME, STAT_OT_NAME, STAT_TRAINER_NAME],
      pokemon_stat_get pdata s which = Res.fault Fault.crash) ∧
    (∀ s ∈ [STAT_NICKNAME, STAT_OT_NAME, STAT_TRAINER_NAME],
      pokemon_stat_set encode (fuel + 1) rnd pdata s which val = Res.fault Fault.crash) ∧
    (∀ s, s ∉ [STAT_NICKNAME, STAT_OT_NAME, STAT_TRAINER_NAME] →
      pokemon_name_set encode pdata s name = Res.fault Fault.crash) := by
  refine ⟨?_, ?_, ?_⟩
  · intro s hs
    simp only [List.mem_cons, List.mem_singleton, List.not_mem_nil, or_false] at hs
    rcases hs with rfl | rfl | rfl | rfl <;> rfl
  · intro s hs
    simp only [List.mem_cons, List.mem_singleton, List.not_mem_nil, or_false] at hs
    rcases hs with rfl | rfl | rfl <;> rfl
  · intro s hs
    cases s with
    | STAT_NICKNAME => exact absurd (by decide) hs
    | STAT_OT_NAME => exact absurd (by decide) hs
    | STAT_TRAINER_NAME => exact absurd (by decide) hs
    | _ => rfl

theorem get?_of_lt {α : Type} (xs : List α) {i : ℕ} (h : i < xs.length) :
    ∃ x, xs.get? i = some x :=
  ⟨xs.get ⟨i, h⟩, List.get?_eq_get h⟩

/-- C27: for a received trade block with its seven markers and six members,
nicknames and original-trainer names, and an index `which` below 6,
`pokemon_stat_memcpy` returns the destination with marker 0, member 0,
nickname 0 and original-trainer name 0 replaced by the received block's
elements at `which`, and nothing else changed. -/
theorem memcpy_frame (dst : PokemonData) (traded : TradeBlockGenI) (which : ℕ)
    (hw : which < 6) (hm : traded.party_members_rest.length = 6)
    (hp : traded.party_rest.length = 5) (hn : traded.nickname_rest.length = 5)
    (ho : traded.ot_name_rest.length = 5) :
    ∃ marker member nick ot,
      traded.party_members.get? which = some marker ∧ traded.party.get? which = some member ∧
      traded.nickname.get? which = some nick ∧ traded.ot_name.get? which = some ot ∧
      pokemon_stat_memcpy dst traded which
        = Res.ok { dst with
            trade_block := { dst.trade_block with
              party_members0 := marker
              party0 := member
              nickname0 := nick
              ot_name0 := ot } } := by
  obtain ⟨marker, h1⟩ := get?_of_lt traded.party_members
    (show which < (traded.party_members0 :: traded.party_members_rest).length by
      rw [List.length_cons, hm]; omega)
  obtain ⟨member, h2⟩ := get?_of_lt traded.party
    (show which < (traded.party0 :: traded.party_rest).length by
      rw [List.length_cons, hp]; omega)
  obtain ⟨nick, h3⟩ := get?_of_lt traded.nickname
    (show which < (traded.nickname0 :: traded.nickname_rest).length by
      rw [List.length_cons, hn]; omega)
  obtain ⟨ot, h4⟩ := get?_of_lt traded.ot_name
    (show which < (traded.ot_name0 :: traded.ot_name_rest).length by
      rw [List.length_cons, ho]; omega)
  refine ⟨marker, member, nick, ot, h1, h2, h3, h4, ?_⟩
  have hw' : which % 256 = which := by omega
  simp only [pokemon_stat_memcpy, hw', arr_get_of_get? h1, arr_get_of_get? h2,
    arr_get_of_get? h3, arr_get_of_get? h4, Res.bind_ok]

/-- C27 at the sample record as destination and, as received block, the sample
block with a second member of species code `0x15` marked `0x15`, copied from
index 1. -/
theorem memcpy_frame_witness :
    ∃ pd, pokemon_stat_memcpy sample_record
        { sample_record.trade_block with
          party_members_rest := [0x15, 0xFF, 0xFF, 0xFF, 0xFF, 0xFF]
          party_rest := [{ zero_member with index := 0x15, level := 7 }, zero_member, zero_member,
            zero_member, zero_member] } 1 = Res.ok pd ∧
      pd.trade_block.party_members0 = 0x15 ∧ pd.party.index = 0x15 ∧ pd.party.level = 7 ∧
      pd.trade_block.party_members_rest = sample_record.trade_block.party_members_rest := by
  obtain ⟨marker, member, nick, ot, h1, h2, _, _, h⟩ := memcpy_frame sample_record
    { sample_record.trade_block with
      party_members_rest := [0x15, 0xFF, 0xFF, 0xFF, 0xFF, 0xFF]
      party_rest := [{ zero_member with index := 0x15, level := 7 }, zero_member, zero_member,
        zero_member, zero_member] } 1 (by decide) rfl rfl rfl rfl
  have hm : marker = 0x15 := (Option.some.inj h1).symm
  have hp : member = { zero_member with index := 0x15, level := 7 } := (Option.some.inj h2).symm
  subst hm hp
  exact ⟨_, h, rfl, rfl, rfl, rfl⟩

/-! ### Allocation -/

theorem set_ot_id_ok (encode : Encoder) (fuel rnd : ℕ) {pdata : PokemonData}
    (hgen : pdata.gen = GEN_I) (which val : ℕ) :
    pokemon_stat_set encode (fuel + 1) rnd pdata STAT_OT_ID which val
      = Res.ok { pdata with trade_block := { pdata.trade_block with
          party0 := { pdata.trade_block.party0 with ot_id := bswap16 (val % 65536) } } } := by
  simp [pokemon_stat_set, hgen, PokemonData.party, PokemonData.set_party]

theorem set_condition_ok (encode : Encoder) (fuel rnd : ℕ) {pdata : PokemonData}
    (hgen : pdata.gen = GEN_I) (which val : ℕ) :
    pokemon_stat_set encode (fuel + 1) rnd pdata STAT_CONDITION which val
      = Res.ok { pdata with trade_block := { pdata.trade_block with
          party0 := { pdata.trade_block.party0 with
            status_condition := val % 65536 % 256 } } } := by
  simp [pokemon_stat_set, hgen, PokemonData.party, PokemonData.set_party]

theorem exp_medium_slow_zero : exp_switch GROWTH_MEDIUM_SLOW ((0 : ℕ) : ℤ) = Res.ok (-140) := by
  decide

theorem exp_medium_slow_two : exp_switch GROWTH_MEDIUM_SLOW ((2 : ℕ) : ℤ) = Res.ok 9 := by
  decide

/-- What the write of storage position 0 in `pokemon_data_alloc` leaves. -/
theorem alloc_step_num (encode : Encoder) (fuel rnd : ℕ) (pd3 : PokemonData)
    (hgen : pd3.gen = GEN_I) (hlv : pd3.trade_block.party0.level = 0) :
    ∃ pd4, pokemon_stat_set encode (fuel + 3) rnd pd3 STAT_NUM NONE 0 = Res.ok pd4 ∧
      pd4.gen = GEN_I ∧
      pd4.trade_block.party_cnt = pd3.trade_block.party_cnt ∧
      pd4.trade_block.trainer_name = pd3.trade_block.trainer_name ∧
      pd4.trade_block.ot_name0 = pd3.trade_block.ot_name0 ∧
      pd4.trade_block.party_members0 = 0x99 ∧
      pd4.trade_block.party_members_rest = pd3.trade_block.party_members_rest ∧
      pd4.trade_block.party0.index = 0x99 ∧
      pd4.trade_block.party0.status_condition = pd3.trade_block.party0.status_condition ∧
      pd4.trade_block.party0.ot_id = pd3.trade_block.party0.ot_id ∧
      [pd4.trade_block.party0.move0, pd4.trade_block.party0.move1, pd4.trade_block.party0.move2,
        pd4.trade_block.party0.move3] = [0x21, 0x2D, 0x00, 0x00] ∧
      [pd4.trade_block.party0.type0, pd4.trade_block.party0.type1] = [0x16, 0x03] := by
  have hc : exp_switch GROWTH_MEDIUM_SLOW (pd3.trade_block.party0.level : ℤ) = Res.ok (-140) := by
    rw [hlv]; exact exp_medium_slow_zero
  have h := @set_index_ok encode fuel rnd 0 _ sample_row "Bulbasaur" rfl 0x21 0x2D 0x00 0x00
    0x16 0x03 rfl rfl pd3 hgen NONE (-140) hc
  rw [← set_num_eq_index encode fuel rnd pd3 NONE sample_row sample_row_name] at h
  exact ⟨_, h, hgen, rfl, rfl, rfl, rfl, rfl, rfl, rfl, rfl, rfl, rfl⟩

/-- What the write of level 2 in `pokemon_data_alloc` leaves. -/
theorem alloc_step_level (encode : Encoder) (fuel rnd : ℕ) (pd4 : PokemonData)
    (hgen : pd4.gen = GEN_I) (hidx : pd4.trade_block.party0.index = 0x99) :
    ∃ pd5, pokemon_stat_set encode (fuel + 2) rnd pd4 STAT_LEVEL NONE 2 = Res.ok pd5 ∧
      pd5.gen = GEN_I ∧
      pd5.trade_block.party_cnt = pd4.trade_block.party_cnt ∧
      pd5.trade_block.trainer_name = pd4.trade_block.trainer_name ∧
      pd5.trade_block.ot_name0 = pd4.trade_block.ot_name0 ∧
      pd5.trade_block.party_members0 = pd4.trade_block.party_members0 ∧
      pd5.trade_block.party_members_rest = pd4.trade_block.party_members_rest ∧
      pd5.trade_block.party0.index = pd4.trade_block.party0.index ∧
      pd5.trade_block.party0.status_condition = pd4.trade_block.party0.status_condition ∧
      pd5.trade_block.party0.ot_id = pd4.trade_block.party0.ot_id ∧
      [pd5.trade_block.party0.move0, pd5.trade_block.party0.move1, pd5.trade_block.party0.move2,
        pd5.trade_block.party0.move3]
        = [pd4.trade_block.party0.move0, pd4.trade_block.party0.move1,
          pd4.trade_block.party0.move2, pd4.trade_block.party0.move3] ∧
      [pd5.trade_block.party0.type0, pd5.trade_block.party0.type1]
        = [pd4.trade_block.party0.type0, pd4.trade_block.party0.type1] ∧
      pd5.trade_block.party0.level = 2 ∧ pd5.trade_block.party0.level_again = 2 ∧
      [pd5.trade_block.party0.exp0, pd5.trade_block.party0.exp1, pd5.trade_block.party0.exp2]
        = [0, 0, 9] := by
  have h := set_level_ok encode fuel rnd sample_row sample_row_name hgen hidx NONE 2
    (by decide) exp_medium_slow_two
  have e9 : ((9 : ℤ) % 2 ^ 32).toNat = 9 := by decide
  rw [e9] at h
  exact ⟨_, h, hgen, rfl, rfl, rfl, rfl, rfl, rfl, rfl, rfl, rfl, rfl, rfl, rfl, rfl⟩

theorem name_set_trainer (encode : Encoder) (pdata : PokemonData) (name : List ℕ) :
    pokemon_name_set encode pdata STAT_TRAINER_NAME name
      = Res.ok { pdata with trade_block := { pdata.trade_block with
          trainer_name := encode (List.replicate LEN_NAME_BUF TERM_) name 7 } } := by
  rfl

theorem name_set_ot (encode : Encoder) (pdata : PokemonData) (name : List ℕ) :
    pokemon_name_set encode pdata STAT_OT_NAME name
      = Res.ok { pdata with trade_block := { pdata.trade_block with
          ot_name0 := encode (List.replicate LEN_NAME_BUF TERM_) name 7 } } := by
  rfl

theorem bind_eq_ok {α β : Type} {r : Res α} {f : α → Res β} {a : α} {b : β}
    (h1 : r = Res.ok a) (h2 : f a = Res.ok b) : r.bind f = Res.ok b := by
  rw [h1, Res.bind_ok, h2]

/-- The calls of `pokemon_data_alloc` after the three `memset`, from a Gen I
record at level 0. -/
theorem alloc_chain (encode : Encoder) (fuel rnd1 rnd2 : ℕ) (pd0 : PokemonData)
    (hgen : pd0.gen = GEN_I) (hlv : pd0.trade_block.party0.level = 0) :
    ∃ pd,
      ((pokemon_name_set encode pd0 STAT_TRAINER_NAME (cstr "Flipper" ++ [0])).bind fun pdata1 =>
        (pokemon_name_set encode pdata1 STAT_OT_NAME (cstr "Flipper" ++ [0])).bind fun pdata2 =>
        (pokemon_stat_set encode (fuel + 3) rnd1 pdata2 STAT_OT_ID NONE 42069).bind fun pdata3 =>
        (pokemon_stat_set encode (fuel + 3) rnd1 pdata3 STAT_NUM NONE 0).bind fun pdata4 =>
        (pokemon_stat_set encode (fuel + 3) rnd2 pdata4 STAT_LEVEL NONE 2).bind fun pdata5 =>
          pokemon_stat_set encode (fuel + 3) rnd2 pdata5 STAT_CONDITION NONE 0) = Res.ok pd ∧
      pd.gen = GEN_I ∧
      pd.trade_block.party_cnt = pd0.trade_block.party_cnt ∧
      pd.trade_block.trainer_name
        = encode (List.replicate LEN_NAME_BUF TERM_) (cstr "Flipper" ++ [0]) 7 ∧
      pd.trade_block.ot_name0
        = encode (List.replicate LEN_NAME_BUF TERM_) (cstr "Flipper" ++ [0]) 7 ∧
      pd.trade_block.party_members0 = 0x99 ∧
      pd.trade_block.party_members_rest = pd0.trade_block.party_members_rest ∧
      pd.trade_block.party0.index = 0x99 ∧
      pd.trade_block.party0.status_condition = 0 ∧
      pd.trade_block.party0.ot_id = bswap16 42069 ∧
      [pd.trade_block.party0.move0, pd.trade_block.party0.move1, pd.trade_block.party0.move2,
        pd.trade_block.party0.move3] = [0x21, 0x2D, 0x00, 0x00] ∧
      [pd.trade_block.party0.type0, pd.trade_block.party0.type1] = [0x16, 0x03] ∧
      pd.trade_block.party0.level = 2 ∧ pd.trade_block.party0.level_again = 2 ∧
      [pd.trade_block.party0.exp0, pd.trade_block.party0.exp1, pd.trade_block.party0.exp2]
        = [0, 0, 9] := by
  have e1 := name_set_trainer encode pd0 (cstr "Flipper" ++ [0])
  obtain ⟨pd1, h1, g1, c1, t1, r1, l1⟩ : ∃ pd1,
      pokemon_name_set encode pd0 STAT_TRAINER_NAME (cstr "Flipper" ++ [0]) = Res.ok pd1 ∧
      pd1.gen = pd0.gen ∧ pd1.trade_block.party_cnt = pd0.trade_block.party_cnt ∧
      pd1.trade_block.trainer_name
        = encode (List.replicate LEN_NAME_BUF TERM_) (cstr "Flipper" ++ [0]) 7 ∧
      pd1.trade_block.party_members_rest = pd0.trade_block.party_members_rest ∧
      pd1.trade_block.party0.level = pd0.trade_block.party0.level :=
    ⟨_, e1, rfl, rfl, rfl, rfl, rfl⟩
  have e2 := name_set_ot encode pd1 (cstr "Flipper" ++ [0])
  obtain ⟨pd2, h2, g2, c2, t2, o2, r2, l2⟩ : ∃ pd2,
      pokemon_name_set encode pd1 STAT_OT_NAME (cstr "Flipper" ++ [0]) = Res.ok pd2 ∧
      pd2.gen = pd1.gen ∧ pd2.trade_block.party_cnt = pd1.trade_block.party_cnt ∧
      pd2.trade_block.trainer_name = pd1.trade_block.trainer_name ∧
      pd2.trade_block.ot_name0
        = encode (List.replicate LEN_NAME_BUF TERM_) (cstr "Flipper" ++ [0]) 7 ∧
      pd2.trade_block.party_members_rest = pd1.trade_block.party_members_rest ∧
      pd2.trade_block.party0.level = pd1.trade_block.party0.level :=
    ⟨_, e2, rfl, rfl, rfl, rfl, rfl, rfl⟩
  have hg2 : pd2.gen = GEN_I := g2.trans (g1.trans hgen)
  have e3 := set_ot_id_ok encode (fuel + 2) rnd1 hg2 NONE 42069
  obtain ⟨pd3, h3, g3, c3, t3, o3, r3, l3, i3⟩ : ∃ pd3,
      pokemon_stat_set encode (fuel + 3) rnd1 pd2 STAT_OT_ID NONE 42069 = Res.ok pd3 ∧
      pd3.gen = pd2.gen ∧ pd3.trade_block.party_cnt = pd2.trade_block.party_cnt ∧
      pd3.trade_block.trainer_name = pd2.trade_block.trainer_name ∧
      pd3.trade_block.ot_name0 = pd2.trade_block.ot_name0 ∧
      pd3.trade_block.party_members_rest = pd2.trade_block.party_members_rest ∧
      pd3.trade_block.party0.level = pd2.trade_block.party0.level ∧
      pd3.trade_block.party0.ot_id = bswap16 42069 :=
    ⟨_, e3, rfl, rfl, rfl, rfl, rfl, rfl, rfl⟩
  have hg3 : pd3.gen = GEN_I := g3.trans hg2
  have hl3 : pd3.trade_block.party0.level = 0 := l3.trans (l2.trans (l1.trans hlv))
  obtain ⟨pd4, h4, g4, a1, a2, a3, a4, a5, a6, a7, a8, a9, a10⟩ :=
    alloc_step_num encode fuel rnd1 pd3 hg3 hl3
  obtain ⟨pd5, h5, g5, b1, b2, b3, b4, b5, b6, b7, b8, b9, b10, b11, b12, b13⟩ :=
    alloc_step_level encode (fuel + 1) rnd2 pd4 g4 a6
  have h6 := set_condition_ok encode (fuel + 2) rnd2 g5 NONE 0
  exact ⟨_, bind_eq_ok h1 (bind_eq_ok h2 (bind_eq_ok h3 (bind_eq_ok h4 (bind_eq_ok h5 h6)))),
    g5, b1.trans (a1.trans (c3.trans (c2.trans c1))),
    b2.trans (a2.trans (t3.trans (t2.trans t1))), b3.trans (a3.trans (o3.trans o2)),
    b4.trans a4, b5.trans (a5.trans (r3.trans (r2.trans r1))), b6.trans a6, rfl,
    b8.trans (a8.trans i3), b9.trans a9, b10.trans a10, b11, b12, b13⟩

/-- The record `pokemon_data_alloc` returns for Gen I, field by field. -/
theorem alloc_fields (encode : Encoder) (fuel sel rnd1 rnd2 : ℕ) :
    ∃ pd, pokemon_data_alloc encode (fuel + 3) sel rnd1 rnd2 GEN_I = Res.ok pd ∧
      pd.gen = GEN_I ∧
      pd.trade_block.party_cnt = 1 ∧
      pd.trade_block.trainer_name
        = encode (List.replicate LEN_NAME_BUF TERM_) (cstr "Flipper" ++ [0]) 7 ∧
      pd.trade_block.ot_name0
        = encode (List.replicate LEN_NAME_BUF TERM_) (cstr "Flipper" ++ [0]) 7 ∧
      pd.trade_block.party_members0 = 0x99 ∧
      pd.trade_block.party_members_rest = List.replicate 6 0xFF ∧
      pd.trade_block.party0.index = 0x99 ∧
      pd.trade_block.party0.status_condition = 0 ∧
      pd.trade_block.party0.ot_id = bswap16 42069 ∧
      [pd.trade_block.party0.move0, pd.trade_block.party0.move1, pd.trade_block.party0.move2,
        pd.trade_block.party0.move3] = [0x21, 0x2D, 0x00, 0x00] ∧
      [pd.trade_block.party0.type0, pd.trade_block.party0.type1] = [0x16, 0x03] ∧
      pd.trade_block.party0.level = 2 ∧ pd.trade_block.party0.level_again = 2 ∧
      [pd.trade_block.party0.exp0, pd.trade_block.party0.exp1, pd.trade_block.party0.exp2]
        = [0, 0, 9] :=
  alloc_chain encode fuel rnd1 rnd2
    { gen := GEN_I % 256
      stat_sel := sel
      trade_block :=
        { trainer_name := List.replicate LEN_NAME_BUF TERM_
          party_cnt := 1
          party_members0 := 0xFF
          party_members_rest := List.replicate 6 0xFF
          party0 := zero_member
          party_rest := List.replicate 5 term_member
          ot_name0 := List.replicate LEN_NAME_BUF TERM_
          ot_name_rest := List.replicate 5 (List.replicate LEN_NAME_BUF TERM_)
          nickname0 := List.replicate LEN_NAME_BUF TERM_
          nickname_rest := List.replicate 5 (List.replicate LEN_NAME_BUF TERM_) } }
    rfl rfl

/-! ### Markers -/

theorem bind_ok_inv {α β : Type} {r : Res α} {f : α → Res β} {b : β}
    (h : r.bind f = Res.ok b) : ∃ a, r = Res.ok a ∧ f a = Res.ok b := by
  cases r with
  | ok a => exact ⟨a, rfl, h⟩
  | fault e => cases h

theorem ite_ok_inv {α : Type} {c : Prop} [Decidable c] {x y : Res α} {b : α}
    (h : (if c then x else y) = Res.ok b) : x = Res.ok b ∨ y = Res.ok b := by
  split_ifs at h
  · exact Or.inl h
  · exact Or.inr h

theorem loop_markers {α : Type} {f : PokemonData → α → Res PokemonData}
    (hf : ∀ pd a pd1, f pd a = Res.ok pd1 → pd1.markers = pd.markers) (l : List α)
    (pd pd1 : PokemonData) (h : Res.loop f pd l = Res.ok pd1) : pd1.markers = pd.markers := by
  induction l generalizing pd with
  | nil => cases h; rfl
  | cons a as ih =>
    obtain ⟨b, h1, h2⟩ := bind_ok_inv h
    exact (ih b h2).trans (hf pd a b h1)

theorem loop_mem_markers {α : Type} {f : PokemonData → α → Res PokemonData} (l : List α)
    (hf : ∀ pd, ∀ a ∈ l, ∀ pd1, f pd a = Res.ok pd1 → pd1.markers = pd.markers)
    (pd pd1 : PokemonData) (h : Res.loop f pd l = Res.ok pd1) : pd1.markers = pd.markers := by
  induction l generalizing pd with
  | nil => cases h; rfl
  | cons a as ih =>
    obtain ⟨b, h1, h2⟩ := bind_ok_inv h
    exact (ih (fun pd x hx => hf pd x (List.mem_cons_of_mem a hx)) b h2).trans
      (hf pd a (List.mem_cons_self a as) b h1)

set_option maxRecDepth 10000 in
theorem stat_get_markers {pdata : PokemonData} {stat : DataStat} {which : ℕ}
    {x : ℕ × PokemonData} (h : pokemon_stat_get pdata stat which = Res.ok x) :
    x.2.markers = pdata.markers := by
  cases stat <;> simp only [pokemon_stat_get] at h <;>
    first
    | (cases h; rfl)
    | (rcases ite_ok_inv h with h | h <;>
        first
        | (cases h; rfl)
        | (obtain ⟨a, _, h2⟩ := bind_ok_inv h; cases h2; rfl))
    | (obtain ⟨a, _, h2⟩ := bind_ok_inv h; cases h2; rfl)
    | cases h

theorem base_get_markers {pdata : PokemonData} {stat : BaseStat} {num : ℕ}
    {x : ℕ × PokemonData} (h : table_stat_base_get pokemon_table pdata stat num = Res.ok x) :
    x.2.markers = pdata.markers := by
  unfold table_stat_base_get at h
  obtain ⟨n, h1, h2⟩ := bind_ok_inv h
  obtain ⟨row, _, h3⟩ := bind_ok_inv h2
  have hn := stat_get_markers h1
  cases stat <;> simp only [] at h3 <;>
    first
    | (cases h3; exact hn)
    | (obtain ⟨a, _, h4⟩ := bind_ok_inv h3; cases h4; exact hn)

theorem nickname_markers {encode : Encoder} {pdata : PokemonData} {x : List ℕ × PokemonData}
    (h : pokemon_default_nickname_set encode pdata = Res.ok x) :
    x.2.markers = pdata.markers := by
  unfold pokemon_default_nickname_set at h
  obtain ⟨n, h1, h2⟩ := bind_ok_inv h
  obtain ⟨name, _, h3⟩ := bind_ok_inv h2
  have hn := stat_get_markers h1
  cases name with
  | none => cases h3
  | some s =>
    obtain ⟨pd1, h4, h5⟩ := bind_ok_inv h3
    cases h5
    cases h4
    exact hn

theorem ev_iv_get_markers {pdata : PokemonData} {stat : DataStat} {x : ℕ × PokemonData} :
    (pokemon_stat_ev_get pdata stat = Res.ok x → x.2.markers = pdata.markers) ∧
      (pokemon_stat_iv_get pdata stat = Res.ok x → x.2.markers = pdata.markers) := by
  constructor
  · intro h
    cases stat <;> simp only [pokemon_stat_ev_get] at h <;>
      first | exact stat_get_markers h | cases h
  · intro h
    unfold pokemon_stat_iv_get at h
    obtain ⟨v, h1, h2⟩ := bind_ok_inv h
    have hx : x.2 = v.2 := by cases h2; rfl
    rw [hx]
    cases stat <;> first | exact stat_get_markers h1 | cases h1

/-- A write of an identifier other than level, species index, selector and
species position that returns keeps the tag, the markers and the species byte. -/
theorem set_derived_markers (encode : Encoder) (n rnd : ℕ) {pdata pd1 : PokemonData}
    {stat : DataStat} (hs : stat ∉ [STAT_LEVEL, STAT_INDEX, STAT_SEL, STAT_NUM]) {which val : ℕ}
    (h : pokemon_stat_set encode n rnd pdata stat which val = Res.ok pd1) :
    pd1.markers = pdata.markers := by
  cases n with
  | zero => cases h
  | succ fuel =>
    by_cases hg : pdata.gen = GEN_I
    · cases stat with
      | STAT_MOVE =>
        cases hm : pdata.party.move_set which (val % 65536 % 256) with
        | ok p =>
          simp [pokemon_stat_set, hg, hm] at h
          rw [← h]
          revert hm
          unfold PokemonPartyGenI.move_set
          split <;> intro hm <;> first | (cases hm; rfl) | cases hm
        | fault e => simp [pokemon_stat_set, hg, hm] at h
      | STAT_TYPE =>
        cases hm : pdata.party.type_set which (val % 65536 % 256) with
        | ok p =>
          simp [pokemon_stat_set, hg, hm] at h
          rw [← h]
          revert hm
          unfold PokemonPartyGenI.type_set
          split <;> intro hm <;> first | (cases hm; rfl) | cases hm
        | fault e => simp [pokemon_stat_set, hg, hm] at h
      | STAT_EXP =>
        cases hm : pdata.party.exp_set which (val % 65536 % 256) with
        | ok p =>
          simp [pokemon_stat_set, hg, hm] at h
          rw [← h]
          revert hm
          unfold PokemonPartyGenI.exp_set
          split <;> intro hm <;> first | (cases hm; rfl) | cases hm
        | fault e => simp [pokemon_stat_set, hg, hm] at h
      | _ =>
        first
        | exact absurd (by decide) hs
        | (simp [pokemon_stat_set, hg] at h; rw [← h]; rfl)
        | (simp [pokemon_stat_set, hg] at h; rw [← h])
        | simp [pokemon_stat_set, hg] at h
    · cases stat with
      | _ =>
        first
        | exact absurd (by decide) hs
        | (simp [pokemon_stat_set, hg] at h; rw [← h])
        | simp [pokemon_stat_set, hg] at h

/-- A recalculation that returns keeps the tag, the markers and the species
byte, when the writes it issues do. -/
theorem recalculate_markers (encode : Encoder) {set : Setter}
    (hset : ∀ pd stat which val pd1, stat ∉ [STAT_LEVEL, STAT_INDEX, STAT_SEL, STAT_NUM] →
      set pd stat which val = Res.ok pd1 → pd1.markers = pd.markers)
    (rnd : ℕ) {pdata pd1 : PokemonData} {recalc : ℕ}
    (h : pokemon_recalculate encode set rnd pdata recalc = Res.ok pd1) :
    pd1.markers = pdata.markers := by
  unfold pokemon_recalculate at h
  rcases ite_ok_inv h with h | h
  · cases h; rfl
  obtain ⟨p1, h1, h⟩ := bind_ok_inv h
  obtain ⟨p2, h2, h⟩ := bind_ok_inv h
  obtain ⟨p3, h3, h⟩ := bind_ok_inv h
  obtain ⟨p4, h4, h⟩ := bind_ok_inv h
  obtain ⟨p6, h6, h⟩ := bind_ok_inv h
  have m1 : p1.markers = pdata.markers := by
    rcases ite_ok_inv h1 with h1 | h1
    · obtain ⟨r, ha, hb⟩ := bind_ok_inv h1
      cases hb
      exact nickname_markers ha
    · cases h1; rfl
  have m2 : p2.markers = p1.markers := by
    rcases ite_ok_inv h2 with h2 | h2
    · refine loop_markers (fun pd i pd' hh => ?_) _ _ _ h2
      obtain ⟨m, ha, hb⟩ := bind_ok_inv hh
      exact (hset _ _ _ _ _ (by decide) hb).trans (base_get_markers ha)
    · cases h2; rfl
  have m3 : p3.markers = p2.markers := by
    rcases ite_ok_inv h3 with h3 | h3
    · refine loop_markers (fun pd i pd' hh => ?_) _ _ _ h3
      obtain ⟨m, ha, hb⟩ := bind_ok_inv hh
      exact (hset _ _ _ _ _ (by decide) hb).trans (base_get_markers ha)
    · cases h3; rfl
  have m4 : p4.markers = p3.markers := by
    rcases ite_ok_inv h4 with h4 | h4
    · unfold pokemon_exp_calc at h4
      obtain ⟨g, ha, h4⟩ := bind_ok_inv h4
      obtain ⟨lv, hb, h4⟩ := bind_ok_inv h4
      obtain ⟨e, _, h4⟩ := bind_ok_inv h4
      unfold pokemon_exp_set at h4
      refine ((loop_markers (fun pd i pd' hh => ?_) _ _ _ h4).trans (stat_get_markers hb)).trans
        (base_get_markers ha)
      obtain ⟨b, _, hc⟩ := bind_ok_inv hh
      exact hset _ _ _ _ _ (by decide) hc
    · cases h4; rfl
  have m6 : p6.markers = p4.markers := by
    rcases ite_ok_inv h6 with h6 | h6
    · obtain ⟨p5, ha, hb⟩ := bind_ok_inv h6
      unfold pokemon_stat_ev_calc at ha
      obtain ⟨lv, hc, ha⟩ := bind_ok_inv ha
      unfold pokemon_stat_iv_calc at hb
      refine ((hset _ _ _ _ _ (by decide) hb).trans
        (loop_mem_markers _ (fun pd a hmem pd' hh => ?_) _ _ ha)).trans (stat_get_markers hc)
      have hd : ∀ s ∈ [STAT_ATK_EV, STAT_DEF_EV, STAT_SPD_EV, STAT_SPC_EV, STAT_HP_EV],
          s ∉ [STAT_LEVEL, STAT_INDEX, STAT_SEL, STAT_NUM] := by
        decide
      exact hset _ _ _ _ _ (hd a hmem) hh
    · cases h6; rfl
  have m7 : pd1.markers = p6.markers := by
    rcases ite_ok_inv h with h | h
    · refine loop_markers (fun pd i pd' hh => ?_) _ _ _ h
      unfold pokemon_stat_calc at hh
      obtain ⟨lv, ha, hh⟩ := bind_ok_inv hh
      cases hb : i.base with
      | none => rw [hb] at hh; cases hh
      | some b =>
        rw [hb] at hh
        obtain ⟨sb, hc, hh⟩ := bind_ok_inv hh
        obtain ⟨se, hd, hh⟩ := bind_ok_inv hh
        obtain ⟨si, he, hh⟩ := bind_ok_inv hh
        exact ((((hset _ _ _ _ _ (base_some_derived hb) hh).trans
          (ev_iv_get_markers.2 he)).trans (ev_iv_get_markers.1 hd)).trans
            (base_get_markers hc)).trans (stat_get_markers ha)
    · cases h; rfl
  exact m7.trans (m6.trans (m4.trans (m3.trans (m2.trans (m1)))))

theorem markers_eq_iff (pd1 pd : PokemonData) :
    pd1.markers = pd.markers ↔
      pd1.gen = pd.gen ∧ pd1.trade_block.party_members0 = pd.trade_block.party_members0 ∧
        pd1.trade_block.party_members_rest = pd.trade_block.party_members_rest ∧
        pd1.trade_block.party0.index = pd.trade_block.party0.index := by
  simp [PokemonData.markers, Prod.ext_iff]

theorem arr_get_inv {α : Type} {xs : List α} {i : ℕ} {x : α} (h : arr_get xs i = Res.ok x) :
    xs.get? i = some x := by
  unfold arr_get at h
  split at h
  · cases h; assumption
  · cases h

theorem set_index_markers (encode : Encoder) (n rnd : ℕ) {pdata pd1 : PokemonData}
    {which val : ℕ} (h : pokemon_stat_set encode n rnd pdata STAT_INDEX which val = Res.ok pd1) :
    pd1.gen = pdata.gen ∧
      pd1.trade_block.party_members_rest = pdata.trade_block.party_members_rest ∧
      (pdata.gen = GEN_I →
        pd1.trade_block.party_members0 = val % 65536 % 256 ∧
          pd1.trade_block.party0.index = val % 65536 % 256) := by
  cases n with
  | zero => cases h
  | succ fuel =>
    rw [set_index_unfold] at h
    have hm := (markers_eq_iff _ _).1 (recalculate_markers encode
      (fun pd s w v pd' hs hh => set_derived_markers encode fuel rnd hs hh) rnd h)
    by_cases hg : pdata.gen = GEN_I
    · rw [if_pos hg] at hm
      exact ⟨hm.1, hm.2.2.1, fun _ => ⟨hm.2.1, hm.2.2.2⟩⟩
    · rw [if_neg hg] at hm
      exact ⟨hm.1, hm.2.2.1, fun hg' => absurd hg' hg⟩

/-- What a write that returns leaves of the tag, the markers and the species
byte: a write of species index to a Gen I record stores the low byte of the
value in marker 0 and in the species byte, a write of a species position does
so with the code of that row, and every other write keeps them; no write
changes the other markers or the tag. -/
theorem set_markers (encode : Encoder) (n rnd : ℕ) {pdata pd1 : PokemonData} {stat : DataStat}
    {which val : ℕ} (h : pokemon_stat_set encode n rnd pdata stat which val = Res.ok pd1) :
    pd1.gen = pdata.gen ∧
      pd1.trade_block.party_members_rest = pdata.trade_block.party_members_rest ∧
      (stat ≠ STAT_INDEX → stat ≠ STAT_NUM → pd1.markers = pdata.markers) ∧
      (stat = STAT_INDEX → pdata.gen = GEN_I →
        pd1.trade_block.party_members0 = val % 65536 % 256 ∧
          pd1.trade_block.party0.index = val % 65536 % 256) ∧
      (stat = STAT_NUM → pdata.gen = GEN_I →
        ∃ row, pokemon_table.get? (val % 65536) = some row ∧
          pd1.trade_block.party_members0 = row.index % 65536 % 256 ∧
          pd1.trade_block.party0.index = row.index % 65536 % 256) := by
  cases n with
  | zero => cases h
  | succ fuel =>
    have hrec := fun (pd pd' : PokemonData) (mask : ℕ)
        (hh : pokemon_recalculate encode (pokemon_stat_set encode fuel rnd) rnd pd mask
          = Res.ok pd') =>
      recalculate_markers encode
        (fun pd s w v pd' hs hh => set_derived_markers encode fuel rnd hs hh) rnd hh
    by_cases hd : stat ∈ [STAT_LEVEL, STAT_INDEX, STAT_SEL, STAT_NUM]
    · simp only [List.mem_cons, List.mem_singleton, List.not_mem_nil, or_false] at hd
      rcases hd with rfl | rfl | rfl | rfl
      · rw [set_level_unfold] at h
        have hm : pd1.markers = pdata.markers := by
          refine (hrec _ _ _ h).trans ?_
          split_ifs <;> rfl
        have hc := (markers_eq_iff _ _).1 hm
        exact ⟨hc.1, hc.2.2.1, fun _ _ => hm, fun hx => absurd hx (by decide),
          fun hx => absurd hx (by decide)⟩
      · have hi := set_index_markers encode (fuel + 1) rnd h
        exact ⟨hi.1, hi.2.1, fun hx => absurd rfl hx, fun _ hg => hi.2.2 hg,
          fun hx => absurd hx (by decide)⟩
      · rw [set_sel_unfold] at h
        have hm : pd1.markers = pdata.markers := by
          refine (hrec _ _ _ h).trans ?_
          split_ifs <;> rfl
        have hc := (markers_eq_iff _ _).1 hm
        exact ⟨hc.1, hc.2.2.1, fun _ _ => hm, fun hx => absurd hx (by decide),
          fun hx => absurd hx (by decide)⟩
      · rw [set_num_unfold] at h
        obtain ⟨row, hrow, hh⟩ := bind_ok_inv h
        have hi := set_index_markers encode fuel rnd hh
        exact ⟨hi.1, hi.2.1, fun _ hx => absurd rfl hx, fun hx => absurd hx (by decide),
          fun _ hg => ⟨row, arr_get_inv hrow, hi.2.2 hg⟩⟩
    · have hm := set_derived_markers encode (fuel + 1) rnd hd h
      have hc := (markers_eq_iff _ _).1 hm
      have h1 : stat ≠ STAT_INDEX := fun hx => hd (by rw [hx]; decide)
      have h2 : stat ≠ STAT_NUM := fun hx => hd (by rw [hx]; decide)
      exact ⟨hc.1, hc.2.2.1, fun _ _ => hm, fun hx => absurd hx h1, fun hx => absurd hx h2⟩

/-! ### The allocated record, markers, stale stats -/

theorem get_ot_id_ok {pdata : PokemonData} (hgen : pdata.gen = GEN_I) {v : ℕ}
    (hv : v < 65536) (h : pdata.trade_block.party0.ot_id = bswap16 v) (which : ℕ) :
    pokemon_stat_get pdata STAT_OT_ID which = Res.ok (v, pdata) := by
  simp [pokemon_stat_get, hgen, PokemonData.party, h, bswap16_bswap16 v hv]

/-- C28: whatever the value `malloc` leaves in the selector and whatever
`rand()` returns, `pokemon_data_alloc` for Gen I returns a record with party
count 1, species position 0 and code `0x99`, level and redundant level 2,
status condition 0, trainer ID reading 42069, moves `0x21, 0x2D, 0, 0`, types
`0x16, 0x03`, experience 9, the medium-slow curve at level 2, and trainer name
and original-trainer name both what the codec makes of `"Flipper"` on the
buffer filled with `TERM_`. -/
theorem alloc_defaults (encode : Encoder) (fuel sel rnd1 rnd2 : ℕ) :
    ∃ pd, pokemon_data_alloc encode (fuel + 3) sel rnd1 rnd2 GEN_I = Res.ok pd ∧
      pd.trade_block.party_cnt = 1 ∧
      pokemon_stat_get pd STAT_NUM NONE = Res.ok (0, pd) ∧
      pokemon_stat_get pd STAT_INDEX NONE = Res.ok (0x99, pd) ∧
      pokemon_stat_get pd STAT_LEVEL NONE = Res.ok (2, pd) ∧
      pd.party.level_again = 2 ∧
      pd.party.status_condition = 0 ∧
      pokemon_stat_get pd STAT_OT_ID NONE = Res.ok (42069, pd) ∧
      [pd.party.move0, pd.party.move1, pd.party.move2, pd.party.move3]
        = [0x21, 0x2D, 0x00, 0x00] ∧
      [pd.party.type0, pd.party.type1] = [0x16, 0x03] ∧
      pd.party.exp = 9 ∧ exp_switch GROWTH_MEDIUM_SLOW 2 = Res.ok 9 ∧
      pd.trade_block.trainer_name
        = encode (List.replicate LEN_NAME_BUF TERM_) (cstr "Flipper" ++ [0]) 7 ∧
      pd.trade_block.ot_name0
        = encode (List.replicate LEN_NAME_BUF TERM_) (cstr "Flipper" ++ [0]) 7 := by
  obtain ⟨pd, h, hg, hc, ht, ho, _, _, hi, hs, hid, hm, hty, hl, hla, he⟩ :=
    alloc_fields encode fuel sel rnd1 rnd2
  have he' : pd.party.exp = 9 := by
    simp only [List.cons.injEq, and_true] at he
    simp only [PokemonPartyGenI.exp, PokemonData.party, he.1, he.2.1, he.2.2]
  refine ⟨pd, h, hc, get_num_ok sample_row sample_row_name hg hi NONE, ?_, ?_, hla, hs,
    get_ot_id_ok hg (by decide) hid NONE, hm, hty, he', exp_medium_slow_two, ht, ho⟩
  · simp [pokemon_stat_get, hg, PokemonData.party, hi]
  · simp [pokemon_stat_get, hg, PokemonData.party, hl]

theorem name_set_markers {encode : Encoder} {pdata pd1 : PokemonData} {stat : DataStat}
    {name : List ℕ} (h : pokemon_name_set encode pdata stat name = Res.ok pd1) :
    pd1.markers = pdata.markers := by
  cases stat <;> first | (cases h; rfl) | cases h

theorem memcpy_rest {dst pd1 : PokemonData} {traded : TradeBlockGenI} {which : ℕ}
    (h : pokemon_stat_memcpy dst traded which = Res.ok pd1) :
    pd1.gen = dst.gen ∧
      pd1.trade_block.party_members_rest = dst.trade_block.party_members_rest := by
  unfold pokemon_stat_memcpy at h
  obtain ⟨a, _, h⟩ := bind_ok_inv h
  obtain ⟨b, _, h⟩ := bind_ok_inv h
  obtain ⟨c, _, h⟩ := bind_ok_inv h
  obtain ⟨d, _, h⟩ := bind_ok_inv h
  cases h
  exact ⟨rfl, rfl⟩

/-- C29: `pokemon_data_alloc` for Gen I returns a record whose marker 0 is the
species byte of member 0, `0x99`, and whose six other markers are `0xFF`. On a
Gen I record a write of the code of a species entry to species index, and a
write of its position to species position, return a record whose marker 0 and
species byte are that code and whose other markers are as before. Whenever a
write returns, the other markers are as before, marker 0 is the species byte
after a write of species index or position, and marker 0 and the species byte
are as before after any other write; `pokemon_name_set` keeps all of them and
`pokemon_stat_memcpy` keeps the other markers. -/
theorem markers_track_species (encode : Encoder) (fuel sel rnd rnd1 rnd2 : ℕ) {p : ℕ}
    {row : PokemonTable} (hrow : pokemon_table.get? p = some row) (hname : row.name ≠ none)
    {pdata : PokemonData} (hgen : pdata.gen = GEN_I) (which : ℕ) :
    (∃ pd, pokemon_data_alloc encode (fuel + 3) sel rnd1 rnd2 GEN_I = Res.ok pd ∧
      pd.trade_block.party_members0 = pd.party.index ∧ pd.party.index = 0x99 ∧
      pd.trade_block.party_members_rest = List.replicate 6 0xFF) ∧
    (∃ pd, pokemon_stat_set encode (fuel + 2) rnd pdata STAT_INDEX which row.index = Res.ok pd ∧
      pd.trade_block.party_members0 = pd.party.index ∧ pd.party.index = row.index ∧
      pd.trade_block.party_members_rest = pdata.trade_block.party_members_rest) ∧
    (∃ pd, pokemon_stat_set encode (fuel + 3) rnd pdata STAT_NUM which p = Res.ok pd ∧
      pd.trade_block.party_members0 = pd.party.index ∧ pd.party.index = row.index ∧
      pd.trade_block.party_members_rest = pdata.trade_block.party_members_rest) ∧
    (∀ n stat w val pd, pokemon_stat_set encode n rnd pdata stat w val = Res.ok pd →
      pd.gen = GEN_I ∧
      pd.trade_block.party_members_rest = pdata.trade_block.party_members_rest ∧
      (stat = STAT_INDEX ∨ stat = STAT_NUM → pd.trade_block.party_members0 = pd.party.index) ∧
      (stat ≠ STAT_INDEX → stat ≠ STAT_NUM →
        pd.trade_block.party_members0 = pdata.trade_block.party_members0 ∧
          pd.party.index = pdata.party.index)) ∧
    (∀ stat name pd, pokemon_name_set encode pdata stat name = Res.ok pd →
      pd.markers = pdata.markers) ∧
    (∀ traded w pd, pokemon_stat_memcpy pdata traded w = Res.ok pd →
      pd.gen = GEN_I ∧
      pd.trade_block.party_members_rest = pdata.trade_block.party_members_rest) := by
  refine ⟨?_, ?_, ?_, ?_, ?_, ?_⟩
  · obtain ⟨pd, h, _, _, _, _, hm, hr, hi, _⟩ := alloc_fields encode fuel sel rnd1 rnd2
    exact ⟨pd, h, hm.trans hi.symm, hi, hr⟩
  · obtain ⟨pd, hpd, _, hi, hm⟩ := set_index_exists encode rnd hrow hname hgen
    exact ⟨pd, hpd fuel which, hm.trans hi.symm, hi,
      (set_markers encode _ rnd (hpd fuel which)).2.1⟩
  · obtain ⟨pd, hpd, _, hi, hm⟩ := set_index_exists encode rnd hrow hname hgen
    have h := (set_num_eq_index encode fuel rnd pdata which hrow hname).trans (hpd fuel NONE)
    exact ⟨pd, h, hm.trans hi.symm, hi, (set_markers encode _ rnd h).2.1⟩
  · intro n stat w val pd h
    obtain ⟨hg, hr, hk, hi, hn⟩ := set_markers encode n rnd h
    refine ⟨hg.trans hgen, hr, ?_, ?_⟩
    · rintro (rfl | rfl)
      · obtain ⟨h1, h2⟩ := hi rfl hgen
        exact h1.trans h2.symm
      · obtain ⟨r, _, h1, h2⟩ := hn rfl hgen
        exact h1.trans h2.symm
    · intro h1 h2
      have hc := (markers_eq_iff _ _).1 (hk h1 h2)
      exact ⟨hc.2.1, hc.2.2.2⟩
  · intro stat name pd h
    exact name_set_markers h
  · intro traded w pd h
    exact ⟨(memcpy_rest h).1.trans hgen, (memcpy_rest h).2⟩

/-- C29 at the sample record and Mew, position 150 and code `0x15`. -/
theorem markers_track_species_witness :
    ∃ pd, pokemon_stat_set sample_encode 3 0 sample_record STAT_NUM NONE 150 = Res.ok pd ∧
      pd.trade_block.party_members0 = 0x15 ∧ pd.party.index = 0x15 ∧
      pd.trade_block.party_members_rest = [0xFF, 0xFF, 0xFF, 0xFF, 0xFF, 0xFF] := by
  obtain ⟨_, _, ⟨pd, h, h1, h2, h3⟩, _⟩ := markers_track_species sample_encode 0 0 0 0 0
    (by decide : pokemon_table.get? 150 = some (PokemonTable.mk (some "Mew") 0x15 0x64 0x64 0x64
      0x64 0x64 [0x18, 0x18] [0x01, 0x00, 0x00, 0x00] GROWTH_MEDIUM_SLOW))
    (by decide) (rfl : sample_record.gen = GEN_I) NONE
  exact ⟨pd, h, h1.trans h2, h2, h3⟩

/-! ### Stats follow every triggering write -/

/-- A write to the selector keeps the low 16 bits of the value only. -/
theorem set_sel_mod (encode : Encoder) (fuel rnd : ℕ) (pdata : PokemonData) (which v : ℕ) :
    pokemon_stat_set encode (fuel + 1) rnd pdata STAT_SEL which v
      = pokemon_stat_set encode (fuel + 1) rnd pdata STAT_SEL which (v % 65536) := by
  rw [set_sel_unfold, set_sel_unfold, Nat.mod_mod]

/-- A Gen I record of a catalog species whose five stored stats are the formula
at the stored IV word, effort values and level reads, for each stat, the
formula at what the accessors return. -/
theorem stats_fresh_of {p : ℕ} {row : PokemonTable} (hrow : pokemon_table.get? p = some row)
    (hname : row.name ≠ none) {pd : PokemonData} (hgen : pd.gen = GEN_I)
    (hidx : pd.trade_block.party0.index = row.index) {iv ev lv : ℕ} (hev : ev < 65536)
    (hiv : pd.trade_block.party0.iv = iv) (hlv : pd.trade_block.party0.level = lv)
    (e1 : pd.trade_block.party0.atk_ev = bswap16 ev)
    (e2 : pd.trade_block.party0.def_ev = bswap16 ev)
    (e3 : pd.trade_block.party0.spd_ev = bswap16 ev)
    (e4 : pd.trade_block.party0.spc_ev = bswap16 ev)
    (e5 : pd.trade_block.party0.hp_ev = bswap16 ev)
    (s1 : pd.trade_block.party0.atk
      = bswap16 (stat_calc row.base_hp ((iv >>> 12) &&& 0x0F) ev lv STAT_ATK))
    (s2 : pd.trade_block.party0.def_
      = bswap16 (stat_calc row.base_def ((iv >>> 8) &&& 0x0F) ev lv STAT_DEF))
    (s3 : pd.trade_block.party0.spd
      = bswap16 (stat_calc row.base_spd ((iv >>> 4) &&& 0x0F) ev lv STAT_SPD))
    (s4 : pd.trade_block.party0.spc
      = bswap16 (stat_calc row.base_spc (iv &&& 0x0F) ev lv STAT_SPC))
    (s5 : pd.trade_block.party0.hp
      = bswap16 (stat_calc row.base_hp ((iv &&& 0xAA) >>> 4) ev lv STAT_HP)) :
    ∀ s ∈ [STAT_ATK, STAT_DEF, STAT_SPD, STAT_SPC, STAT_HP],
      ∃ b base i e l, s.base = some b ∧
        table_stat_base_get pokemon_table pd b NONE = Res.ok (base, pd) ∧
        pokemon_stat_iv_get pd s = Res.ok (i, pd) ∧
        pokemon_stat_ev_get pd s = Res.ok (e, pd) ∧
        pokemon_stat_get pd STAT_LEVEL NONE = Res.ok (l, pd) ∧
        pokemon_stat_get pd s NONE = Res.ok (stat_calc base i e l s, pd) := by
  have hb := bswap16_bswap16 ev hev
  have hst := fun b i e l s => bswap16_bswap16 _ (stat_calc_lt b i e l s)
  have hl : pokemon_stat_get pd STAT_LEVEL NONE = Res.ok (lv, pd) := by
    rw [get_level_ok hgen, hlv]
  intro s hs
  simp only [List.mem_cons, List.mem_singleton, List.not_mem_nil, or_false] at hs
  rcases hs with rfl | rfl | rfl | rfl | rfl
  · exact ⟨STAT_BASE_ATK, row.base_hp, (iv >>> 12) &&& 0x0F, ev, lv, rfl,
      by simp [base_get_ok hrow hname hgen hidx],
      by simp [pokemon_stat_iv_get, pokemon_stat_get, hgen, PokemonData.party, hiv, nibble_mod],
      by simp [pokemon_stat_ev_get, pokemon_stat_get, hgen, PokemonData.party, e1, hb], hl,
      by simp [pokemon_stat_get, hgen, PokemonData.party, s1, hst]⟩
  · exact ⟨STAT_BASE_DEF, row.base_def, (iv >>> 8) &&& 0x0F, ev, lv, rfl,
      by simp [base_get_ok hrow hname hgen hidx],
      by simp [pokemon_stat_iv_get, pokemon_stat_get, hgen, PokemonData.party, hiv, nibble_mod],
      by simp [pokemon_stat_ev_get, pokemon_stat_get, hgen, PokemonData.party, e2, hb], hl,
      by simp [pokemon_stat_get, hgen, PokemonData.party, s2, hst]⟩
  · exact ⟨STAT_BASE_SPD, row.base_spd, (iv >>> 4) &&& 0x0F, ev, lv, rfl,
      by simp [base_get_ok hrow hname hgen hidx],
      by simp [pokemon_stat_iv_get, pokemon_stat_get, hgen, PokemonData.party, hiv, nibble_mod],
      by simp [pokemon_stat_ev_get, pokemon_stat_get, hgen, PokemonData.party, e3, hb], hl,
      by simp [pokemon_stat_get, hgen, PokemonData.party, s3, hst]⟩
  · exact ⟨STAT_BASE_SPC, row.base_spc, iv &&& 0x0F, ev, lv, rfl,
      by simp [base_get_ok hrow hname hgen hidx],
      by simp [pokemon_stat_iv_get, pokemon_stat_get, hgen, PokemonData.party, hiv, nibble_mod],
      by simp [pokemon_stat_ev_get, pokemon_stat_get, hgen, PokemonData.party, e4, hb], hl,
      by simp [pokemon_stat_get, hgen, PokemonData.party, s4, hst]⟩
  · exact ⟨STAT_BASE_HP, row.base_hp, (iv &&& 0xAA) >>> 4, ev, lv, rfl,
      by simp [base_get_ok hrow hname hgen hidx],
      by simp [pokemon_stat_iv_get, pokemon_stat_get, hgen, PokemonData.party, hiv,
        hp_nibble_mod],
      by simp [pokemon_stat_ev_get, pokemon_stat_get, hgen, PokemonData.party, e5, hb], hl,
      by simp [pokemon_stat_get, hgen, PokemonData.party, s5, hst]⟩

/-- C30: on a Gen I record of a catalog species whose level is a byte, a write
of level, of the selector, of the code of a species entry to species index and
of its position to species position each return a record in which every one of
the five final stats reads `stat_calc` of what `table_stat_base_get`, the IV
accessor, the EV accessor and the read of level return on that record. -/
theorem no_stale_stat (encode : Encoder) (fuel rnd : ℕ) {p : ℕ} {row : PokemonTable}
    (hrow : pokemon_table.get? p = some row) (hname : row.name ≠ none)
    {q : ℕ} {row2 : PokemonTable} (hrow2 : pokemon_table.get? q = some row2)
    (hname2 : row2.name ≠ none) {pdata : PokemonData}
    (hgen : pdata.gen = GEN_I) (hidx : pdata.party.index = row.index)
    (hlv : pdata.party.level < 256) (which v : ℕ) :
    let fresh := fun (pd : PokemonData) =>
      ∀ s ∈ [STAT_ATK, STAT_DEF, STAT_SPD, STAT_SPC, STAT_HP],
        ∃ b base i e l, s.base = some b ∧
          table_stat_base_get pokemon_table pd b NONE = Res.ok (base, pd) ∧
          pokemon_stat_iv_get pd s = Res.ok (i, pd) ∧
          pokemon_stat_ev_get pd s = Res.ok (e, pd) ∧
          pokemon_stat_get pd STAT_LEVEL NONE = Res.ok (l, pd) ∧
          pokemon_stat_get pd s NONE = Res.ok (stat_calc base i e l s, pd)
    (∃ pd, pokemon_stat_set encode (fuel + 2) rnd pdata STAT_LEVEL which v = Res.ok pd ∧
      fresh pd) ∧
    (∃ pd, pokemon_stat_set encode (fuel + 2) rnd pdata STAT_SEL which v = Res.ok pd ∧
      fresh pd) ∧
    (∃ pd, pokemon_stat_set encode (fuel + 2) rnd pdata STAT_INDEX which row2.index = Res.ok pd ∧
      fresh pd) ∧
    (∃ pd, pokemon_stat_set encode (fuel + 3) rnd pdata STAT_NUM which q = Res.ok pd ∧
      fresh pd) := by
  intro fresh
  have hidx' : pdata.trade_block.party0.index = row.index := hidx
  have hlm : pdata.trade_block.party0.level % 256 = pdata.trade_block.party0.level :=
    Nat.mod_eq_of_lt hlv
  -- level
  obtain ⟨c, hc⟩ := exp_switch_ok hrow hname ((v % 256 : ℕ) : ℤ)
  have h1 := set_level_ok encode fuel rnd hrow hname hgen hidx' which (v % 256)
    (Nat.mod_lt _ (by norm_num)) hc
  rw [← set_level_mod] at h1
  -- selector
  have h2 := set_sel_ok encode fuel rnd hrow hname hgen hidx' which (v % 65536)
    (Nat.mod_lt _ (by norm_num))
  rw [← set_sel_mod, hlm] at h2
  -- species index
  obtain ⟨_, _, _, ⟨htl, _⟩, ⟨hml, _⟩, _⟩ := species_row hrow2 hname2
  obtain ⟨c2, hc2⟩ := exp_switch_ok hrow2 hname2 (pdata.trade_block.party0.level : ℤ)
  obtain ⟨s, hs⟩ : ∃ s, row2.name = some s := Option.ne_none_iff_exists'.1 hname2
  obtain ⟨m0, m1, m2, m3, hm⟩ : ∃ m0 m1 m2 m3, row2.move = [m0, m1, m2, m3] := by
    match h : row2.move, hml with
    | [a, b, c, d], _ => exact ⟨a, b, c, d, rfl⟩
  obtain ⟨t0, t1, ht⟩ : ∃ t0 t1, row2.type = [t0, t1] := by
    match h : row2.type, htl with
    | [a, b], _ => exact ⟨a, b, rfl⟩
  have h3 := set_index_ok encode fuel rnd hrow2 hs hm ht hgen which hc2
  rw [hlm] at h3
  have h4 := (set_num_eq_index encode fuel rnd pdata which hrow2 hname2).trans
    (set_index_ok encode fuel rnd hrow2 hs hm ht hgen NONE hc2)
  rw [hlm] at h4
  refine ⟨⟨_, h1, ?_⟩, ⟨_, h2, ?_⟩, ⟨_, h3, ?_⟩, ⟨_, h4, ?_⟩⟩
  · exact stats_fresh_of hrow hname hgen hidx' (stat_ev_switch_lt pdata.stat_sel (v % 256))
      rfl rfl rfl rfl rfl rfl rfl rfl rfl rfl rfl rfl
  · exact stats_fresh_of hrow hname hgen hidx'
      (stat_ev_switch_lt (v % 65536) pdata.trade_block.party0.level)
      rfl rfl rfl rfl rfl rfl rfl rfl rfl rfl rfl rfl
  · exact stats_fresh_of hrow2 hname2 hgen rfl
      (stat_ev_switch_lt pdata.stat_sel pdata.trade_block.party0.level)
      rfl rfl rfl rfl rfl rfl rfl rfl rfl rfl rfl rfl
  · exact stats_fresh_of hrow2 hname2 hgen rfl
      (stat_ev_switch_lt pdata.stat_sel pdata.trade_block.party0.level)
      rfl rfl rfl rfl rfl rfl rfl rfl rfl rfl rfl rfl

/-- C30 at the sample record: after a write of level 50 the attack stat reads
the formula at what the accessors return. -/
theorem no_stale_stat_witness :
    ∃ pd, pokemon_stat_set sample_encode 2 0 sample_record STAT_LEVEL NONE 50 = Res.ok pd ∧
      ∃ b base i e l, STAT_ATK.base = some b ∧
        table_stat_base_get pokemon_table pd b NONE = Res.ok (base, pd) ∧
        pokemon_stat_iv_get pd STAT_ATK = Res.ok (i, pd) ∧
        pokemon_stat_ev_get pd STAT_ATK = Res.ok (e, pd) ∧
        pokemon_stat_get pd STAT_LEVEL NONE = Res.ok (l, pd) ∧
        pokemon_stat_get pd STAT_ATK NONE = Res.ok (stat_calc base i e l STAT_ATK, pd) := by
  obtain ⟨⟨pd, h, hf⟩, _⟩ := no_stale_stat sample_encode 0 0 sample_row sample_row_name
    sample_row sample_row_name (rfl : sample_record.gen = GEN_I) rfl (by decide) NONE 50
  exact ⟨pd, h, hf STAT_ATK (by decide)⟩

/-! ### Groups outside the mask, experience out of range -/

/-- C31: on a Gen I record of a catalog species, a write to level returns a
record with the species code, the four moves, the two types, the nickname, the
trainer ID, the status condition and the selector as before; a write to the
selector returns one with the species code, moves, types, nickname, trainer ID,
status condition, level and experience as before; a write of the code of a
species entry to species index returns one with level, trainer ID, status
condition, original-trainer name, trainer name and selector as before. -/
theorem groups_outside_mask (encode : Encoder) (fuel rnd : ℕ) {p : ℕ} {row : PokemonTable}
    (hrow : pokemon_table.get? p = some row) (hname : row.name ≠ none)
    {q : ℕ} {row2 : PokemonTable} (hrow2 : pokemon_table.get? q = some row2)
    (hname2 : row2.name ≠ none) {pdata : PokemonData}
    (hgen : pdata.gen = GEN_I) (hidx : pdata.party.index = row.index) (which v : ℕ) :
    (∃ pd, pokemon_stat_set encode (fuel + 2) rnd pdata STAT_LEVEL which v = Res.ok pd ∧
      pd.party.index = pdata.party.index ∧
      [pd.party.move0, pd.party.move1, pd.party.move2, pd.party.move3]
        = [pdata.party.move0, pdata.party.move1, pdata.party.move2, pdata.party.move3] ∧
      [pd.party.type0, pd.party.type1] = [pdata.party.type0, pdata.party.type1] ∧
      pd.trade_block.nickname0 = pdata.trade_block.nickname0 ∧
      pd.party.ot_id = pdata.party.ot_id ∧
      pd.party.status_condition = pdata.party.status_condition ∧
      pd.stat_sel = pdata.stat_sel) ∧
    (∃ pd, pokemon_stat_set encode (fuel + 2) rnd pdata STAT_SEL which v = Res.ok pd ∧
      pd.party.index = pdata.party.index ∧
      [pd.party.move0, pd.party.move1, pd.party.move2, pd.party.move3]
        = [pdata.party.move0, pdata.party.move1, pdata.party.move2, pdata.party.move3] ∧
      [pd.party.type0, pd.party.type1] = [pdata.party.type0, pdata.party.type1] ∧
      pd.trade_block.nickname0 = pdata.trade_block.nickname0 ∧
      pd.party.ot_id = pdata.party.ot_id ∧
      pd.party.status_condition = pdata.party.status_condition ∧
      pd.party.level = pdata.party.level ∧ pd.party.level_again = pdata.party.level_again ∧
      [pd.party.exp0, pd.party.exp1, pd.party.exp2]
        = [pdata.party.exp0, pdata.party.exp1, pdata.party.exp2]) ∧
    (∃ pd, pokemon_stat_set encode (fuel + 2) rnd pdata STAT_INDEX which row2.index = Res.ok pd ∧
      pd.party.level = pdata.party.level ∧ pd.party.level_again = pdata.party.level_again ∧
      pd.party.ot_id = pdata.party.ot_id ∧
      pd.party.status_condition = pdata.party.status_condition ∧
      pd.trade_block.ot_name0 = pdata.trade_block.ot_name0 ∧
      pd.trade_block.trainer_name = pdata.trade_block.trainer_name ∧
      pd.stat_sel = pdata.stat_sel) := by
  have hidx' : pdata.trade_block.party0.index = row.index := hidx
  obtain ⟨c, hc⟩ := exp_switch_ok hrow hname ((v % 256 : ℕ) : ℤ)
  have h1 := set_level_ok encode fuel rnd hrow hname hgen hidx' which (v % 256)
    (Nat.mod_lt _ (by norm_num)) hc
  rw [← set_level_mod] at h1
  have h2 := set_sel_ok encode fuel rnd hrow hname hgen hidx' which (v % 65536)
    (Nat.mod_lt _ (by norm_num))
  rw [← set_sel_mod] at h2
  obtain ⟨_, _, _, ⟨htl, _⟩, ⟨hml, _⟩, _⟩ := species_row hrow2 hname2
  obtain ⟨c2, hc2⟩ := exp_switch_ok hrow2 hname2 (pdata.trade_block.party0.level : ℤ)
  obtain ⟨s, hs⟩ : ∃ s, row2.name = some s := Option.ne_none_iff_exists'.1 hname2
  obtain ⟨m0, m1, m2, m3, hm⟩ : ∃ m0 m1 m2 m3, row2.move = [m0, m1, m2, m3] := by
    match h : row2.move, hml with
    | [a, b, c, d], _ => exact ⟨a, b, c, d, rfl⟩
  obtain ⟨t0, t1, ht⟩ : ∃ t0 t1, row2.type = [t0, t1] := by
    match h : row2.type, htl with
    | [a, b], _ => exact ⟨a, b, rfl⟩
  have h3 := set_index_ok encode fuel rnd hrow2 hs hm ht hgen which hc2
  exact ⟨⟨_, h1, rfl, rfl, rfl, rfl, rfl, rfl, rfl⟩,
    ⟨_, h2, rfl, rfl, rfl, rfl, rfl, rfl, rfl, rfl, rfl⟩,
    ⟨_, h3, rfl, rfl, rfl, rfl, rfl, rfl, rfl⟩⟩

/-- C31 at the sample record, whose status condition is 4: a write of level 50
keeps the species code `0x99` and the status condition. -/
theorem groups_outside_mask_witness :
    ∃ pd, pokemon_stat_set sample_encode 2 0 sample_record STAT_LEVEL NONE 50 = Res.ok pd ∧
      pd.party.index = 0x99 ∧ pd.party.status_condition = 4 := by
  obtain ⟨⟨pd, h, h1, _, _, _, _, h2, _⟩, _⟩ := groups_outside_mask sample_encode 0 0 sample_row
    sample_row_name sample_row sample_row_name (rfl : sample_record.gen = GEN_I) rfl NONE 50
  exact ⟨pd, h, h1, h2⟩

theorem exp_switch_class (level : ℤ) :
    exp_switch GROWTH_FAST level = Res.ok ((4 * level * level * level) / 5) ∧
      exp_switch GROWTH_MEDIUM_FAST level = Res.ok (level * level * level) ∧
      exp_switch GROWTH_MEDIUM_SLOW level
        = Res.ok (((level * level * level) * 6 / 5) - (15 * level * level) + (100 * level) - 140) ∧
      exp_switch GROWTH_SLOW level = Res.ok ((5 * level * level * level) / 4) :=
  ⟨rfl, rfl, rfl, rfl⟩

/-- The experience `pokemon_exp_calc` stores from a curve value `c`: its low 24
bits in two's complement. -/
theorem exp_calc_stored (encode : Encoder) (fuel rnd : ℕ) {p : ℕ} {row : PokemonTable}
    (hrow : pokemon_table.get? p = some row) (hname : row.name ≠ none) {pdata : PokemonData}
    (hgen : pdata.gen = GEN_I) (hidx : pdata.trade_block.party0.index = row.index) {c : ℤ}
    (hc : exp_switch row.growth (pdata.trade_block.party0.level : ℤ) = Res.ok c) :
    ∃ pd, pokemon_exp_calc (pokemon_stat_set encode (fuel + 1) rnd) pdata = Res.ok pd ∧
      pd.trade_block.party0.exp0 = (c % 2 ^ 32).toNat / 65536 % 256 ∧
      pd.trade_block.party0.exp1 = (c % 2 ^ 32).toNat / 256 % 256 ∧
      pd.trade_block.party0.exp2 = (c % 2 ^ 32).toNat % 256 ∧
      (pd.party.exp : ℤ) = c % 2 ^ 24 := by
  have h := exp_calc_ok encode fuel rnd hrow hname hgen hidx
  rw [hc, Res.bind_ok] at h
  refine ⟨_, h, rfl, rfl, rfl, ?_⟩
  simp only [PokemonData.party, PokemonPartyGenI.exp]
  omega

/-- C32: on a Gen I record of a medium-slow species, the curve value is -54 at
level 1 and -140 at level 0, and `pokemon_exp_calc` stores the bytes
`FF FF CA`, that is 16777162, at level 1 and `FF FF 74` at level 0: the low 24
bits of the 32-bit two's complement of the value. -/
theorem negative_curve_wraps (encode : Encoder) (fuel rnd : ℕ) {p : ℕ} {row : PokemonTable}
    (hrow : pokemon_table.get? p = some row) (hname : row.name ≠ none)
    (hg : row.growth = GROWTH_MEDIUM_SLOW) {pdata : PokemonData}
    (hgen : pdata.gen = GEN_I) (hidx : pdata.party.index = row.index) :
    exp_switch GROWTH_MEDIUM_SLOW 1 = Res.ok (-54) ∧
    exp_switch GROWTH_MEDIUM_SLOW 0 = Res.ok (-140) ∧
    (pdata.party.level = 1 →
      ∃ pd, pokemon_exp_calc (pokemon_stat_set encode (fuel + 1) rnd) pdata = Res.ok pd ∧
        [pd.party.exp0, pd.party.exp1, pd.party.exp2] = [0xFF, 0xFF, 0xCA] ∧
        pd.party.exp = 16777162) ∧
    (pdata.party.level = 0 →
      ∃ pd, pokemon_exp_calc (pokemon_stat_set encode (fuel + 1) rnd) pdata = Res.ok pd ∧
        [pd.party.exp0, pd.party.exp1, pd.party.exp2] = [0xFF, 0xFF, 0x74] ∧
        pd.party.exp = 16777076) := by
  have c1 : exp_switch GROWTH_MEDIUM_SLOW 1 = Res.ok (-54) := by decide
  have c0 : exp_switch GROWTH_MEDIUM_SLOW 0 = Res.ok (-140) := by decide
  have e1 : ((-54 : ℤ) % 2 ^ 32).toNat = 4294967242 := by decide
  have e0 : ((-140 : ℤ) % 2 ^ 32).toNat = 4294967156 := by decide
  refine ⟨c1, c0, fun hl => ?_, fun hl => ?_⟩
  · have hl' : pdata.trade_block.party0.level = 1 := hl
    obtain ⟨pd, h, b0, b1, b2, _⟩ := exp_calc_stored encode fuel rnd hrow hname hgen hidx
      (c := -54) (by rw [hg, hl']; exact c1)
    rw [e1] at b0 b1 b2
    refine ⟨pd, h, ?_, ?_⟩
    · simp only [PokemonData.party, b0, b1, b2]
    · simp only [PokemonData.party, PokemonPartyGenI.exp, b0, b1, b2]
  · have hl' : pdata.trade_block.party0.level = 0 := hl
    obtain ⟨pd, h, b0, b1, b2, _⟩ := exp_calc_stored encode fuel rnd hrow hname hgen hidx
      (c := -140) (by rw [hg, hl']; exact c0)
    rw [e0] at b0 b1 b2
    refine ⟨pd, h, ?_, ?_⟩
    · simp only [PokemonData.party, b0, b1, b2]
    · simp only [PokemonData.party, PokemonPartyGenI.exp, b0, b1, b2]

/-- C32 at the sample record set to level 1. -/
theorem negative_curve_wraps_witness :
    ∃ pd, pokemon_exp_calc (pokemon_stat_set sample_encode 1 0)
        (sample_record.set_party { sample_record.party with level := 1 }) = Res.ok pd ∧
      pd.party.exp = 16777162 := by
  obtain ⟨pd, h, _, h2⟩ := (negative_curve_wraps sample_encode 0 0 sample_row sample_row_name rfl
    (rfl : (sample_record.set_party { sample_record.party with level := 1 }).gen = GEN_I)
    rfl).2.2.1 rfl
  exact ⟨pd, h, h2⟩

/-! ### Ranges of the curves and of the stat formula -/

theorem curve_step (L : ℕ) (h2 : 2 ≤ L) (h100 : L < 100) :
    (0 ≤ (4 * (L : ℤ) * L * L) / 5 ∧
      (4 * (L : ℤ) * L * L) / 5 < (4 * ((L + 1 : ℕ) : ℤ) * (L + 1 : ℕ) * (L + 1 : ℕ)) / 5 ∧
      (4 * ((L + 1 : ℕ) : ℤ) * (L + 1 : ℕ) * (L + 1 : ℕ)) / 5 ≤ 1250000) ∧
    (0 ≤ (L : ℤ) * L * L ∧
      (L : ℤ) * L * L < ((L + 1 : ℕ) : ℤ) * (L + 1 : ℕ) * (L + 1 : ℕ) ∧
      ((L + 1 : ℕ) : ℤ) * (L + 1 : ℕ) * (L + 1 : ℕ) ≤ 1250000) ∧
    (0 ≤ (((L : ℤ) * L * L) * 6 / 5) - (15 * (L : ℤ) * L) + (100 * (L : ℤ)) - 140 ∧
      (((L : ℤ) * L * L) * 6 / 5) - (15 * (L : ℤ) * L) + (100 * (L : ℤ)) - 140
        < ((((L + 1 : ℕ) : ℤ) * (L + 1 : ℕ) * (L + 1 : ℕ)) * 6 / 5)
          - (15 * ((L + 1 : ℕ) : ℤ) * (L + 1 : ℕ)) + (100 * ((L + 1 : ℕ) : ℤ)) - 140 ∧
      ((((L + 1 : ℕ) : ℤ) * (L + 1 : ℕ) * (L + 1 : ℕ)) * 6 / 5)
          - (15 * ((L + 1 : ℕ) : ℤ) * (L + 1 : ℕ)) + (100 * ((L + 1 : ℕ) : ℤ)) - 140
        ≤ 1250000) ∧
    (0 ≤ (5 * (L : ℤ) * L * L) / 4 ∧
      (5 * (L : ℤ) * L * L) / 4 < (5 * ((L + 1 : ℕ) : ℤ) * (L + 1 : ℕ) * (L + 1 : ℕ)) / 4 ∧
      (5 * ((L + 1 : ℕ) : ℤ) * (L + 1 : ℕ) * (L + 1 : ℕ)) / 4 ≤ 1250000) := by
  interval_cases L <;> decide

/-- Each curve is non-negative, strictly increasing and at most 1250000 over
the levels 2..100. -/
theorem curve_mono {g : ℕ}
    (hg : g = GROWTH_FAST ∨ g = GROWTH_MEDIUM_FAST ∨ g = GROWTH_MEDIUM_SLOW ∨ g = GROWTH_SLOW)
    (L1 L2 : ℕ) (h2 : 2 ≤ L1) (hlt : L1 < L2) (h100 : L2 ≤ 100) :
    ∃ c1 c2, exp_switch g (L1 : ℤ) = Res.ok c1 ∧ exp_switch g (L2 : ℤ) = Res.ok c2 ∧
      0 ≤ c1 ∧ c1 < c2 ∧ c2 ≤ 1250000 := by
  have step : ∀ L : ℕ, 2 ≤ L → L < 100 →
      ∃ c1 c2, exp_switch g (L : ℤ) = Res.ok c1 ∧ exp_switch g ((L + 1 : ℕ) : ℤ) = Res.ok c2 ∧
        0 ≤ c1 ∧ c1 < c2 ∧ c2 ≤ 1250000 := by
    intro L hL hL'
    obtain ⟨f, mf, ms, sl⟩ := curve_step L hL hL'
    rcases hg with rfl | rfl | rfl | rfl
    · exact ⟨_, _, (exp_switch_class _).1, (exp_switch_class _).1, f⟩
    · exact ⟨_, _, (exp_switch_class _).2.1, (exp_switch_class _).2.1, mf⟩
    · exact ⟨_, _, (exp_switch_class _).2.2.1, (exp_switch_class _).2.2.1, ms⟩
    · exact ⟨_, _, (exp_switch_class _).2.2.2, (exp_switch_class _).2.2.2, sl⟩
  induction L2, hlt using Nat.le_induction with
  | base => exact step L1 h2 (by omega)
  | succ n hn ih =>
    obtain ⟨c1, c2, e1, e2, p0, p1, _⟩ := ih (by omega)
    obtain ⟨d1, d2, f1, f2, _, q1, q2⟩ := step n (by omega) (by omega)
    have : d1 = c2 := Res.ok.inj (f1.symm.trans e2)
    subst this
    exact ⟨c1, d2, e1, f2, p0, lt_trans p1 q1, q2⟩

theorem slow_at_255 : exp_switch GROWTH_SLOW ((255 : ℕ) : ℤ) = Res.ok 20726718 := by
  decide

/-- C33: for two Gen I records of one catalog species at levels `L1 < L2` in
2..100, `pokemon_exp_calc` stores on each the curve value of the species'
class at its level, the first smaller than the second and the second at most
1250000, below `2 ^ 24`. For a Gen I record of a slow species at level 255 the
curve value is 20726718, not below `2 ^ 24`, and the stored experience is
3949502, its low 24 bits. -/
theorem exp_increasing (encode : Encoder) (fuel rnd : ℕ) {p : ℕ} {row : PokemonTable}
    (hrow : pokemon_table.get? p = some row) (hname : row.name ≠ none)
    {pd1 pd2 pd3 : PokemonData}
    (g1 : pd1.gen = GEN_I) (i1 : pd1.party.index = row.index)
    (g2 : pd2.gen = GEN_I) (i2 : pd2.party.index = row.index)
    (g3 : pd3.gen = GEN_I) (i3 : pd3.party.index = row.index)
    (h2 : 2 ≤ pd1.party.level) (hlt : pd1.party.level < pd2.party.level)
    (h100 : pd2.party.level ≤ 100) :
    (∃ r1 r2, pokemon_exp_calc (pokemon_stat_set encode (fuel + 1) rnd) pd1 = Res.ok r1 ∧
      pokemon_exp_calc (pokemon_stat_set encode (fuel + 1) rnd) pd2 = Res.ok r2 ∧
      exp_switch row.growth (pd1.party.level : ℤ) = Res.ok (r1.party.exp : ℤ) ∧
      exp_switch row.growth (pd2.party.level : ℤ) = Res.ok (r2.party.exp : ℤ) ∧
      r1.party.exp < r2.party.exp ∧ r2.party.exp ≤ 1250000 ∧ 1250000 < 2 ^ 24) ∧
    (row.growth = GROWTH_SLOW → pd3.party.level = 255 →
      ∃ r3, pokemon_exp_calc (pokemon_stat_set encode (fuel + 1) rnd) pd3 = Res.ok r3 ∧
        exp_switch row.growth (pd3.party.level : ℤ) = Res.ok 20726718 ∧
        (2 : ℤ) ^ 24 ≤ 20726718 ∧ r3.party.exp = 3949502 ∧ 3949502 = 20726718 % 2 ^ 24) := by
  constructor
  · obtain ⟨c1, c2, e1, e2, p0, p1, p2⟩ := curve_mono (species_row hrow hname).2.2.2.2.2
      pd1.party.level pd2.party.level h2 hlt h100
    obtain ⟨r1, hr1, _, _, _, x1⟩ := exp_calc_stored encode fuel rnd hrow hname g1 i1 e1
    obtain ⟨r2, hr2, _, _, _, x2⟩ := exp_calc_stored encode fuel rnd hrow hname g2 i2 e2
    have y1 : (r1.party.exp : ℤ) = c1 := by omega
    have y2 : (r2.party.exp : ℤ) = c2 := by omega
    refine ⟨r1, r2, hr1, hr2, by rw [y1]; exact e1, by rw [y2]; exact e2, ?_, ?_, by norm_num⟩
    · omega
    · omega
  · intro hg hl
    have hl' : pd3.trade_block.party0.level = 255 := hl
    have hc : exp_switch row.growth (pd3.trade_block.party0.level : ℤ) = Res.ok 20726718 := by
      rw [hg, hl']; exact slow_at_255
    obtain ⟨r3, hr3, _, _, _, x3⟩ := exp_calc_stored encode fuel rnd hrow hname g3 i3 hc
    refine ⟨r3, hr3, hc, by norm_num, ?_, by norm_num⟩
    omega

/-- C33 at the sample record, level 10, and the sample record at level 11. -/
theorem exp_increasing_witness :
    ∃ r1 r2, pokemon_exp_calc (pokemon_stat_set sample_encode 1 0) sample_record = Res.ok r1 ∧
      pokemon_exp_calc (pokemon_stat_set sample_encode 1 0)
        (sample_record.set_party { sample_record.party with level := 11 }) = Res.ok r2 ∧
      r1.party.exp < r2.party.exp := by
  obtain ⟨r1, r2, h1, h2, _, _, h3, _⟩ := (exp_increasing sample_encode 0 0 sample_row
    sample_row_name (rfl : sample_record.gen = GEN_I) rfl
    (rfl : (sample_record.set_party { sample_record.party with level := 11 }).gen = GEN_I) rfl
    (rfl : sample_record.gen = GEN_I) rfl (by decide) (by decide) (by decide)).1
  exact ⟨r1, r2, h1, h2, h3⟩

/-- The value of `stat_calc` on bytes, a 16-bit effort value and a nibble: the
integer formula, with no reduction modulo `2 ^ 16`. -/
theorem stat_calc_value (base iv ev level : ℕ) (stat : DataStat)
    (hb : base < 256) (hi : iv < 16) (he : ev < 65536) (hl : level < 256) :
    stat_calc base iv ev level stat
      = (2 * (base + iv) + Nat.sqrt ev / 4) * level / 100
        + (if stat = STAT_HP then level + 10 else 5) := by
  have hs : Nat.sqrt ev < 256 := by
    rw [Nat.sqrt_lt]; omega
  have h1 : (2 * (base + iv) + Nat.sqrt ev / 4) * level ≤ 603 * 255 :=
    Nat.mul_le_mul (by omega) (by omega)
  rw [stat_calc_eq base iv ev level stat hb (by omega) he hl]
  split_ifs <;> omega

/-- C34: for bases and levels in 0..255, individual values in 0..15 and effort
values in 0..65535, `stat_calc` is the integer formula with no wrap of the
16-bit result, the value is at most 1802, and it does not decrease when base,
individual value, effort value and level do not. -/
theorem stat_calc_monotone (b b2 i i2 e e2 l l2 : ℕ) (s : DataStat)
    (hb : b ≤ b2) (hb2 : b2 < 256) (hi : i ≤ i2) (hi2 : i2 < 16)
    (he : e ≤ e2) (he2 : e2 < 65536) (hl : l ≤ l2) (hl2 : l2 < 256) :
    stat_calc b2 i2 e2 l2 s
        = (2 * (b2 + i2) + Nat.sqrt e2 / 4) * l2 / 100 + (if s = STAT_HP then l2 + 10 else 5) ∧
      (2 * (b2 + i2) + Nat.sqrt e2 / 4) * l2 / 100 + (if s = STAT_HP then l2 + 10 else 5)
        ≤ 1802 ∧
      stat_calc b i e l s ≤ stat_calc b2 i2 e2 l2 s := by
  have hs2 : Nat.sqrt e2 < 256 := by
    rw [Nat.sqrt_lt]; omega
  have hs : Nat.sqrt e ≤ Nat.sqrt e2 := Nat.sqrt_le_sqrt he
  have hx : 2 * (b + i) + Nat.sqrt e / 4 ≤ 2 * (b2 + i2) + Nat.sqrt e2 / 4 := by
    have := Nat.div_le_div_right (c := 4) hs
    omega
  have hx2 : 2 * (b2 + i2) + Nat.sqrt e2 / 4 ≤ 603 := by omega
  have hp : (2 * (b + i) + Nat.sqrt e / 4) * l ≤ (2 * (b2 + i2) + Nat.sqrt e2 / 4) * l2 :=
    Nat.mul_le_mul hx hl
  have hp2 : (2 * (b2 + i2) + Nat.sqrt e2 / 4) * l2 ≤ 603 * 255 :=
    Nat.mul_le_mul hx2 (by omega)
  have hq := Nat.div_le_div_right (c := 100) hp
  have hq2 : (2 * (b2 + i2) + Nat.sqrt e2 / 4) * l2 / 100 ≤ 1537 := by omega
  refine ⟨stat_calc_value b2 i2 e2 l2 s hb2 hi2 he2 hl2, ?_, ?_⟩
  · split_ifs <;> omega
  · rw [stat_calc_value b i e l s (by omega) (by omega) (by omega) (by omega),
      stat_calc_value b2 i2 e2 l2 s hb2 hi2 he2 hl2]
    split_ifs <;> omega

/-- C34 at base 45, from individual value 10 to 15, effort value 0 to 25600 and
level 2 to 100. -/
theorem stat_calc_monotone_witness :
    stat_calc 45 10 0 2 STAT_HP ≤ stat_calc 45 15 25600 100 STAT_HP ∧
      stat_calc 45 15 25600 100 STAT_HP ≤ 1802 := by
  have h := stat_calc_monotone 45 45 10 15 0 25600 2 100 STAT_HP (by decide) (by decide)
    (by decide) (by decide) (by decide) (by decide) (by decide) (by decide)
  exact ⟨h.2.2, h.1 ▸ h.2.1⟩

/-! ### Names of the catalog, closure of the catalog, name identifiers, scans -/

set_option maxRecDepth 100000 in
theorem catalog_names_nonzero :
    ∀ row ∈ pokemon_table.take 151, ∀ c ∈ (row.name.map cstr).getD [], c ≠ 0 := by
  decide

theorem toupper_ne_zero {c : ℕ} (h : c ≠ 0) : toupper c ≠ 0 := by
  unfold toupper
  split_ifs <;> omega

theorem species_name_nonzero {p : ℕ} {row : PokemonTable}
    (hrow : pokemon_table.get? p = some row) {s : String} (hs : row.name = some s) :
    ∀ c ∈ (cstr s).map toupper, c ≠ 0 := by
  have hname : row.name ≠ none := by rw [hs]; exact Option.some_ne_none s
  have hp := species_lt hrow hname
  have hmem : row ∈ pokemon_table.take 151 := by
    have : (pokemon_table.take 151).get? p = some row := by
      rw [List.get?_eq_getElem?, List.getElem?_take, if_pos hp, ← List.get?_eq_getElem?]
      exact hrow
    exact List.get?_mem this
  have h := catalog_names_nonzero row hmem
  rw [hs] at h
  intro c hc
  obtain ⟨d, hd, rfl⟩ := List.mem_map.1 hc
  exact toupper_ne_zero (h d hd)

theorem takeWhile_name (u : List ℕ) (hu : ∀ c ∈ u, c ≠ 0) (k : ℕ) :
    (u ++ List.replicate k 0).takeWhile (fun c => decide (c ≠ 0)) = u := by
  induction u with
  | nil =>
    cases k with
    | zero => rfl
    | succ k => simp [List.replicate_succ, List.takeWhile]
  | cons a u ih =>
    have ha : a ≠ 0 := hu a (List.mem_cons_self a u)
    have := ih (fun c hc => hu c (List.mem_cons_of_mem a hc))
    change List.takeWhile _ (a :: (u ++ List.replicate k 0)) = _
    rw [List.takeWhile_cons, if_pos (decide_eq_true ha), this]

theorem take_name (u : List ℕ) (hu : u.length ≤ 10) :
    (u ++ List.replicate (LEN_NAME_BUF - u.length) 0).take 10
      = u ++ List.replicate (10 - u.length) 0 := by
  rw [List.take_append_eq_append_take, List.take_of_length_le hu, List.take_replicate]
  congr 2
  simp only [LEN_NAME_BUF]
  omega

/-- C35: a catalog species has a display name of 1 to 10 characters, none of
them zero. On a Gen I record of the species `pokemon_default_nickname_set`
returns, its scratch buffer holds the whole upper-cased name followed by at
least one zero, the nickname field is what the codec makes of that buffer with
the length limit 10, and the characters of the buffer before its first zero
among the first 10 are the whole upper-cased name. -/
theorem nickname_whole_name (encode : Encoder) {p : ℕ} {row : PokemonTable}
    (hrow : pokemon_table.get? p = some row) {s : String} (hs : row.name = some s)
    {pdata : PokemonData} (hgen : pdata.gen = GEN_I) (hidx : pdata.party.index = row.index) :
    1 ≤ (cstr s).length ∧ (cstr s).length ≤ 10 ∧ (∀ c ∈ (cstr s).map toupper, c ≠ 0) ∧
    ∃ pd, pokemon_default_nickname_set encode pdata
        = Res.ok ((cstr s).map toupper ++ List.replicate (LEN_NAME_BUF - (cstr s).length) 0, pd) ∧
      1 ≤ LEN_NAME_BUF - (cstr s).length ∧
      pd.trade_block.nickname0 = encode (List.replicate LEN_NAME_BUF TERM_)
        ((cstr s).map toupper ++ List.replicate (LEN_NAME_BUF - (cstr s).length) 0) 10 ∧
      (((cstr s).map toupper ++ List.replicate (LEN_NAME_BUF - (cstr s).length) 0).take 10).takeWhile
        (fun c => decide (c ≠ 0)) = (cstr s).map toupper := by
  obtain ⟨h1, h10⟩ := species_name_length hrow hs
  have hnz := species_name_nonzero hrow hs
  have hbuf := nickname_buf (s := s) (by simp only [LEN_NAME_BUF]; omega)
  have hset := nickname_ok encode hrow hs hgen hidx
  rw [hbuf] at hset
  refine ⟨h1, h10, hnz, _, hset, by simp only [LEN_NAME_BUF]; omega, rfl, ?_⟩
  have hlen : ((cstr s).map toupper).length = (cstr s).length := List.length_map _ _
  have ht := take_name ((cstr s).map toupper) (by rw [hlen]; exact h10)
  rw [hlen] at ht
  rw [ht]
  exact takeWhile_name _ hnz _

/-- C35 at the sample record with the copying codec: the nickname field is
`BULBASAUR` followed by two terminators. -/
theorem nickname_whole_name_witness :
    ∃ b pd, pokemon_default_nickname_set copy_encode sample_record = Res.ok (b, pd) ∧
      pd.trade_block.nickname0 = [66, 85, 76, 66, 65, 83, 65, 85, 82, 0x50, 0x50] := by
  obtain ⟨_, _, _, pd, h1, _, h2, _⟩ := nickname_whole_name copy_encode sample_row
    (rfl : _ = some "Bulbasaur") (rfl : sample_record.gen = GEN_I) rfl
  refine ⟨_, pd, h1, ?_⟩
  rw [h2]
  decide

set_option maxRecDepth 1000000 in
/-- C36: for every species row of the catalog, each of the four default move
codes is the code of a named entry of `move_list`, where `namelist_pos_get`
finds an entry of that code, and each of the two type codes is the code of a
named entry of `type_list`, where `namelist_pos_get` finds an entry of that
code. -/
theorem catalog_closed :
    ∀ row ∈ pokemon_table, row.name ≠ none →
      (row.move.length = 4 ∧ ∀ m ∈ row.move,
        (∃ e ∈ move_list, e.name ≠ none ∧ e.index = m) ∧
          (namelist_pos_get move_list m).bind (namelist_index_get move_list) = Res.ok m) ∧
      (row.type.length = 2 ∧ ∀ t ∈ row.type,
        (∃ e ∈ type_list, e.name ≠ none ∧ e.index = t) ∧
          (namelist_pos_get type_list t).bind (namelist_index_get type_list) = Res.ok t) := by
  decide

/-- C38: `pokemon_name_get` returns for the nickname and the original-trainer
name and is `furi_crash` for every other identifier, the trainer name among
them; `pokemon_name_set` returns for the nickname, the original-trainer name
and the trainer name and for no other identifier; after `pokemon_name_set` has
written the trainer name, `pokemon_name_get` of the trainer name is still
`furi_crash`. -/
theorem name_get_identifiers (encode : Encoder) (decode : Decoder) (pdata : PokemonData)
    (name dest : List ℕ) (len : ℕ) :
    pokemon_name_get decode pdata STAT_NICKNAME dest len
        = Res.ok (decode dest pdata.trade_block.nickname0 len) ∧
      pokemon_name_get decode pdata STAT_OT_NAME dest len
        = Res.ok (decode dest pdata.trade_block.ot_name0 len) ∧
      (∀ stat, stat ≠ STAT_NICKNAME → stat ≠ STAT_OT_NAME →
        pokemon_name_get decode pdata stat dest len = Res.fault Fault.crash) ∧
      (∀ stat, (∃ r, pokemon_name_get decode pdata stat dest len = Res.ok r)
        ↔ stat = STAT_NICKNAME ∨ stat = STAT_OT_NAME) ∧
      (∀ stat, (∃ pd, pokemon_name_set encode pdata stat name = Res.ok pd)
        ↔ stat = STAT_NICKNAME ∨ stat = STAT_OT_NAME ∨ stat = STAT_TRAINER_NAME) ∧
      ∃ pd, pokemon_name_set encode pdata STAT_TRAINER_NAME name = Res.ok pd ∧
        pd.trade_block.trainer_name = encode (List.replicate LEN_NAME_BUF TERM_) name 7 ∧
        pokemon_name_get decode pd STAT_TRAINER_NAME dest len = Res.fault Fault.crash := by
  refine ⟨rfl, rfl, ?_, ?_, ?_, _, rfl, rfl, rfl⟩
  · intro stat h1 h2
    cases stat <;> first | rfl | exact absurd rfl h1 | exact absurd rfl h2
  · intro stat
    cases stat <;> simp [pokemon_name_get]
  · intro stat
    cases stat <;> simp [pokemon_name_set]

theorem namelist_pos_steps_le (index : ℕ) (l : List NamedList) :
    namelist_pos_steps index l ≤ l.length := by
  induction l with
  | nil => simp [namelist_pos_steps]
  | cons e es ih =>
    simp only [namelist_pos_steps, List.length_cons]
    split_ifs <;> omega

theorem table_pokemon_pos_steps_le (index : ℕ) (l : List PokemonTable) :
    table_pokemon_pos_steps index l ≤ l.length := by
  induction l with
  | nil => simp [table_pokemon_pos_steps]
  | cons e es ih =>
    simp only [table_pokemon_pos_steps, List.length_cons]
    split_ifs <;> omega

/-- A scan of a list that holds an entry with a null name returns. -/
theorem namelist_pos_scan_returns (index : ℕ) (l : List NamedList)
    (h : ∃ e ∈ l, e.name = none) (i : ℕ) : ∃ r, namelist_pos_scan index l i = Res.ok r := by
  induction l generalizing i with
  | nil => obtain ⟨e, he, _⟩ := h; cases he
  | cons e es ih =>
    by_cases hn : e.name = none
    · exact ⟨0, by simp [namelist_pos_scan, hn]⟩
    · by_cases hc : index = e.index
      · exact ⟨i, by simp [namelist_pos_scan, hn, hc]⟩
      · obtain ⟨x, hx, hx2⟩ := h
        have hx3 : x ∈ es := by
          rcases List.mem_cons.1 hx with rfl | hm
          · exact absurd hx2 hn
          · exact hm
        obtain ⟨r, hr⟩ := ih ⟨x, hx3, hx2⟩ (i + 1)
        exact ⟨r, by rw [namelist_pos_scan, if_neg hn, if_neg hc, hr]⟩

/-- A scan of a table that holds a row with a null name returns. -/
theorem table_pokemon_pos_scan_returns (index : ℕ) (l : List PokemonTable)
    (h : ∃ e ∈ l, e.name = none) (i : ℕ) :
    ∃ r, table_pokemon_pos_scan index l i = Res.ok r := by
  induction l generalizing i with
  | nil => obtain ⟨e, he, _⟩ := h; cases he
  | cons e es ih =>
    by_cases hc : e.index = index
    · exact ⟨i, by simp [table_pokemon_pos_scan, hc]⟩
    · by_cases hn : e.name = none
      · exact ⟨0, by simp [table_pokemon_pos_scan, hn, hc]⟩
      · obtain ⟨x, hx, hx2⟩ := h
        have hx3 : x ∈ es := by
          rcases List.mem_cons.1 hx with rfl | hm
          · exact absurd hx2 hn
          · exact hm
        obtain ⟨r, hr⟩ := ih ⟨x, hx3, hx2⟩ (i + 1)
        exact ⟨r, by rw [table_pokemon_pos_scan, if_neg hc, if_neg hn, hr]⟩

set_option maxRecDepth 100000 in
theorem static_sentinels :
    (∃ e ∈ move_list, e.name = none) ∧ (∃ e ∈ type_list, e.name = none) ∧
      (∃ e ∈ stat_list, e.name = none) ∧ (∃ e ∈ pokemon_table, e.name = none) := by
  decide

set_option maxRecDepth 100000 in
theorem static_lengths :
    move_list.length = 167 ∧ type_list.length = 16 ∧ stat_list.length = 7 := by
  decide

set_option maxRecDepth 100000 in
/-- C39: `namelist_cnt` returns 166 on `move_list`, 15 on `type_list` and 6 on
`stat_list`, in each list the position of the only entry with a null name, the
last one; `pokemon_table` has 151 named rows and then its sentinel; for
every code `namelist_pos_get` returns after at most 167, 16 and 7 runs of its
loop body on the three lists, and `table_pokemon_pos_get` after at most 152. -/
theorem scans_terminate :
    (namelist_cnt move_list = Res.ok 166 ∧ namelist_cnt type_list = Res.ok 15 ∧
      namelist_cnt stat_list = Res.ok 6) ∧
    (move_list.map (fun e => e.name.isSome) = List.replicate 166 true ++ [false] ∧
      type_list.map (fun e => e.name.isSome) = List.replicate 15 true ++ [false] ∧
      stat_list.map (fun e => e.name.isSome) = List.replicate 6 true ++ [false] ∧
      pokemon_table.map (fun e => e.name.isSome) = List.replicate 151 true ++ [false]) ∧
    ∀ c : ℕ,
      ((∃ pos, namelist_pos_get move_list c = Res.ok pos) ∧
        namelist_pos_steps (c % 256) move_list ≤ 166 + 1) ∧
      ((∃ pos, namelist_pos_get type_list c = Res.ok pos) ∧
        namelist_pos_steps (c % 256) type_list ≤ 15 + 1) ∧
      ((∃ pos, namelist_pos_get stat_list c = Res.ok pos) ∧
        namelist_pos_steps (c % 256) stat_list ≤ 6 + 1) ∧
      ((∃ pos, table_pokemon_pos_get pokemon_table c = Res.ok pos) ∧
        table_pokemon_pos_steps (c % 256) pokemon_table ≤ 151 + 1) := by
  refine ⟨by decide, by decide, fun c => ⟨⟨?_, ?_⟩, ⟨?_, ?_⟩, ⟨?_, ?_⟩, ⟨?_, ?_⟩⟩⟩
  · exact namelist_pos_scan_returns _ _ static_sentinels.1 0
  · exact (namelist_pos_steps_le _ _).trans (le_of_eq static_lengths.1)
  · exact namelist_pos_scan_returns _ _ static_sentinels.2.1 0
  · exact (namelist_pos_steps_le _ _).trans (le_of_eq static_lengths.2.1)
  · exact namelist_pos_scan_returns _ _ static_sentinels.2.2.1 0
  · exact (namelist_pos_steps_le _ _).trans (le_of_eq static_lengths.2.2)
  · exact table_pokemon_pos_scan_returns _ _ static_sentinels.2.2.2 0
  · exact (table_pokemon_pos_steps_le _ _).trans (le_of_eq pokemon_table_length)

/-! ### The random draw reaches the IV word and the final stats only -/

theorem rel_fault {α β : Type} (r : α → β → Prop) (e : Fault) :
    Res.rel r (Res.fault e : Res α) (Res.fault e : Res β) := by
  simp [Res.rel]

theorem rel_bind {α β γ δ : Type} {r : α → β → Prop} {s : γ → δ → Prop} {a : Res α}
    {b : Res β} {k : α → Res γ} {k2 : β → Res δ} (h : Res.rel r a b)
    (hk : ∀ x y, r x y → Res.rel s (k x) (k2 y)) : Res.rel s (a.bind k) (b.bind k2) := by
  cases a with
  | ok x =>
    cases b with
    | ok y => exact hk x y h
    | fault f => exact h.elim
  | fault e =>
    cases b with
    | ok y => exact h.elim
    | fault f => exact h

theorem rel_ite {α β : Type} {r : α → β → Prop} {c : Prop} [Decidable c] {a a2 : Res α}
    {b b2 : Res β} (h1 : c → Res.rel r a b) (h2 : ¬c → Res.rel r a2 b2) :
    Res.rel r (if c then a else a2) (if c then b else b2) := by
  split_ifs with h
  · exact h1 h
  · exact h2 h

theorem rel_loop {α : Type} {R : PokemonData → PokemonData → Prop}
    {f g : PokemonData → α → Res PokemonData} (l : List α)
    (h : ∀ pd1 pd2, ∀ a ∈ l, R pd1 pd2 → Res.rel R (f pd1 a) (g pd2 a)) :
    ∀ pd1 pd2, R pd1 pd2 → Res.rel R (Res.loop f pd1 l) (Res.loop g pd2 l) := by
  induction l with
  | nil => intro pd1 pd2 hR; exact hR
  | cons a l ih =>
    intro pd1 pd2 hR
    rw [Res.loop_cons, Res.loop_cons]
    exact rel_bind (h pd1 pd2 a (List.mem_cons_self a l) hR)
      (ih (fun p1 p2 x hx => h p1 p2 x (List.mem_cons_of_mem a hx)))

theorem rel_same {α : Type} (a : Res α) : Res.rel (fun x y => x = y) a a := by
  cases a with
  | ok x => exact rfl
  | fault e => exact rfl

theorem agree_gen {b : Bool} {pd1 pd2 : PokemonData} (h : pd1.agree b pd2) :
    pd1.gen = pd2.gen :=
  congrArg (fun r => r.gen) h.1

theorem agree_sel {b : Bool} {pd1 pd2 : PokemonData} (h : pd1.agree b pd2) :
    pd1.stat_sel = pd2.stat_sel :=
  congrArg (fun r => r.stat_sel) h.1

theorem agree_party {b : Bool} {pd1 pd2 : PokemonData} (h : pd1.agree b pd2) :
    pd1.trade_block.party0.index = pd2.trade_block.party0.index ∧
      pd1.trade_block.party0.level = pd2.trade_block.party0.level ∧
      pd1.trade_block.party0.atk_ev = pd2.trade_block.party0.atk_ev ∧
      pd1.trade_block.party0.def_ev = pd2.trade_block.party0.def_ev ∧
      pd1.trade_block.party0.spd_ev = pd2.trade_block.party0.spd_ev ∧
      pd1.trade_block.party0.spc_ev = pd2.trade_block.party0.spc_ev ∧
      pd1.trade_block.party0.hp_ev = pd2.trade_block.party0.hp_ev :=
  ⟨congrArg (fun r => r.trade_block.party0.index) h.1,
    congrArg (fun r => r.trade_block.party0.level) h.1,
    congrArg (fun r => r.trade_block.party0.atk_ev) h.1,
    congrArg (fun r => r.trade_block.party0.def_ev) h.1,
    congrArg (fun r => r.trade_block.party0.spd_ev) h.1,
    congrArg (fun r => r.trade_block.party0.spc_ev) h.1,
    congrArg (fun r => r.trade_block.party0.hp_ev) h.1⟩

/-- The reads of level, storage position and effort values agree on two
records that agree, and return the record they were given. -/
theorem get_plain_sim {b : Bool} {pd1 pd2 : PokemonData} (h : pd1.agree b pd2)
    {stat : DataStat}
    (hs : stat ∈ [STAT_LEVEL, STAT_NUM, STAT_ATK_EV, STAT_DEF_EV, STAT_SPD_EV, STAT_SPC_EV,
      STAT_HP_EV]) (w : ℕ) :
    Res.rel (fun x y => x.1 = y.1 ∧ x.2 = pd1 ∧ y.2 = pd2)
      (pokemon_stat_get pd1 stat w) (pokemon_stat_get pd2 stat w) := by
  obtain ⟨h1, h2, h3, h4, h5, h6, h7⟩ := agree_party h
  have hg := agree_gen h
  simp only [List.mem_cons, List.mem_singleton, List.not_mem_nil, or_false] at hs
  rcases hs with rfl | rfl | rfl | rfl | rfl | rfl | rfl
  · simp only [pokemon_stat_get, PokemonData.party, hg, h2]
    split_ifs <;> exact ⟨rfl, rfl, rfl⟩
  · simp only [pokemon_stat_get, PokemonData.party, hg, h1]
    exact rel_bind (rel_same _) (fun x y hxy => ⟨hxy, rfl, rfl⟩)
  · simp only [pokemon_stat_get, PokemonData.party, hg, h3]
    exact ⟨rfl, rfl, rfl⟩
  · simp only [pokemon_stat_get, PokemonData.party, hg, h4]
    exact ⟨rfl, rfl, rfl⟩
  · simp only [pokemon_stat_get, PokemonData.party, hg, h5]
    exact ⟨rfl, rfl, rfl⟩
  · simp only [pokemon_stat_get, PokemonData.party, hg, h6]
    exact ⟨rfl, rfl, rfl⟩
  · simp only [pokemon_stat_get, PokemonData.party, hg, h7]
    exact ⟨rfl, rfl, rfl⟩

theorem ev_get_sim {b : Bool} {pd1 pd2 : PokemonData} (h : pd1.agree b pd2) (stat : DataStat) :
    Res.rel (fun x y => x.1 = y.1 ∧ x.2 = pd1 ∧ y.2 = pd2)
      (pokemon_stat_ev_get pd1 stat) (pokemon_stat_ev_get pd2 stat) := by
  cases stat <;> simp only [pokemon_stat_ev_get] <;> first
    | exact rel_fault _ _
    | exact get_plain_sim h (by decide) _

theorem iv_get_sim {b : Bool} {pd1 pd2 : PokemonData} (h : pd1.agree b pd2) (stat : DataStat) :
    Res.rel (fun x y => x.2 = pd1 ∧ y.2 = pd2 ∧ (b = true → x.1 = y.1))
      (pokemon_stat_iv_get pd1 stat) (pokemon_stat_iv_get pd2 stat) := by
  have hg := agree_gen h
  have he : b = true → pd1 = pd2 := fun hb => (h.2 hb).1
  by_cases hg1 : pd1.gen = GEN_I
  · have hg2 : pd2.gen = GEN_I := hg ▸ hg1
    cases stat <;> first
      | exact rel_fault _ _
      | (simp only [pokemon_stat_iv_get, pokemon_stat_get, hg1, hg2, if_true, Res.bind_ok]
         exact ⟨rfl, rfl, fun hb => by rw [he hb]⟩)
  · have hg2 : ¬ pd2.gen = GEN_I := hg ▸ hg1
    cases stat <;> first
      | exact rel_fault _ _
      | (simp only [pokemon_stat_iv_get, pokemon_stat_get, hg1, hg2, if_false, Res.bind_ok]
         exact ⟨rfl, rfl, fun _ => rfl⟩)

theorem base_get_sim {b : Bool} {pd1 pd2 : PokemonData} (h : pd1.agree b pd2) (s : BaseStat)
    (n : ℕ) :
    Res.rel (fun x y => x.1 = y.1 ∧ x.2 = pd1 ∧ y.2 = pd2)
      (table_stat_base_get pokemon_table pd1 s n) (table_stat_base_get pokemon_table pd2 s n) := by
  unfold table_stat_base_get
  refine rel_bind (get_plain_sim h (by decide) _) ?_
  rintro ⟨x1, x2⟩ ⟨y1, y2⟩ ⟨hv, hx, hy⟩
  simp only at hv hx hy
  subst hv hx hy
  cases arr_get pokemon_table x1 with
  | fault e => exact rel_fault _ _
  | ok row =>
    simp only [Res.bind_ok]
    cases s with
    | STAT_BASE_TYPE =>
      cases arr_get row.type n with
      | fault e => exact rel_fault _ _
      | ok t => exact ⟨rfl, rfl, rfl⟩
    | STAT_BASE_MOVE =>
      cases arr_get row.move n with
      | fault e => exact rel_fault _ _
      | ok t => exact ⟨rfl, rfl, rfl⟩
    | _ => exact ⟨rfl, rfl, rfl⟩


/-- A store through `pdata->party` keeps two records in agreement when the two
stored members agree apart from the IV word and the final stats, and are the
same when the records are. -/
theorem agree_set_party {b : Bool} {pd1 pd2 : PokemonData} (h : pd1.agree b pd2)
    {p1 p2 : PokemonPartyGenI}
    (hp : (pd1.set_party p1).without_iv_stats = (pd2.set_party p2).without_iv_stats)
    (he : b = true → p1 = p2) :
    (pd1.set_party p1).agree b (pd2.set_party p2) := by
  refine ⟨hp, fun hb => ?_⟩
  obtain ⟨rfl, hm⟩ := h.2 hb
  rw [he hb]
  exact ⟨rfl, hm⟩

theorem agree_fields {b : Bool} {pd1 pd2 : PokemonData} (h : pd1.agree b pd2) :
    pd1.gen = pd2.gen ∧ pd1.stat_sel = pd2.stat_sel ∧
      pd1.trade_block.trainer_name = pd2.trade_block.trainer_name ∧
      pd1.trade_block.party_cnt = pd2.trade_block.party_cnt ∧
      pd1.trade_block.party_members0 = pd2.trade_block.party_members0 ∧
      pd1.trade_block.party_members_rest = pd2.trade_block.party_members_rest ∧
      (pd1.trade_block.party0.index = pd2.trade_block.party0.index ∧
        pd1.trade_block.party0.level_again = pd2.trade_block.party0.level_again ∧
        pd1.trade_block.party0.status_condition = pd2.trade_block.party0.status_condition ∧
        pd1.trade_block.party0.type0 = pd2.trade_block.party0.type0 ∧
        pd1.trade_block.party0.type1 = pd2.trade_block.party0.type1 ∧
        pd1.trade_block.party0.catch_held = pd2.trade_block.party0.catch_held ∧
        pd1.trade_block.party0.move0 = pd2.trade_block.party0.move0 ∧
        pd1.trade_block.party0.move1 = pd2.trade_block.party0.move1 ∧
        pd1.trade_block.party0.move2 = pd2.trade_block.party0.move2 ∧
        pd1.trade_block.party0.move3 = pd2.trade_block.party0.move3 ∧
        pd1.trade_block.party0.ot_id = pd2.trade_block.party0.ot_id ∧
        pd1.trade_block.party0.exp0 = pd2.trade_block.party0.exp0 ∧
        pd1.trade_block.party0.exp1 = pd2.trade_block.party0.exp1 ∧
        pd1.trade_block.party0.exp2 = pd2.trade_block.party0.exp2 ∧
        pd1.trade_block.party0.hp_ev = pd2.trade_block.party0.hp_ev ∧
        pd1.trade_block.party0.atk_ev = pd2.trade_block.party0.atk_ev ∧
        pd1.trade_block.party0.def_ev = pd2.trade_block.party0.def_ev ∧
        pd1.trade_block.party0.spd_ev = pd2.trade_block.party0.spd_ev ∧
        pd1.trade_block.party0.spc_ev = pd2.trade_block.party0.spc_ev ∧
        pd1.trade_block.party0.move_pp = pd2.trade_block.party0.move_pp ∧
        pd1.trade_block.party0.level = pd2.trade_block.party0.level) ∧
      pd1.trade_block.party_rest = pd2.trade_block.party_rest ∧
      pd1.trade_block.ot_name0 = pd2.trade_block.ot_name0 ∧
      pd1.trade_block.ot_name_rest = pd2.trade_block.ot_name_rest ∧
      pd1.trade_block.nickname0 = pd2.trade_block.nickname0 ∧
      pd1.trade_block.nickname_rest = pd2.trade_block.nickname_rest := by
  have h1 := h.1
  simp only [PokemonData.without_iv_stats, PokemonData.mk.injEq, TradeBlockGenI.mk.injEq,
    PokemonPartyGenI.mk.injEq, true_and, and_true] at h1
  exact h1

/-- Writes of identifiers that trigger no recalculation keep two records in
agreement: the written values are the same, or the identifier is the IV word
or a final stat and the records need not be the same. -/
theorem leaf_sim (encode : Encoder) (n rnd1 rnd2 : ℕ) {b : Bool} {pd1 pd2 : PokemonData}
    (h : pd1.agree b pd2) {stat : DataStat}
    (hs : stat ∉ [STAT_LEVEL, STAT_INDEX, STAT_SEL, STAT_NUM]) (w v1 v2 : ℕ)
    (hv : b = true ∨ stat ∉ [STAT_IV, STAT_ATK, STAT_DEF, STAT_SPD, STAT_SPC, STAT_HP] → v1 = v2) :
    Res.rel (PokemonData.agree b) (pokemon_stat_set encode n rnd1 pd1 stat w v1)
      (pokemon_stat_set encode n rnd2 pd2 stat w v2) := by
  cases n with
  | zero => exact rel_fault _ _
  | succ n =>
    obtain ⟨hg, hsel, f1, f2, f3, f4, ⟨q1, q2, q3, q4, q5, q6, q7, q8, q9, q10, q11, q12, q13,
      q14, q15, q16, q17, q18, q19, q20, q21⟩, f5, f6, f7, f8, f9⟩ := agree_fields h
    have hwis : ∀ p1 p2 : PokemonPartyGenI,
        (p1.index = p2.index ∧ p1.level_again = p2.level_again ∧
          p1.status_condition = p2.status_condition ∧ p1.type0 = p2.type0 ∧
          p1.type1 = p2.type1 ∧ p1.catch_held = p2.catch_held ∧ p1.move0 = p2.move0 ∧
          p1.move1 = p2.move1 ∧ p1.move2 = p2.move2 ∧ p1.move3 = p2.move3 ∧
          p1.ot_id = p2.ot_id ∧ p1.exp0 = p2.exp0 ∧ p1.exp1 = p2.exp1 ∧ p1.exp2 = p2.exp2 ∧
          p1.hp_ev = p2.hp_ev ∧ p1.atk_ev = p2.atk_ev ∧ p1.def_ev = p2.def_ev ∧
          p1.spd_ev = p2.spd_ev ∧ p1.spc_ev = p2.spc_ev ∧ p1.move_pp = p2.move_pp ∧
          p1.level = p2.level) → (b = true → p1 = p2) →
        (pd1.set_party p1).agree b (pd2.set_party p2) := by
      intro p1 p2 hp he
      refine agree_set_party h ?_ he
      simp only [PokemonData.without_iv_stats, PokemonData.set_party, PokemonData.mk.injEq,
        TradeBlockGenI.mk.injEq, PokemonPartyGenI.mk.injEq, true_and, and_true]
      exact ⟨hg, hsel, f1, f2, f3, f4, hp, f5, f6, f7, f8, f9⟩
    have he : b = true → pd1 = pd2 := fun hb => (h.2 hb).1
    have hvb : b = true → v1 = v2 := fun hb => hv (Or.inl hb)
    have hpe : b = true → pd1.party = pd2.party := fun hb => by rw [he hb]
    have hfin : ∀ p1 p2 : PokemonPartyGenI,
        (b = true → p1 = p2) →
        (p1.index = p2.index ∧ p1.level_again = p2.level_again ∧
          p1.status_condition = p2.status_condition ∧ p1.type0 = p2.type0 ∧
          p1.type1 = p2.type1 ∧ p1.catch_held = p2.catch_held ∧ p1.move0 = p2.move0 ∧
          p1.move1 = p2.move1 ∧ p1.move2 = p2.move2 ∧ p1.move3 = p2.move3 ∧
          p1.ot_id = p2.ot_id ∧ p1.exp0 = p2.exp0 ∧ p1.exp1 = p2.exp1 ∧ p1.exp2 = p2.exp2 ∧
          p1.hp_ev = p2.hp_ev ∧ p1.atk_ev = p2.atk_ev ∧ p1.def_ev = p2.def_ev ∧
          p1.spd_ev = p2.spd_ev ∧ p1.spc_ev = p2.spc_ev ∧ p1.move_pp = p2.move_pp ∧
          p1.level = p2.level) →
        Res.rel (PokemonData.agree b) (Res.ok (pd1.set_party p1)) (Res.ok (pd2.set_party p2)) :=
      fun p1 p2 he hp => hwis p1 p2 hp he
    by_cases hg1 : pd1.gen = GEN_I
    · have hg2 : pd2.gen = GEN_I := hg ▸ hg1
      cases stat <;>
        first
        | exact absurd (by decide) hs
        | (simp only [pokemon_stat_set, Res.bind_fault]
           exact rel_fault _ _)
        | (have hv0 : v1 = v2 := hv (Or.inr (by decide))
           subst hv0
           simp only [pokemon_stat_set, hg1, hg2, if_true, Res.bind_ok, recalculate_none]
           first
           | exact h
           | (refine hfin _ _ (fun hb => by rw [hpe hb]) ?_
              exact
            ⟨q1, q2, (by first | exact q3 | rfl), q4, q5, q6, q7, q8, q9, q10,
              (by first | exact q11 | rfl), q12, q13, q14, (by first | exact q15 | rfl),
              (by first | exact q16 | rfl), (by first | exact q17 | rfl),
              (by first | exact q18 | rfl), (by first | exact q19 | rfl), q20, q21⟩)
           | (rcases w with _ | _ | _ | _ | w <;>
                first
                | exact rel_fault _ _
                | (simp only [PokemonPartyGenI.move_set, PokemonPartyGenI.type_set,
                     PokemonPartyGenI.exp_set, Res.bind_ok, Res.bind_fault, recalculate_none]
                   first
                   | exact rel_fault _ _
                   | (refine hfin _ _ (fun hb => by rw [hpe hb]) ?_
                      exact
            ⟨q1, q2, q3, (by first | exact q4 | rfl), (by first | exact q5 | rfl), q6,
              (by first | exact q7 | rfl), (by first | exact q8 | rfl),
              (by first | exact q9 | rfl), (by first | exact q10 | rfl), q11,
              (by first | exact q12 | rfl), (by first | exact q13 | rfl),
              (by first | exact q14 | rfl), q15, q16, q17, q18, q19, q20, q21⟩))))
        | (simp only [pokemon_stat_set, hg1, hg2, if_true, Res.bind_ok, recalculate_none]
           refine hfin _ _ (fun hb => by rw [hpe hb, hvb hb]) ?_
           exact
            ⟨q1, q2, q3, q4, q5, q6, q7, q8, q9, q10, q11, q12, q13, q14, q15, q16, q17, q18,
              q19, q20, q21⟩)
    · have hg2 : ¬ pd2.gen = GEN_I := hg ▸ hg1
      cases stat <;>
        first
        | exact absurd (by decide) hs
        | (simp only [pokemon_stat_set, Res.bind_fault]
           exact rel_fault _ _)
        | (simp only [pokemon_stat_set, hg1, hg2, if_false, Res.bind_ok, recalculate_none]
           exact h)


theorem agree_nickname {b : Bool} {pd1 pd2 : PokemonData} (h : pd1.agree b pd2) (x : List ℕ) :
    PokemonData.agree b
      { pd1 with trade_block := { pd1.trade_block with nickname0 := x } }
      { pd2 with trade_block := { pd2.trade_block with nickname0 := x } } := by
  obtain ⟨hg, hsel, f1, f2, f3, f4, hp, f5, f6, f7, f8, f9⟩ := agree_fields h
  refine ⟨?_, fun hb => ?_⟩
  · simp only [PokemonData.without_iv_stats, PokemonData.mk.injEq, TradeBlockGenI.mk.injEq,
      PokemonPartyGenI.mk.injEq, true_and, and_true]
    exact ⟨hg, hsel, f1, f2, f3, f4, hp, f5, f6, f7, f9⟩
  · obtain ⟨rfl, hm⟩ := h.2 hb
    exact ⟨rfl, hm⟩

theorem agree_level_write {b : Bool} {pd1 pd2 : PokemonData} (h : pd1.agree b pd2) (x : ℕ) :
    PokemonData.agree b
      (pd1.set_party { pd1.party with level := x, level_again := x })
      (pd2.set_party { pd2.party with level := x, level_again := x }) := by
  obtain ⟨hg, hsel, f1, f2, f3, f4, ⟨q1, q2, q3, q4, q5, q6, q7, q8, q9, q10, q11, q12, q13,
    q14, q15, q16, q17, q18, q19, q20, q21⟩, f5, f6, f7, f8, f9⟩ := agree_fields h
  refine ⟨?_, fun hb => ?_⟩
  · simp only [PokemonData.without_iv_stats, PokemonData.set_party, PokemonData.party,
      PokemonData.mk.injEq, TradeBlockGenI.mk.injEq, PokemonPartyGenI.mk.injEq, true_and,
      and_true]
    exact ⟨hg, hsel, f1, f2, f3, f4, ⟨q1, q3, q4, q5, q6, q7, q8, q9, q10, q11, q12, q13,
      q14, q15, q16, q17, q18, q19, q20⟩, f5, f6, f7, f8, f9⟩
  · obtain ⟨rfl, hm⟩ := h.2 hb
    exact ⟨rfl, hm⟩

theorem agree_index_write {b : Bool} {pd1 pd2 : PokemonData} (h : pd1.agree b pd2) (x : ℕ) :
    PokemonData.agree b
      { pd1 with
        trade_block := { pd1.trade_block with
          party0 := { pd1.party with index := x }
          party_members0 := x } }
      { pd2 with
        trade_block := { pd2.trade_block with
          party0 := { pd2.party with index := x }
          party_members0 := x } } := by
  obtain ⟨hg, hsel, f1, f2, f3, f4, ⟨q1, q2, q3, q4, q5, q6, q7, q8, q9, q10, q11, q12, q13,
    q14, q15, q16, q17, q18, q19, q20, q21⟩, f5, f6, f7, f8, f9⟩ := agree_fields h
  refine ⟨?_, fun hb => ?_⟩
  · simp only [PokemonData.without_iv_stats, PokemonData.party,
      PokemonData.mk.injEq, TradeBlockGenI.mk.injEq, PokemonPartyGenI.mk.injEq, true_and,
      and_true]
    exact ⟨hg, hsel, f1, f2, f4, ⟨q2, q3, q4, q5, q6, q7, q8, q9, q10, q11, q12, q13,
      q14, q15, q16, q17, q18, q19, q20, q21⟩, f5, f6, f7, f8, f9⟩
  · obtain ⟨rfl, hm⟩ := h.2 hb
    exact ⟨rfl, hm⟩

theorem agree_sel_write {b : Bool} {pd1 pd2 : PokemonData}
    (h1 : pd1.without_iv_stats = pd2.without_iv_stats) (h2 : b = true → pd1 = pd2) (x : ℕ)
    (hm : b = true → x = MAXIV_ZEROEV ∨ x = MAXIV_LEVELEV ∨ x = MAXIV_MAXEV) :
    PokemonData.agree b { pd1 with stat_sel := x } { pd2 with stat_sel := x } := by
  obtain ⟨hg, hsel, f1, f2, f3, f4, hp, f5, f6, f7, f8, f9⟩ :=
    agree_fields (b := false) ⟨h1, fun hb => by cases hb⟩
  refine ⟨?_, fun hb => ?_⟩
  · simp only [PokemonData.without_iv_stats, PokemonData.mk.injEq, TradeBlockGenI.mk.injEq,
      PokemonPartyGenI.mk.injEq, true_and, and_true]
    exact ⟨hg, f1, f2, f3, f4, hp, f5, f6, f7, f8, f9⟩
  · rw [h2 hb]
    exact ⟨rfl, hm hb⟩

theorem nickname_sim (encode : Encoder) {b : Bool} {pd1 pd2 : PokemonData}
    (h : pd1.agree b pd2) :
    Res.rel (fun x y => x.2.agree b y.2) (pokemon_default_nickname_set encode pd1)
      (pokemon_default_nickname_set encode pd2) := by
  unfold pokemon_default_nickname_set
  refine rel_bind (get_plain_sim h (by decide) _) ?_
  rintro ⟨x1, x2⟩ ⟨y1, y2⟩ ⟨hv, hx, hy⟩
  simp only at hv hx hy
  subst hv hx hy
  cases table_stat_name_get pokemon_table x1 with
  | fault e => exact rel_fault _ _
  | ok name =>
    cases name with
    | none => exact rel_fault _ _
    | some s =>
      simp only [Res.bind_ok, pokemon_name_set]
      exact agree_nickname h _

theorem exp_calc_sim {b : Bool} {S1 S2 : Setter}
    (hS : ∀ (pd1 pd2 : PokemonData) (stat : DataStat) (w v1 v2 : ℕ), pd1.agree b pd2 →
      stat ∉ [STAT_LEVEL, STAT_INDEX, STAT_SEL, STAT_NUM] →
      (b = true ∨ stat ∉ [STAT_IV, STAT_ATK, STAT_DEF, STAT_SPD, STAT_SPC, STAT_HP] → v1 = v2) →
      Res.rel (PokemonData.agree b) (S1 pd1 stat w v1) (S2 pd2 stat w v2))
    {pd1 pd2 : PokemonData} (h : pd1.agree b pd2) :
    Res.rel (PokemonData.agree b) (pokemon_exp_calc S1 pd1) (pokemon_exp_calc S2 pd2) := by
  unfold pokemon_exp_calc
  refine rel_bind (base_get_sim h _ _) ?_
  rintro ⟨x1, x2⟩ ⟨y1, y2⟩ ⟨hv, hx, hy⟩
  simp only at hv hx hy
  subst hv hx hy
  refine rel_bind (get_plain_sim h (by decide) _) ?_
  rintro ⟨l1, l2⟩ ⟨m1, m2⟩ ⟨hv, hx, hy⟩
  simp only at hv hx hy
  subst hv hx hy
  refine rel_bind (rel_same _) ?_
  rintro e _ rfl
  unfold pokemon_exp_set
  refine rel_loop _ (fun p1 p2 a _ hR => rel_bind (rel_same _) ?_) _ _ h
  rintro c _ rfl
  exact hS _ _ _ _ _ _ hR (by decide) (fun _ => rfl)

theorem ev_calc_sim {b : Bool} {S1 S2 : Setter}
    (hS : ∀ (pd1 pd2 : PokemonData) (stat : DataStat) (w v1 v2 : ℕ), pd1.agree b pd2 →
      stat ∉ [STAT_LEVEL, STAT_INDEX, STAT_SEL, STAT_NUM] →
      (b = true ∨ stat ∉ [STAT_IV, STAT_ATK, STAT_DEF, STAT_SPD, STAT_SPC, STAT_HP] → v1 = v2) →
      Res.rel (PokemonData.agree b) (S1 pd1 stat w v1) (S2 pd2 stat w v2))
    {pd1 pd2 : PokemonData} (h : pd1.agree b pd2) :
    Res.rel (PokemonData.agree b) (pokemon_stat_ev_calc S1 pd1 pd1.stat_sel)
      (pokemon_stat_ev_calc S2 pd2 pd2.stat_sel) := by
  have hd : ∀ s ∈ [STAT_ATK_EV, STAT_DEF_EV, STAT_SPD_EV, STAT_SPC_EV, STAT_HP_EV],
      s ∉ [STAT_LEVEL, STAT_INDEX, STAT_SEL, STAT_NUM] := by decide
  rw [agree_sel h]
  unfold pokemon_stat_ev_calc
  refine rel_bind (get_plain_sim h (by decide) _) ?_
  rintro ⟨l1, l2⟩ ⟨m1, m2⟩ ⟨hv, hx, hy⟩
  simp only at hv hx hy
  subst hv hx hy
  exact rel_loop _ (fun p1 p2 a ha hR => hS p1 p2 a _ _ _ hR (hd a ha) (fun _ => rfl)) _ _ h

theorem iv_calc_sim {b : Bool} {S1 S2 : Setter}
    (hS : ∀ (pd1 pd2 : PokemonData) (stat : DataStat) (w v1 v2 : ℕ), pd1.agree b pd2 →
      stat ∉ [STAT_LEVEL, STAT_INDEX, STAT_SEL, STAT_NUM] →
      (b = true ∨ stat ∉ [STAT_IV, STAT_ATK, STAT_DEF, STAT_SPD, STAT_SPC, STAT_HP] → v1 = v2) →
      Res.rel (PokemonData.agree b) (S1 pd1 stat w v1) (S2 pd2 stat w v2))
    (rnd1 rnd2 : ℕ) {pd1 pd2 : PokemonData} (h : pd1.agree b pd2) :
    Res.rel (PokemonData.agree b) (pokemon_stat_iv_calc S1 rnd1 pd1 pd1.stat_sel)
      (pokemon_stat_iv_calc S2 rnd2 pd2 pd2.stat_sel) := by
  unfold pokemon_stat_iv_calc
  refine hS _ _ _ _ _ _ h (by decide) ?_
  rintro (hb | hn)
  · obtain ⟨rfl, hm⟩ := h.2 hb
    rw [stat_iv_switch_max rnd1 hm, stat_iv_switch_max rnd2 hm]
  · exact absurd (by decide) hn

theorem stat_calc_sim {b : Bool} {S1 S2 : Setter}
    (hS : ∀ (pd1 pd2 : PokemonData) (stat : DataStat) (w v1 v2 : ℕ), pd1.agree b pd2 →
      stat ∉ [STAT_LEVEL, STAT_INDEX, STAT_SEL, STAT_NUM] →
      (b = true ∨ stat ∉ [STAT_IV, STAT_ATK, STAT_DEF, STAT_SPD, STAT_SPC, STAT_HP] → v1 = v2) →
      Res.rel (PokemonData.agree b) (S1 pd1 stat w v1) (S2 pd2 stat w v2))
    {pd1 pd2 : PokemonData} (h : pd1.agree b pd2) (stat : DataStat) :
    Res.rel (PokemonData.agree b) (pokemon_stat_calc S1 pd1 stat)
      (pokemon_stat_calc S2 pd2 stat) := by
  unfold pokemon_stat_calc
  refine rel_bind (get_plain_sim h (by decide) _) ?_
  rintro ⟨l1, l2⟩ ⟨m1, m2⟩ ⟨hv, hx, hy⟩
  simp only at hv hx hy
  subst hv hx hy
  cases hb : stat.base with
  | none => exact rel_fault _ _
  | some bs =>
    simp only
    refine rel_bind (base_get_sim h _ _) ?_
    rintro ⟨x1, x2⟩ ⟨y1, y2⟩ ⟨hv, hx, hy⟩
    simp only at hv hx hy
    subst hv hx hy
    refine rel_bind (ev_get_sim h _) ?_
    rintro ⟨e1, e2⟩ ⟨g1, g2⟩ ⟨hv, hx, hy⟩
    simp only at hv hx hy
    subst hv hx hy
    refine rel_bind (iv_get_sim h _) ?_
    rintro ⟨i1, i2⟩ ⟨j1, j2⟩ ⟨hx, hy, hv⟩
    simp only at hv hx hy
    subst hx hy
    refine hS _ _ _ _ _ _ h (base_some_derived hb) ?_
    rintro (hb1 | hn)
    · rw [hv hb1]
    · cases stat <;> first | exact absurd (by decide) hn | cases hb

/-- A recalculation keeps two records in agreement when the setter it is given
does on the identifiers a recalculation writes. -/
theorem recalculate_sim (encode : Encoder) {b : Bool} {S1 S2 : Setter}
    (hS : ∀ (pd1 pd2 : PokemonData) (stat : DataStat) (w v1 v2 : ℕ), pd1.agree b pd2 →
      stat ∉ [STAT_LEVEL, STAT_INDEX, STAT_SEL, STAT_NUM] →
      (b = true ∨ stat ∉ [STAT_IV, STAT_ATK, STAT_DEF, STAT_SPD, STAT_SPC, STAT_HP] → v1 = v2) →
      Res.rel (PokemonData.agree b) (S1 pd1 stat w v1) (S2 pd2 stat w v2))
    (rnd1 rnd2 : ℕ) {pd1 pd2 : PokemonData} (h : pd1.agree b pd2) (recalc : ℕ) :
    Res.rel (PokemonData.agree b) (pokemon_recalculate encode S1 rnd1 pd1 recalc)
      (pokemon_recalculate encode S2 rnd2 pd2 recalc) := by
  unfold pokemon_recalculate
  refine rel_ite (fun _ => h) (fun _ => ?_)
  refine rel_bind (r := PokemonData.agree b)
    (rel_ite (fun _ => rel_bind (nickname_sim encode h) (fun x y hxy => hxy)) (fun _ => h)) ?_
  intro p1 q1 h1
  refine rel_bind (r := PokemonData.agree b) (rel_ite (fun _ => ?_) (fun _ => h1)) ?_
  · refine rel_loop (R := PokemonData.agree b) _ ?_ _ _ h1
    intro p q a _ hR
    refine rel_bind (base_get_sim hR _ _) ?_
    rintro ⟨x1, x2⟩ ⟨y1, y2⟩ ⟨hv, hx, hy⟩
    simp only at hv hx hy
    subst hv hx hy
    exact hS _ _ _ _ _ _ hR (by decide) (fun _ => rfl)
  intro p2 q2 h2
  refine rel_bind (r := PokemonData.agree b) (rel_ite (fun _ => ?_) (fun _ => h2)) ?_
  · refine rel_loop (R := PokemonData.agree b) _ ?_ _ _ h2
    intro p q a _ hR
    refine rel_bind (base_get_sim hR _ _) ?_
    rintro ⟨x1, x2⟩ ⟨y1, y2⟩ ⟨hv, hx, hy⟩
    simp only at hv hx hy
    subst hv hx hy
    exact hS _ _ _ _ _ _ hR (by decide) (fun _ => rfl)
  intro p3 q3 h3
  refine rel_bind (r := PokemonData.agree b)
    (rel_ite (fun _ => exp_calc_sim hS h3) (fun _ => h3)) ?_
  intro p4 q4 h4
  refine rel_bind (r := PokemonData.agree b)
    (rel_ite (fun _ => rel_bind (ev_calc_sim hS h4) (fun p5 q5 h5 => iv_calc_sim hS rnd1 rnd2 h5))
      (fun _ => h4)) ?_
  intro p6 q6 h6
  exact rel_ite (fun _ => rel_loop _ (fun p q a _ hR => stat_calc_sim hS hR a) _ _ h6)
    (fun _ => h6)


/-- A write of an identifier other than species position keeps two records in
agreement. With `b = true` the preset the recalculation runs under, the one
written by a write to the selector of a Gen I record and the one of the
record otherwise, is a max-IV preset. -/
theorem set_sim_plain (encode : Encoder) (n rnd1 rnd2 : ℕ) {b : Bool} {pd1 pd2 : PokemonData}
    {stat : DataStat} (hs : stat ≠ STAT_NUM) (w v1 v2 : ℕ)
    (h1 : pd1.without_iv_stats = pd2.without_iv_stats) (he : b = true → pd1 = pd2)
    (hsel1 : b = true → stat = STAT_SEL ∧ pd1.gen = GEN_I →
      v1 % 65536 = MAXIV_ZEROEV ∨ v1 % 65536 = MAXIV_LEVELEV ∨ v1 % 65536 = MAXIV_MAXEV)
    (hsel2 : b = true → ¬(stat = STAT_SEL ∧ pd1.gen = GEN_I) →
      pd1.stat_sel = MAXIV_ZEROEV ∨ pd1.stat_sel = MAXIV_LEVELEV ∨ pd1.stat_sel = MAXIV_MAXEV)
    (hv : b = true ∨ stat ∉ [STAT_IV, STAT_ATK, STAT_DEF, STAT_SPD, STAT_SPC, STAT_HP] → v1 = v2) :
    Res.rel (PokemonData.agree b) (pokemon_stat_set encode n rnd1 pd1 stat w v1)
      (pokemon_stat_set encode n rnd2 pd2 stat w v2) := by
  have hg : pd1.gen = pd2.gen := congrArg (fun r => r.gen) h1
  by_cases hd : stat ∈ [STAT_LEVEL, STAT_INDEX, STAT_SEL, STAT_NUM]
  · cases n with
    | zero => exact rel_fault _ _
    | succ n =>
      have hS := fun (p1 p2 : PokemonData) (s : DataStat) (w v1 v2 : ℕ) (hR : p1.agree b p2)
        (hs : s ∉ [STAT_LEVEL, STAT_INDEX, STAT_SEL, STAT_NUM])
        (hv : b = true ∨ s ∉ [STAT_IV, STAT_ATK, STAT_DEF, STAT_SPD, STAT_SPC, STAT_HP] →
          v1 = v2) => leaf_sim encode n rnd1 rnd2 hR hs w v1 v2 hv
      simp only [List.mem_cons, List.mem_singleton, List.not_mem_nil, or_false] at hd
      rcases hd with rfl | rfl | rfl | rfl
      · have hv0 : v1 = v2 := hv (Or.inr (by decide))
        subst hv0
        have hA : pd1.agree b pd2 := ⟨h1, fun hb => ⟨he hb, hsel2 hb (by simp)⟩⟩
        rw [set_level_unfold, set_level_unfold]
        refine recalculate_sim encode hS rnd1 rnd2 ?_ _
        by_cases hg1 : pd1.gen = GEN_I
        · rw [if_pos hg1, if_pos (hg ▸ hg1)]
          exact agree_level_write hA _
        · rw [if_neg hg1, if_neg (hg ▸ hg1)]
          exact hA
      · have hv0 : v1 = v2 := hv (Or.inr (by decide))
        subst hv0
        have hA : pd1.agree b pd2 := ⟨h1, fun hb => ⟨he hb, hsel2 hb (by simp)⟩⟩
        rw [set_index_unfold, set_index_unfold]
        refine recalculate_sim encode hS rnd1 rnd2 ?_ _
        by_cases hg1 : pd1.gen = GEN_I
        · rw [if_pos hg1, if_pos (hg ▸ hg1)]
          exact agree_index_write hA _
        · rw [if_neg hg1, if_neg (hg ▸ hg1)]
          exact hA
      · have hv0 : v1 = v2 := hv (Or.inr (by decide))
        subst hv0
        rw [set_sel_unfold, set_sel_unfold]
        refine recalculate_sim encode hS rnd1 rnd2 ?_ _
        by_cases hg1 : pd1.gen = GEN_I
        · rw [if_pos hg1, if_pos (hg ▸ hg1)]
          exact agree_sel_write h1 he _ (fun hb => hsel1 hb ⟨rfl, hg1⟩)
        · rw [if_neg hg1, if_neg (hg ▸ hg1)]
          exact ⟨h1, fun hb => ⟨he hb, hsel2 hb (fun hc => hg1 hc.2)⟩⟩
      · exact absurd rfl hs
  · have hA : pd1.agree b pd2 :=
      ⟨h1, fun hb => ⟨he hb, hsel2 hb (fun hc => hd (by rw [hc.1]; decide))⟩⟩
    exact leaf_sim encode n rnd1 rnd2 hA hd w v1 v2 hv

/-- A write of any identifier keeps two records in agreement. -/
theorem set_sim (encode : Encoder) (n rnd1 rnd2 : ℕ) {b : Bool} {pd1 pd2 : PokemonData}
    (stat : DataStat) (w v1 v2 : ℕ)
    (h1 : pd1.without_iv_stats = pd2.without_iv_stats) (he : b = true → pd1 = pd2)
    (hsel1 : b = true → stat = STAT_SEL ∧ pd1.gen = GEN_I →
      v1 % 65536 = MAXIV_ZEROEV ∨ v1 % 65536 = MAXIV_LEVELEV ∨ v1 % 65536 = MAXIV_MAXEV)
    (hsel2 : b = true → ¬(stat = STAT_SEL ∧ pd1.gen = GEN_I) →
      pd1.stat_sel = MAXIV_ZEROEV ∨ pd1.stat_sel = MAXIV_LEVELEV ∨ pd1.stat_sel = MAXIV_MAXEV)
    (hv : b = true ∨ stat ∉ [STAT_IV, STAT_ATK, STAT_DEF, STAT_SPD, STAT_SPC, STAT_HP] → v1 = v2) :
    Res.rel (PokemonData.agree b) (pokemon_stat_set encode n rnd1 pd1 stat w v1)
      (pokemon_stat_set encode n rnd2 pd2 stat w v2) := by
  by_cases hs : stat = STAT_NUM
  · subst hs
    have hv0 : v1 = v2 := hv (Or.inr (by decide))
    subst hv0
    cases n with
    | zero => exact rel_fault _ _
    | succ n =>
      rw [set_num_unfold, set_num_unfold]
      refine rel_bind (rel_same _) ?_
      rintro row _ rfl
      exact set_sim_plain encode n rnd1 rnd2 (by decide) _ _ _ h1 he
        (fun _ hc => absurd hc.1 (by decide)) (fun hb _ => hsel2 hb (fun hc => absurd hc.1 (by decide)))
        (fun _ => rfl)
  · exact set_sim_plain encode n rnd1 rnd2 hs w v1 v2 h1 he hsel1 hsel2 hv

theorem rel_agree_map {a1 a2 : Res PokemonData} (h : Res.rel (PokemonData.agree false) a1 a2) :
    a1.map PokemonData.without_iv_stats = a2.map PokemonData.without_iv_stats := by
  cases a1 with
  | ok x =>
    cases a2 with
    | ok y => exact congrArg Res.ok h.1
    | fault f => exact h.elim
  | fault e =>
    cases a2 with
    | ok y => exact h.elim
    | fault f => exact congrArg Res.fault h

theorem rel_agree_eq {a1 a2 : Res PokemonData} (h : Res.rel (PokemonData.agree true) a1 a2) :
    a1 = a2 := by
  cases a1 with
  | ok x =>
    cases a2 with
    | ok y => exact congrArg Res.ok (h.2 rfl).1
    | fault f => exact h.elim
  | fault e =>
    cases a2 with
    | ok y => exact h.elim
    | fault f => exact congrArg Res.fault h

/-- C37: for every record, identifier, sub-index, value and recursion budget,
two runs of `pokemon_stat_set` that differ only in what `rand()` returns both
return or both fail for the same reason, and the records they return agree on
everything apart from the IV word and the five final stats with current and max
HP: tag, selector, species code, level, experience, effort values, moves, types,
trainer ID, status condition, nickname and names. When the preset the
recalculation runs under (the written one for a write to the selector of a
Gen I record, the record's otherwise) is a max-IV preset, the two runs give the
same outcome. -/
theorem random_draw_confined (encode : Encoder) (fuel rnd1 rnd2 : ℕ) (pdata : PokemonData)
    (stat : DataStat) (which val : ℕ) :
    (pokemon_stat_set encode fuel rnd1 pdata stat which val).map PokemonData.without_iv_stats
        = (pokemon_stat_set encode fuel rnd2 pdata stat which val).map
            PokemonData.without_iv_stats ∧
      (∀ r1 r2, pokemon_stat_set encode fuel rnd1 pdata stat which val = Res.ok r1 →
        pokemon_stat_set encode fuel rnd2 pdata stat which val = Res.ok r2 →
        r1.gen = r2.gen ∧ r1.stat_sel = r2.stat_sel ∧ r1.party.index = r2.party.index ∧
        r1.party.level = r2.party.level ∧ r1.party.level_again = r2.party.level_again ∧
        r1.party.exp = r2.party.exp ∧
        [r1.party.hp_ev, r1.party.atk_ev, r1.party.def_ev, r1.party.spd_ev, r1.party.spc_ev]
          = [r2.party.hp_ev, r2.party.atk_ev, r2.party.def_ev, r2.party.spd_ev,
              r2.party.spc_ev] ∧
        [r1.party.move0, r1.party.move1, r1.party.move2, r1.party.move3]
          = [r2.party.move0, r2.party.move1, r2.party.move2, r2.party.move3] ∧
        [r1.party.type0, r1.party.type1] = [r2.party.type0, r2.party.type1] ∧
        r1.party.ot_id = r2.party.ot_id ∧
        r1.party.status_condition = r2.party.status_condition ∧
        r1.trade_block.nickname0 = r2.trade_block.nickname0 ∧
        r1.trade_block.ot_name0 = r2.trade_block.ot_name0 ∧
        r1.trade_block.trainer_name = r2.trade_block.trainer_name) ∧
      ((stat = STAT_SEL ∧ pdata.gen = GEN_I →
          val % 65536 = MAXIV_ZEROEV ∨ val % 65536 = MAXIV_LEVELEV ∨
            val % 65536 = MAXIV_MAXEV) →
        (¬(stat = STAT_SEL ∧ pdata.gen = GEN_I) →
          pdata.stat_sel = MAXIV_ZEROEV ∨ pdata.stat_sel = MAXIV_LEVELEV ∨
            pdata.stat_sel = MAXIV_MAXEV) →
        pokemon_stat_set encode fuel rnd1 pdata stat which val
          = pokemon_stat_set encode fuel rnd2 pdata stat which val) := by
  have hf : Res.rel (PokemonData.agree false)
      (pokemon_stat_set encode fuel rnd1 pdata stat which val)
      (pokemon_stat_set encode fuel rnd2 pdata stat which val) :=
    set_sim encode fuel rnd1 rnd2 stat which val val rfl (fun hb => by cases hb)
      (fun hb => by cases hb) (fun hb => by cases hb) (fun _ => rfl)
  refine ⟨rel_agree_map hf, ?_, ?_⟩
  · intro r1 r2 e1 e2
    rw [e1, e2] at hf
    obtain ⟨hg, hsel, f1, f2, f3, f4, ⟨q1, q2, q3, q4, q5, q6, q7, q8, q9, q10, q11, q12, q13,
      q14, q15, q16, q17, q18, q19, q20, q21⟩, f5, f6, f7, f8, f9⟩ := agree_fields hf
    refine ⟨hg, hsel, q1, q21, q2, ?_, ?_, ?_, ?_, q11, q3, f8, f6, f1⟩
    · simp only [PokemonPartyGenI.exp, PokemonData.party, q12, q13, q14]
    · simp only [PokemonData.party, q15, q16, q17, q18, q19]
    · simp only [PokemonData.party, q7, q8, q9, q10]
    · simp only [PokemonData.party, q4, q5]
  · intro hsel1 hsel2
    exact rel_agree_eq (set_sim encode fuel rnd1 rnd2 stat which val val rfl (fun _ => rfl)
      (fun _ => hsel1) (fun _ => hsel2) (fun _ => rfl))

/-- C37 on the sample record under the preset random IV / zero EV: writes of
level 50 with the draws 0 and 65535 both return, the IV words are 0 and 65535,
and level and experience are the same. -/
theorem random_draw_confined_witness :
    ∃ r1 r2,
      pokemon_stat_set sample_encode 2 0 { sample_record with stat_sel := RANDIV_ZEROEV }
        STAT_LEVEL NONE 50 = Res.ok r1 ∧
      pokemon_stat_set sample_encode 2 65535 { sample_record with stat_sel := RANDIV_ZEROEV }
        STAT_LEVEL NONE 50 = Res.ok r2 ∧
      r1.party.iv = 0 ∧ r2.party.iv = 65535 ∧ r1.party.level = r2.party.level ∧
      r1.party.exp = r2.party.exp := by
  have hc : exp_switch GROWTH_MEDIUM_SLOW ((50 : ℕ) : ℤ) = Res.ok 117360 := by decide
  have e1 := set_level_ok sample_encode 0 0 sample_row sample_row_name
    (rfl : ({ sample_record with stat_sel := RANDIV_ZEROEV } : PokemonData).gen = GEN_I) rfl
    NONE 50 (by decide) hc
  have e2 := set_level_ok sample_encode 0 65535 sample_row sample_row_name
    (rfl : ({ sample_record with stat_sel := RANDIV_ZEROEV } : PokemonData).gen = GEN_I) rfl
    NONE 50 (by decide) hc
  obtain ⟨_, _, _, h4, _, h6, _⟩ := (random_draw_confined sample_encode 2 0 65535
    { sample_record with stat_sel := RANDIV_ZEROEV } STAT_LEVEL NONE 50).2.1 _ _ e1 e2
  exact ⟨_, _, e1, e2, rfl, rfl, h4, h6⟩

/-- C36 at the row of Bulbasaur: its first move code `0x21` and its first type
code `0x16` are found by the lookups. -/
theorem catalog_closed_witness :
    (namelist_pos_get move_list 0x21).bind (namelist_index_get move_list) = Res.ok 0x21 ∧
      (namelist_pos_get type_list 0x16).bind (namelist_index_get type_list) = Res.ok 0x16 :=
  have h := catalog_closed _ (List.get?_mem sample_row) sample_row_name
  ⟨(h.1.2 0x21 (by decide)).2, (h.2.2 0x16 (by decide)).2⟩

end Pkmn
